import Mathlib

/-!
# SmartGuard: browser-side controllers of the surveillance dashboard

A shallow embedding of the JavaScript controllers
(`drone-control.js`, `object-detection.js`, `analytics.js`, `main.js`).

Conventions of the embedding.

* A controller is a record of its fields; a method is a function from the
  record (and the part of the page it touches) to the new record together
  with the list of externally visible effects, in program order.
* An `await fetch(..)` followed by `await response.json()` is one question to
  the environment, answered by a `FetchOutcome`: either something threw
  (the fetch rejected, the body was not JSON) or a parsed envelope came back.
* A field that the JSON envelope may lack is an `Option`; `none` is the
  JavaScript `undefined`.
* Numbers are rationals; `Math.random()`, `Date.now()`, `Math.cos`,
  `Math.sin` and `Math.sqrt` are parameters of the functions that call them.
* A number of the program is a double. Where the rounding of an arithmetic
  result decides what is shown (`updateSummaryStats`, `calculateTrend`), the
  result of each operation is rounded with `roundDouble`, the rounding to the
  nearest double with ties to the even significand; the other functions are
  given in exact arithmetic.
* A loop whose end depends on the random draws takes a fuel argument and
  returns `none` when the fuel is used up.
* Console output is not an effect of the model.
-/

set_option autoImplicit false

namespace SmartGuard

/-! ## Shared vocabulary -/

/-- Body of a request: the serialised detection parameters, or nothing. -/
structure DetectionParams where
  mode : String
  sensitivity : Int
  target_classes : List String
  facial_recognition : Bool
  threat_assessment : Bool
  deriving DecidableEq, Repr

/-- Externally visible effects of a controller method, in program order. -/
inductive Effect where
  /-- A call of the controller method `showNotification(message, type)`. -/
  | notify (message : String) (type : String)
  /-- A call of `fetch(url, ..)` with the given method and body. -/
  | request (method : String) (url : String) (body : Option DetectionParams)
  /-- A call of the global `addLogEntry(message)`. -/
  | log (message : String)
  /-- A call of `fetch(url, ..)` whose body is the object with the one field
  `route_points`, a list of map points. -/
  | routeRequest (method : String) (url : String) (route_points : List (ℚ × ℚ))
  /-- A call of `setTimeout(callback, delay)`, the callback given by the name
  of the method it runs. -/
  | setTimeout (callback : String) (delay : Nat)
  deriving DecidableEq, Repr

/-- Is the effect a network request. -/
def Effect.isRequest : Effect → Bool
  | .request _ _ _ => true
  | .routeRequest _ _ _ => true
  | _ => false

/-- Is the effect a notification. -/
def Effect.isNotify : Effect → Bool
  | .notify _ _ => true
  | _ => false

/-- Is the effect a request with method POST. -/
def Effect.isPost : Effect → Bool
  | .request method _ _ => method = "POST"
  | .routeRequest method _ _ => method = "POST"
  | _ => false

/-- Is the effect a call of `addLogEntry`. -/
def Effect.isLog : Effect → Bool
  | .log _ => true
  | _ => false

/-- The network requests of a trace. -/
def requests (tr : List Effect) : List Effect := tr.filter Effect.isRequest

/-- The notifications of a trace. -/
def notifications (tr : List Effect) : List Effect := tr.filter Effect.isNotify

/-- What `await fetch(..)` and `await response.json()` produce together. -/
inductive FetchOutcome (α : Type) where
  /-- The fetch rejected, or the body could not be parsed. -/
  | threw
  /-- The parsed JSON envelope. -/
  | resolved (data : α)
  deriving Repr

/-- String conversion of a possibly undefined string, as in a template literal. -/
def jsString : Option String → String
  | some s => s
  | none => "undefined"

/-- String conversion of a possibly undefined integer, as in a template literal. -/
def jsInt : Option Int → String
  | some n => toString n
  | none => "undefined"

/-- The function an interval timer of the controllers runs. -/
inductive TimerCallback where
  /-- Calls `loadDroneData`. -/
  | dronePoll
  /-- Calls `loadAnalyticsData` and `updateSummaryStats`. -/
  | analyticsPoll
  /-- Calls `runDetection` unless a detection is active. -/
  | continuousDetection
  /-- A function of another script of the page. -/
  | other
  deriving DecidableEq, Repr

/-- A live interval timer of the window. -/
structure Timer where
  id : Nat
  callback : TimerCallback
  delay : Nat
  deriving DecidableEq, Repr

/-- The interval timers of the window: those not yet cleared, and the last
identifier handed out. Identifiers are positive and never reused. -/
structure Timers where
  live : List Timer
  lastId : Nat
  deriving DecidableEq, Repr

/-- The call `setInterval(callback, delay)`: the identifier returned and the
timers afterwards. -/
def Timers.setInterval (t : Timers) (callback : TimerCallback) (delay : Nat) : Nat × Timers :=
  (t.lastId + 1,
   { live := t.live ++ [{ id := t.lastId + 1, callback := callback, delay := delay }]
     lastId := t.lastId + 1 })

/-- The call `clearInterval(id)`; an undefined or unknown identifier clears
nothing. -/
def Timers.clearInterval (t : Timers) (id : Option Nat) : Timers :=
  match id with
  | none => t
  | some i => { t with live := t.live.filter (fun x => x.id ≠ i) }

/-- The identifiers of the live timers. -/
def Timers.liveIds (t : Timers) : List Nat := t.live.map Timer.id

/-- Truthiness of a field that holds a timer identifier or `null`. -/
def truthyId : Option Nat → Bool
  | some i => i ≠ 0
  | none => false

/-- White space that `parseInt` skips at the start of its argument: tab,
vertical tab, form feed, the byte order mark, the line terminators (line feed,
carriage return, line and paragraph separator) and every space separator of
Unicode (the space, the no-break space, U+1680, U+2000 to U+200A, U+202F,
U+205F and U+3000). -/
def isJsWhitespace (c : Char) : Bool :=
  c = ' ' || c = '\t' || c = '\n' || c = '\x0b' || c = '\x0c' || c = '\r'
    || c = '\u00a0' || c = '\ufeff' || c = '\u2028' || c = '\u2029'
    || c = '\u1680' || ('\u2000' ≤ c && c ≤ '\u200a') || c = '\u202f' || c = '\u205f'
    || c = '\u3000'

/-- The value of a character as a digit of a radix up to 16. -/
def digitValue (c : Char) : Option Nat :=
  if '0' ≤ c ∧ c ≤ '9' then some (c.toNat - 48)
  else if 'a' ≤ c ∧ c ≤ 'f' then some (c.toNat - 87)
  else if 'A' ≤ c ∧ c ≤ 'F' then some (c.toNat - 55)
  else none

/-- The longest run of digits of the radix at the start of the characters,
as a number; `acc` is the value read so far, `none` when no digit was read. -/
def parseDigits (radix : Nat) : List Char → Option Nat → Option Nat
  | [], acc => acc
  | c :: cs, acc =>
    match digitValue c with
    | some d => if d < radix then parseDigits radix cs (some (acc.getD 0 * radix + d)) else acc
    | none => acc

/-- The function `parseInt(s)` without radix argument: leading white space
and a sign are skipped, `0x` selects radix 16, the longest run of digits is
read; `none` is NaN. The result is the integer the digits denote; the number
the program holds is that integer rounded to a double, the same integer when
its magnitude is at most `2 ^ 53`. -/
def jsParseInt (s : String) : Option Int :=
  let trimmed := s.toList.dropWhile isJsWhitespace
  let signed : Bool × List Char :=
    match trimmed with
    | '-' :: r => (true, r)
    | '+' :: r => (false, r)
    | r => (false, r)
  let based : Nat × List Char :=
    match signed.2 with
    | '0' :: 'x' :: r => (16, r)
    | '0' :: 'X' :: r => (16, r)
    | r => (10, r)
  (parseDigits based.1 based.2 none).map
    (fun v => if signed.1 then -(v : Int) else (v : Int))

/-- The expression `parseInt(s) || d`: NaN and zero are falsy. -/
def parseIntOr (s : String) (d : Int) : Int :=
  match jsParseInt s with
  | none => d
  | some k => if k = 0 then d else k

/-- The method `toFixed(1)`: the nearest number with one decimal, the larger
one on a tie, with its sign. -/
def toFixed1 (x : ℚ) : String :=
  let tenths : Int := ⌊|x| * 10 + 1 / 2⌋
  (if x < 0 then "-" else "") ++ toString (tenths / 10) ++ "." ++ toString (tenths % 10)

/-- The number of halvings that bring `n` below 2, counted with at most
`fuel` steps: for `n` from 1 to `fuel`, the position of the leading binary
digit of `n`. -/
def floorLog2 : Nat → Nat → Nat
  | 0, _ => 0
  | fuel + 1, n => if n < 2 then 0 else floorLog2 fuel (n / 2) + 1

/-- The binary exponent of a number other than zero: the integer `e` with
`2 ^ e ≤ |x| < 2 ^ (e + 1)`. The difference of the leading digit positions of
numerator and denominator is `e` or `e + 1`. -/
def binade (x : ℚ) : Int :=
  if (2 : ℚ) ^ ((floorLog2 x.num.natAbs x.num.natAbs : Int) - (floorLog2 x.den x.den : Int)) ≤ |x|
  then (floorLog2 x.num.natAbs x.num.natAbs : Int) - (floorLog2 x.den x.den : Int)
  else (floorLog2 x.num.natAbs x.num.natAbs : Int) - (floorLog2 x.den x.den : Int) - 1

/-- The nearest integer, the even one on a tie. -/
def roundHalfEven (x : ℚ) : Int :=
  if x - ⌊x⌋ < 1 / 2 then ⌊x⌋
  else if 1 / 2 < x - ⌊x⌋ then ⌊x⌋ + 1
  else if ⌊x⌋ % 2 = 0 then ⌊x⌋ else ⌊x⌋ + 1

/-- The double that an arithmetic result is stored as: the nearest multiple
of the spacing of the doubles around it, `2 ^ (e - 52)` for binary exponent
`e` and `2 ^ (-1074)` below the normal range, the one with the even
significand on a tie. Results beyond the largest double, which the program
holds as `Infinity`, are outside the model. -/
def roundDouble (x : ℚ) : ℚ :=
  if x = 0 then 0
  else (roundHalfEven (x / 2 ^ max (binade x - 52) (-1074)) : ℚ)
    * 2 ^ max (binade x - 52) (-1074)

/-- String conversion of a number whose value is an integer of magnitude
below `10 ^ 21`: its decimal digits, with a minus sign when negative. Larger
numbers, which the program prints with an exponent, are outside the model. -/
def integerText (x : ℚ) : String := toString ⌊x⌋

/-- The method `Array.prototype.reduce` with the index passed to the
callback, from index `i` on. -/
def reduceFrom (f : ℚ → ℚ → Nat → ℚ) : Nat → ℚ → List ℚ → ℚ
  | _, acc, [] => acc
  | i, acc, v :: rest => reduceFrom f (i + 1) (f acc v i) rest

/-- The call `data.reduce(f, init)`. -/
def reduce (f : ℚ → ℚ → Nat → ℚ) (init : ℚ) (data : List ℚ) : ℚ := reduceFrom f 0 init data

/-! ## object-detection.js -/

/-- A detection record of the response. -/
structure Detection where
  object_type : String
  confidence : ℚ
  x : ℚ
  y : ℚ
  width : ℚ
  height : ℚ
  timestamp : String
  detection_mode : String
  deriving DecidableEq, Repr

/-- The `analysis` object of a detection response. -/
structure Analysis where
  total_objects : Option Int
  deriving DecidableEq, Repr

/-- Envelope returned by `/api/detect-objects/`. -/
structure DetectionResponse where
  success : Bool
  detections : Option (List Detection)
  analysis : Option Analysis
  error : Option String
  deriving DecidableEq, Repr

/-- Fields of `ObjectDetectionSystem`, as set up by its constructor. -/
structure ObjectDetectionSystem where
  isDetectionActive : Bool
  detectionMode : String
  sensitivity : Int
  targetClasses : List String
  detectionResults : Option (List Detection)
  facialRecognitionEnabled : Bool
  threatAssessmentEnabled : Bool
  continuousDetectionActive : Bool
  continuousInterval : Option Nat
  deriving DecidableEq, Repr

/-- The `#detection-feed` element: its markers, its progress overlays, and
the class names of its `.detection-overlay` children in document order. -/
structure DetectionFeed where
  markers : List Detection
  progressOverlays : Nat
  overlays : List String
  deriving DecidableEq, Repr

/-- The part of the page the detection controller touches; an absent element
is `none`. -/
structure DetectionDom where
  runBtnDisabled : Option Bool
  detectionFeed : Option DetectionFeed
  resultsList : Option (List Detection)
  deriving DecidableEq, Repr

/-- A toggle button (`#continuous-detection`, `#toggle-realtime`): its markup
and whether it carries the class `active`. -/
structure ToggleButton where
  innerHTML : String
  active : Bool
  deriving DecidableEq, Repr

/-- The object `exportResults` serialises into the downloaded file. -/
structure ExportData where
  timestamp : String
  detection_mode : String
  sensitivity : Int
  target_classes : List String
  total_detections : Nat
  results : List Detection
  deriving DecidableEq, Repr

/-- Outcome of `exportResults`: whether it threw, the file handed to the
browser (name and content) if any, and the effects. -/
structure ExportRun where
  threw : Bool
  file : Option (String × ExportData)
  effects : List Effect
  deriving DecidableEq, Repr

namespace ObjectDetectionSystem

/-- The constructor of `ObjectDetectionSystem`. -/
def new : ObjectDetectionSystem where
  isDetectionActive := false
  detectionMode := "standard"
  sensitivity := 7
  targetClasses := ["person", "vehicle"]
  detectionResults := some []
  facialRecognitionEnabled := true
  threatAssessmentEnabled := true
  continuousDetectionActive := false
  continuousInterval := none

/-- The method `showDetectionProgress`: disables the button and appends a
progress overlay to the feed. -/
def showDetectionProgress (dom : DetectionDom) : DetectionDom :=
  { dom with
    runBtnDisabled := dom.runBtnDisabled.map (fun _ => true)
    detectionFeed := dom.detectionFeed.map
      (fun f => { f with progressOverlays := f.progressOverlays + 1 }) }

/-- The method `hideDetectionProgress`: enables the button and removes the
first progress overlay of the document. -/
def hideDetectionProgress (dom : DetectionDom) : DetectionDom :=
  { dom with
    runBtnDisabled := dom.runBtnDisabled.map (fun _ => false)
    detectionFeed := dom.detectionFeed.map
      (fun f => { f with progressOverlays := f.progressOverlays - 1 }) }

/-- The method `updateDetectionDisplay`: returns early without a feed; with
a feed the old markers are removed and `detections.forEach` then throws on an
undefined list. The flag tells whether the method threw. -/
def updateDetectionDisplay (dom : DetectionDom) (detections : Option (List Detection)) :
    DetectionDom × Bool :=
  match dom.detectionFeed with
  | none => (dom, false)
  | some f =>
    match detections with
    | none => ({ dom with detectionFeed := some { f with markers := [] } }, true)
    | some ds => ({ dom with detectionFeed := some { f with markers := ds } }, false)

/-- The method `updateResultsList`: returns early without the list element;
with it the list is emptied and `detections.forEach` then throws on an
undefined list. The flag tells whether the method threw. -/
def updateResultsList (dom : DetectionDom) (detections : Option (List Detection)) :
    DetectionDom × Bool :=
  match dom.resultsList with
  | none => (dom, false)
  | some _ =>
    match detections with
    | none => ({ dom with resultsList := some [] }, true)
    | some ds => ({ dom with resultsList := some ds }, false)

/-- The method `processDetectionResults`. The assignment to `detectionResults`
comes first and survives a later throw, so the controller is returned in both
cases; the flag tells whether the method threw. The remaining steps only write
to the console. -/
def processDetectionResults (s : ObjectDetectionSystem) (dom : DetectionDom)
    (data : DetectionResponse) : ObjectDetectionSystem × DetectionDom × Bool :=
  let s1 := { s with detectionResults := data.detections }
  match updateDetectionDisplay dom data.detections with
  | (dom1, true) => (s1, dom1, true)
  | (dom1, false) =>
    match updateResultsList dom1 data.detections with
    | (dom2, threw) => (s1, dom2, threw)

/-- The parameters `runDetection` serialises into the request body. -/
def detectionParams (s : ObjectDetectionSystem) : DetectionParams where
  mode := s.detectionMode
  sensitivity := s.sensitivity
  target_classes := s.targetClasses
  facial_recognition := s.facialRecognitionEnabled
  threat_assessment := s.threatAssessmentEnabled

/-- Result of the synchronous first part of `runDetection`. -/
structure Started where
  /-- Did the call pass the guard and send its request. -/
  inFlight : Bool
  ctrl : ObjectDetectionSystem
  dom : DetectionDom
  effects : List Effect
  deriving DecidableEq, Repr

/-- First part of `runDetection`, up to the first `await`: the guard, then the
flag, the progress display and the request. -/
def runDetectionBegin (s : ObjectDetectionSystem) (dom : DetectionDom) : Started :=
  if s.isDetectionActive then
    { inFlight := false, ctrl := s, dom := dom,
      effects := [Effect.notify "Detection already in progress" "warning"] }
  else
    { inFlight := true
      ctrl := { s with isDetectionActive := true }
      dom := showDetectionProgress dom
      effects := [Effect.request "POST" "/api/detect-objects/" (some (detectionParams s))] }

/-- Body of the `try` after the awaits, with its `catch`: the controller, the
page and the notifications produced. -/
def runDetectionHandle (s : ObjectDetectionSystem) (dom : DetectionDom) :
    FetchOutcome DetectionResponse → ObjectDetectionSystem × DetectionDom × List Effect
  | .threw => (s, dom, [Effect.notify "Detection failed" "error"])
  | .resolved data =>
    if data.success then
      match processDetectionResults s dom data with
      | (s1, dom1, true) => (s1, dom1, [Effect.notify "Detection failed" "error"])
      | (s1, dom1, false) =>
        match data.analysis with
        | none => (s1, dom1, [Effect.notify "Detection failed" "error"])
        | some a =>
          (s1, dom1, [Effect.notify
            ("Detection complete: " ++ jsInt a.total_objects ++ " objects found") "success"])
    else
      (s, dom, [Effect.notify (jsString data.error) "error"])

/-- Second part of `runDetection`, run when the awaited response arrives: the
rest of the `try`, the `catch` and the `finally`. -/
def runDetectionComplete (s : ObjectDetectionSystem) (dom : DetectionDom)
    (out : FetchOutcome DetectionResponse) :
    ObjectDetectionSystem × DetectionDom × List Effect :=
  match runDetectionHandle s dom out with
  | (s1, dom1, eff) =>
    ({ s1 with isDetectionActive := false }, hideDetectionProgress dom1, eff)

/-- The method `runDetection`, run to completion against one answer of the
environment, with nothing else scheduled in between. -/
def runDetection (s : ObjectDetectionSystem) (dom : DetectionDom)
    (out : FetchOutcome DetectionResponse) :
    ObjectDetectionSystem × DetectionDom × List Effect :=
  let st := runDetectionBegin s dom
  if st.inFlight then
    match runDetectionComplete st.ctrl st.dom out with
    | (s1, dom1, eff) => (s1, dom1, st.effects ++ eff)
  else
    (st.ctrl, st.dom, st.effects)

/-- The table `modeDescriptions` of `updateDetectionSettings`. -/
def modeDescriptions (mode : String) : Option String :=
  if mode = "standard" then some "Standard object detection with basic classification"
  else if mode = "enhanced" then
    some "Enhanced detection with weapon and threat identification"
  else if mode = "thermal" then some "Thermal imaging mode for heat signature detection"
  else if mode = "night" then some "Night vision mode with infrared enhancement"
  else none

/-- The method `updateDetectionOverlay`: without a feed nothing happens;
otherwise the first existing overlay is removed and a new one, classed by the
mode, is appended. -/
def updateDetectionOverlay (s : ObjectDetectionSystem) (dom : DetectionDom) : DetectionDom :=
  match dom.detectionFeed with
  | none => dom
  | some f =>
    let cls :=
      if s.detectionMode = "thermal" then "detection-overlay thermal-mode"
      else if s.detectionMode = "night" then "detection-overlay night-mode"
      else if s.detectionMode = "enhanced" then "detection-overlay enhanced-mode"
      else "detection-overlay"
    { dom with detectionFeed := some { f with overlays := f.overlays.drop 1 ++ [cls] } }

/-- The method `updateDetectionSettings`: the description of the mode is
shown and the overlay is redrawn. -/
def updateDetectionSettings (s : ObjectDetectionSystem) (dom : DetectionDom) :
    DetectionDom × List Effect :=
  (updateDetectionOverlay s dom,
   [Effect.notify (jsString (modeDescriptions s.detectionMode)) "info"])

/-- The `change` listener of the `#detection-mode` selector, for the value
selected. -/
def onDetectionModeChange (s : ObjectDetectionSystem) (dom : DetectionDom) (value : String) :
    ObjectDetectionSystem × DetectionDom × List Effect :=
  let s1 := { s with detectionMode := value }
  let r := updateDetectionSettings s1 dom
  (s1, r.1, r.2)

/-- The method `exportResults`; `iso1` and `iso2` are what the two calls of
`new Date().toISOString()` return. Reading the length of an undefined
`detectionResults` throws. -/
def exportResults (s : ObjectDetectionSystem) (iso1 iso2 : String) : ExportRun :=
  match s.detectionResults with
  | none => { threw := true, file := none, effects := [] }
  | some results =>
    if results.length = 0 then
      { threw := false, file := none
        effects := [Effect.notify "No detection results to export" "warning"] }
    else
      let exportData : ExportData :=
        { timestamp := iso1
          detection_mode := s.detectionMode
          sensitivity := s.sensitivity
          target_classes := s.targetClasses
          total_detections := results.length
          results := results }
      { threw := false
        file := some ("detection_results_" ++ (iso2.take 19).replace ":" "-" ++ ".json",
                      exportData)
        effects := [Effect.notify "Detection results exported successfully" "success"] }

/-- The callback of the interval that `toggleContinuousDetection` creates:
`runDetection` is called, up to its first `await`, unless a detection is
active. -/
def continuousDetectionTick (s : ObjectDetectionSystem) (dom : DetectionDom) : Started :=
  if !s.isDetectionActive then runDetectionBegin s dom
  else { inFlight := false, ctrl := s, dom := dom, effects := [] }

/-- The method `toggleContinuousDetection`; `btn` is the button, `none` when
the page has none. When stopping, the interval field keeps its cleared
identifier. -/
def toggleContinuousDetection (s : ObjectDetectionSystem) (btn : Option ToggleButton)
    (t : Timers) : ObjectDetectionSystem × Option ToggleButton × Timers × List Effect :=
  match btn with
  | none => (s, none, t, [])
  | some _ =>
    if s.continuousDetectionActive then
      ({ s with continuousDetectionActive := false },
       some { innerHTML := "<i class=\"fas fa-play\"></i> Continuous", active := false },
       t.clearInterval s.continuousInterval,
       [Effect.notify "Continuous detection stopped" "info"])
    else
      let created := t.setInterval TimerCallback.continuousDetection 10000
      ({ s with continuousDetectionActive := true, continuousInterval := some created.1 },
       some { innerHTML := "<i class=\"fas fa-stop\"></i> Stop", active := true },
       created.2,
       [Effect.notify "Continuous detection started" "info"])

end ObjectDetectionSystem

/-! ## drone-control.js -/

/-- A drone record of the `/api/drones/` response. -/
structure Drone where
  id : Int
  name : String
  type : String
  status : String
  battery_level : Int
  signal_strength : Int
  deriving DecidableEq, Repr

/-- Envelope returned by `/api/drones/`. -/
structure DronesResponse where
  success : Bool
  drones : Option (List Drone)
  deriving DecidableEq, Repr

/-- Envelope returned by the command endpoints of a drone. -/
structure CommandResponse where
  success : Bool
  message : Option String
  error : Option String
  deriving DecidableEq, Repr

/-- `Map.prototype.get` on a map kept as its entries in insertion order. -/
def mapGet : List (Int × Drone) → Int → Option Drone
  | [], _ => none
  | (k1, v1) :: rest, k => if k1 = k then some v1 else mapGet rest k

/-- `Map.prototype.set`: an existing key keeps its place and takes the new
value, a new key is appended. -/
def mapSet : List (Int × Drone) → Int → Drone → List (Int × Drone)
  | [], k, v => [(k, v)]
  | (k1, v1) :: rest, k, v =>
    if k1 = k then (k, v) :: rest else (k1, v1) :: mapSet rest k v

/-- `Map.prototype.values`, as an array. -/
def mapValues (m : List (Int × Drone)) : List Drone := m.map Prod.snd

/-- Fields of `DroneController`. -/
structure DroneController where
  selectedDroneId : Int
  drones : List (Int × Drone)
  isRealTimeActive : Bool
  updateInterval : Option Nat
  deriving DecidableEq, Repr

/-- An `option` element of the drone selector. -/
structure SelectorOption where
  value : Int
  textContent : String
  deriving DecidableEq, Repr

/-- An element carrying `data-drone-id`: the attribute, what `parseFloat`
reads from `style.left` and `style.top` (`none` is NaN), the class name, and
the class list of its `.drone-icon` child when it has one. -/
structure DroneElement where
  droneId : Int
  left : Option ℚ
  top : Option ℚ
  className : String
  icon : Option (List String)
  deriving DecidableEq, Repr

/-- The part of the page the drone controller touches. -/
structure DroneDom where
  selector : Option (List SelectorOption)
  droneElements : List DroneElement
  deriving DecidableEq, Repr

/-- The sources of nondeterminism a synchronous run consults. Each call of
`Date.now()`, `new Date()` or `Math.random()` takes the next index;
`getHours` is the local hour of a time stamp in milliseconds. -/
structure Oracle where
  now : Nat → ℚ
  random : Nat → ℚ
  getHours : ℚ → Nat
  cos : ℚ → ℚ
  sin : ℚ → ℚ

/-- The expression `parseFloat(v) || d`: NaN and zero are falsy. -/
def parseFloatOr (v : Option ℚ) (d : ℚ) : ℚ :=
  match v with
  | none => d
  | some x => if x = 0 then d else x

/-- The expression `Math.max(5, Math.min(95, x))`. -/
def keepWithinBounds (x : ℚ) : ℚ := max 5 (min 95 x)

namespace DroneController

/-- The constructor of `DroneController`, before `init` runs. -/
def new : DroneController where
  selectedDroneId := 1
  drones := []
  isRealTimeActive := false
  updateInterval := none

/-- The method `updateDroneData`: one `Map.set` per received drone. -/
def updateDroneData (cache : List (Int × Drone)) (drones : List Drone) :
    List (Int × Drone) :=
  drones.foldl (fun m d => mapSet m d.id d) cache

/-- The method `updateDroneSelector`: the options are rebuilt from the list. -/
def updateDroneSelector (dom : DroneDom) (drones : List Drone) : DroneDom :=
  match dom.selector with
  | none => dom
  | some _ =>
    { dom with selector := some (drones.map (fun d =>
        { value := d.id
          textContent := d.name ++ " - " ++ d.type ++ " (" ++ d.status ++ ")" })) }

/-- The unclamped target of `animateDroneMovement` and the next oracle index. -/
def movementTarget (o : Oracle) (n : Nat) (currentLeft currentTop : ℚ) (d : Drone) :
    ℚ × ℚ × Nat :=
  if d.status = "patrolling" then
    let time := o.now n / 1000
    (50 + o.cos (time * (1 / 10) + d.id) * 15,
     50 + o.sin (time * (1 / 10) + d.id) * 15, n + 1)
  else if d.status = "scanning" then
    (currentLeft + (o.random n - 1 / 2) * (1 / 2),
     currentTop + (o.random (n + 1) - 1 / 2) * (1 / 2), n + 2)
  else
    (currentLeft + (o.random n - 1 / 2) * 2,
     currentTop + (o.random (n + 1) - 1 / 2) * 2, n + 2)

/-- The method `animateDroneMovement`: the element with its new `left` and
`top`, and the next oracle index. -/
def animateDroneMovement (o : Oracle) (n : Nat) (el : DroneElement) (d : Drone) :
    DroneElement × Nat :=
  let currentLeft := parseFloatOr el.left 20
  let currentTop := parseFloatOr el.top 30
  match movementTarget o n currentLeft currentTop d with
  | (newLeft, newTop, n1) =>
    ({ el with left := some (keepWithinBounds newLeft)
               top := some (keepWithinBounds newTop) }, n1)

/-- ASCII whitespace, which `DOMTokenList.add` rejects inside a token. -/
def isAsciiWhitespace (c : Char) : Bool :=
  c = ' ' || c = '\t' || c = '\n' || c = '\x0c' || c = '\r'

/-- `classList.remove(..)`. -/
def classListRemove (cls : List String) (tokens : List String) : List String :=
  cls.filter (fun c => !tokens.contains c)

/-- `classList.add(token)`: throws on a token with whitespace, otherwise
appends the token unless present. -/
def classListAdd (cls : List String) (token : String) : Except Unit (List String) :=
  if token.toList.any isAsciiWhitespace then .error ()
  else if cls.contains token then .ok cls
  else .ok (cls ++ [token])

/-- The method `updateDroneIconStatus` on the class list of the icon: the
class list it leaves, and whether it threw. A throw of the first `add` comes
after the `remove` has been done. -/
def updateDroneIconStatus (icon : List String) (status : String) (batteryLevel : Int) :
    List String × Bool :=
  let removed := classListRemove icon
    ["status-deployed", "status-patrolling", "status-scanning", "status-standby",
     "status-low-battery"]
  match classListAdd removed ("status-" ++ status) with
  | .error _ => (removed, true)
  | .ok added =>
    if batteryLevel < 20 then
      match classListAdd added "status-low-battery" with
      | .error _ => (added, true)
      | .ok warned => (warned, false)
    else (added, false)

/-- Body of the `forEach` of `updateDroneMap` once the element is found: the
element after the update, the next oracle index, and whether it threw. -/
def updateDroneElement (o : Oracle) (n : Nat) (el : DroneElement) (d : Drone) :
    DroneElement × Nat × Bool :=
  let moved :=
    if d.status = "patrolling" ∨ d.status = "scanning" then animateDroneMovement o n el d
    else (el, n)
  let el1 := { moved.1 with
    className := "drone drone-" ++ toString d.id ++ " status-" ++ d.status }
  match el1.icon with
  | none => (el1, moved.2, false)
  | some icon =>
    match updateDroneIconStatus icon d.status d.battery_level with
    | (icon1, threw) => ({ el1 with icon := some icon1 }, moved.2, threw)

/-- Replace the first element carrying the given `data-drone-id`, which is
the one `document.querySelector` returns. -/
def updateFirst (els : List DroneElement) (id : Int)
    (f : DroneElement → DroneElement × Nat × Bool) (n : Nat) :
    List DroneElement × Nat × Bool :=
  match els with
  | [] => ([], n, false)
  | el :: rest =>
    if el.droneId = id then
      match f el with
      | (el1, n1, threw) => (el1 :: rest, n1, threw)
    else
      match updateFirst rest id f n with
      | (rest1, n1, threw) => (el :: rest1, n1, threw)

/-- The method `updateDroneMap`: drones are handled in order and a throw
ends the loop, keeping what was written so far. -/
def updateDroneMap (o : Oracle) : Nat → List DroneElement → List Drone →
    List DroneElement × Nat × Bool
  | n, els, [] => (els, n, false)
  | n, els, d :: rest =>
    match updateFirst els d.id (fun el => updateDroneElement o n el d) n with
    | (els1, n1, true) => (els1, n1, true)
    | (els1, n1, false) => updateDroneMap o n1 els1 rest

/-- Outcome of a controller method: the controller, the page, the effects in
program order and the next oracle index. -/
structure Run where
  ctrl : DroneController
  dom : DroneDom
  effects : List Effect
  next : Nat
  deriving DecidableEq, Repr

/-- The part of `loadDroneData` after the awaits: the success branch, where
an undefined `data.drones` makes `updateDroneData` throw, and the `catch`. -/
def loadDroneDataComplete (c : DroneController) (dom : DroneDom) (o : Oracle) (n : Nat) :
    FetchOutcome DronesResponse → Run
  | .threw =>
    { ctrl := c, dom := dom, next := n
      effects := [Effect.notify "Failed to load drone data" "error"] }
  | .resolved data =>
    if data.success then
      match data.drones with
      | none =>
        { ctrl := c, dom := dom, next := n
          effects := [Effect.notify "Failed to load drone data" "error"] }
      | some drones =>
        let c1 := { c with drones := updateDroneData c.drones drones }
        let dom1 := updateDroneSelector dom drones
        match updateDroneMap o n dom1.droneElements drones with
        | (els, n1, threw) =>
          { ctrl := c1, dom := { dom1 with droneElements := els }, next := n1
            effects :=
              if threw then [Effect.notify "Failed to load drone data" "error"] else [] }
    else
      { ctrl := c, dom := dom, next := n, effects := [] }

/-- The request `loadDroneData` sends before its first `await`. -/
def loadDroneDataBegin : List Effect := [Effect.request "GET" "/api/drones/" none]

/-- The method `loadDroneData`, run to completion against one answer of the
environment. -/
def loadDroneData (c : DroneController) (dom : DroneDom) (o : Oracle) (n : Nat)
    (out : FetchOutcome DronesResponse) : Run :=
  let r := loadDroneDataComplete c dom o n out
  { r with effects := loadDroneDataBegin ++ r.effects }

/-- The filter of `emergencyRecallAll` and `getDroneStatistics`. -/
def isActive (d : Drone) : Bool :=
  ["deployed", "patrolling", "scanning"].contains d.status

/-- The array `activeDrones` of `emergencyRecallAll`. -/
def activeDrones (c : DroneController) : List Drone :=
  (mapValues c.drones).filter isActive

/-- The request `emergencyRecallAll` sends for one drone. -/
def recallRequest (d : Drone) : Effect :=
  Effect.request "POST" ("/api/drones/" ++ toString d.id ++ "/recall/") none

/-- Does `Promise.all` over `count` promises reject, the promise at position
`i` rejecting when `rejects i`. -/
def anyRejects (rejects : Nat → Bool) (count : Nat) : Bool :=
  (List.range count).any rejects

/-- The method `emergencyRecallAll`, up to the return of its last statement;
`rejects i` tells whether the request for the active drone at position `i`
rejects. The reload it starts on success is the request of `loadDroneData`,
whose answer is handled by `loadDroneDataComplete`. The controller fields are
not written. -/
def emergencyRecallAll (c : DroneController) (rejects : Nat → Bool) : List Effect :=
  let active := activeDrones c
  [Effect.notify "Emergency recall initiated..." "warning"]
    ++ active.map recallRequest
    ++ (if anyRejects rejects active.length then
          [Effect.notify "Emergency recall failed" "error"]
        else
          [Effect.notify
              ("Emergency recall complete: " ++ toString active.length ++ " drones recalled")
              "success"]
            ++ loadDroneDataBegin)

/-- The method `logDroneActivity`: the message goes to the global
`addLogEntry`, which `main.js` defines on the page. -/
def logDroneActivity (_action : String) (message : Option String) : List Effect :=
  [Effect.log (jsString message)]

/-- The url of a command for the selected drone. -/
def commandUrl (c : DroneController) (action : String) : String :=
  "/api/drones/" ++ toString c.selectedDroneId ++ "/" ++ action ++ "/"

/-- The method `deployDrone`, run to completion against one answer of the
environment. The controller fields are not written; the reload it starts is
the request of `loadDroneData`. -/
def deployDrone (c : DroneController) (out : FetchOutcome CommandResponse) : List Effect :=
  [Effect.notify "Deploying drone..." "info",
   Effect.request "POST" (commandUrl c "deploy") none]
    ++ (match out with
        | .threw => [Effect.notify "Failed to deploy drone" "error"]
        | .resolved data =>
          if data.success then
            [Effect.notify (jsString data.message) "success"]
              ++ loadDroneDataBegin
              ++ logDroneActivity "deploy" data.message
          else
            [Effect.notify (jsString data.error) "error"])

/-- The method `recallDrone`, as `deployDrone`. -/
def recallDrone (c : DroneController) (out : FetchOutcome CommandResponse) : List Effect :=
  [Effect.notify "Recalling drone..." "info",
   Effect.request "POST" (commandUrl c "recall") none]
    ++ (match out with
        | .threw => [Effect.notify "Failed to recall drone" "error"]
        | .resolved data =>
          if data.success then
            [Effect.notify (jsString data.message) "success"]
              ++ loadDroneDataBegin
              ++ logDroneActivity "recall" data.message
          else
            [Effect.notify (jsString data.error) "error"])

/-- The method `scanArea`, as `deployDrone`; on success it also schedules
`simulateScanResults` three seconds later. -/
def scanArea (c : DroneController) (out : FetchOutcome CommandResponse) : List Effect :=
  [Effect.notify "Initiating area scan..." "info",
   Effect.request "POST" (commandUrl c "scan") none]
    ++ (match out with
        | .threw => [Effect.notify "Failed to initiate scan" "error"]
        | .resolved data =>
          if data.success then
            [Effect.notify (jsString data.message) "success"]
              ++ loadDroneDataBegin
              ++ logDroneActivity "scan" data.message
              ++ [Effect.setTimeout "simulateScanResults" 3000]
          else
            [Effect.notify (jsString data.error) "error"])

/-- The method `setPatrolRoute`, run to completion against one answer of the
environment. -/
def setPatrolRoute (c : DroneController) (routePoints : List (ℚ × ℚ))
    (out : FetchOutcome CommandResponse) : List Effect :=
  [Effect.routeRequest "POST" (commandUrl c "set-route") routePoints]
    ++ (match out with
        | .threw => [Effect.notify "Failed to set patrol route" "error"]
        | .resolved data =>
          if data.success then [Effect.notify "Patrol route set successfully" "success"]
          else [Effect.notify (jsString data.error) "error"])

/-- The method `startRealTimeUpdates`: a no-op while the flag is set,
otherwise the flag is set and a 5 second interval is created. -/
def startRealTimeUpdates (c : DroneController) (t : Timers) : DroneController × Timers :=
  if c.isRealTimeActive then (c, t)
  else
    let created := t.setInterval TimerCallback.dronePoll 5000
    ({ c with isRealTimeActive := true, updateInterval := some created.1 }, created.2)

/-- The method `stopRealTimeUpdates`: a truthy `updateInterval` is cleared
and set to `null`; the flag is reset in any case. -/
def stopRealTimeUpdates (c : DroneController) (t : Timers) : DroneController × Timers :=
  if truthyId c.updateInterval then
    ({ c with updateInterval := none, isRealTimeActive := false },
     t.clearInterval c.updateInterval)
  else
    ({ c with isRealTimeActive := false }, t)

end DroneController

/-! ## analytics.js -/

/-- A labelled series of the analytics snapshot. -/
structure Series where
  labels : List String
  data : List ℚ
  deriving DecidableEq, Repr

/-- The object held in `analyticsData`: the response envelope, the mock
object, or the empty object of the constructor. -/
structure AnalyticsData where
  success : Option Bool
  detection_frequency : Option Series
  object_distribution : Option Series
  threat_distribution : Option Series
  deriving DecidableEq, Repr

/-- The charts of `this.charts`, each with the data it displays; a chart
that was not created is `none`. -/
structure Charts where
  detection : Option Series
  coverage : Option (List ℚ)
  threat : Option (List ℚ)
  performance : Option (List ℚ)
  deriving DecidableEq, Repr

/-- Fields of `AnalyticsSystem`. -/
structure AnalyticsSystem where
  charts : Charts
  analyticsData : AnalyticsData
  updateInterval : Option Nat
  isRealTimeActive : Bool
  deriving DecidableEq, Repr

/-- The elements of the page that `setupCharts` looks for. -/
structure AnalyticsPage where
  detectionCanvas : Bool
  coverageCanvas : Bool
  analyticsRow : Bool
  deriving DecidableEq, Repr

/-- `String(n).padStart(2, "0")`. -/
def padStart2 (n : Nat) : String :=
  if n < 10 then "0" ++ toString n else toString n

namespace AnalyticsSystem

/-- The constructor of `AnalyticsSystem`, before `init` runs. -/
def new : AnalyticsSystem where
  charts := { detection := none, coverage := none, threat := none, performance := none }
  analyticsData :=
    { success := none, detection_frequency := none, object_distribution := none,
      threat_distribution := none }
  updateInterval := none
  isRealTimeActive := false

/-- The method `setupCharts`: each chart is created with its initial data
when its canvas can be found; the threat and performance canvases are
inserted by the method itself into the analytics row. -/
def setupCharts (s : AnalyticsSystem) (page : AnalyticsPage) : AnalyticsSystem :=
  { s with charts :=
    { detection :=
        if page.detectionCanvas then some { labels := [], data := [] } else s.charts.detection
      coverage := if page.coverageCanvas then some [92, 8] else s.charts.coverage
      threat := if page.analyticsRow then some [45, 23, 12, 3] else s.charts.threat
      performance :=
        if page.analyticsRow then some [65, 45, 80, 55, 90, 95] else s.charts.performance } }

/-- The expression `Math.floor(Math.random() * k) + b` on the draw `r`. -/
def randomInt (r : ℚ) (k b : Int) : ℚ := ((⌊r * k⌋ + b : Int) : ℚ)

/-- The method `updateCharts`: the charts and the next oracle index. -/
def updateCharts (charts : Charts) (data : AnalyticsData) (o : Oracle) (n : Nat) :
    Charts × Nat :=
  let detection :=
    match charts.detection, data.detection_frequency with
    | some _, some f => some { labels := f.labels, data := f.data }
    | d, _ => d
  let cov : Option (List ℚ) × Nat :=
    match charts.coverage with
    | some _ =>
      let coverage := randomInt (o.random n) 10 85
      (some [coverage, 100 - coverage], n + 1)
    | none => (none, n)
  let threat :=
    match charts.threat, data.threat_distribution with
    | some _, some t => some t.data
    | t, _ => t
  let perf : Option (List ℚ) × Nat :=
    match charts.performance with
    | some _ =>
      (some [randomInt (o.random cov.2) 30 40, randomInt (o.random (cov.2 + 1)) 20 35,
             randomInt (o.random (cov.2 + 2)) 15 75, randomInt (o.random (cov.2 + 3)) 20 45,
             randomInt (o.random (cov.2 + 4)) 10 85, randomInt (o.random (cov.2 + 5)) 5 90],
       cov.2 + 6)
    | none => (none, cov.2)
  ({ detection := detection, coverage := cov.1, threat := threat, performance := perf.1 },
   perf.2)

/-- The loop of `generateMockData`, for `i` from `k - 1` down to `0`: the
hour labels and the detection counts, the draw of iteration `i` being at
oracle index `n + (k - 1 - i)`. -/
def mockHours (o : Oracle) (now : ℚ) (n : Nat) : Nat → Nat → List String × List ℚ
  | 0, _ => ([], [])
  | k + 1, j =>
    let hour := o.getHours (now - (k : ℚ) * 60 * 60 * 1000)
    let rest := mockHours o now n k (j + 1)
    ((padStart2 hour ++ ":00") :: rest.1, randomInt (o.random (n + j)) 20 5 :: rest.2)

/-- The method `generateMockData`: `new Date()` takes oracle index `n`, the
24 draws of the loop the next 24, then `updateCharts` runs. -/
def generateMockData (s : AnalyticsSystem) (o : Oracle) (n : Nat) : AnalyticsSystem × Nat :=
  let series := mockHours o (o.now n) (n + 1) 24 0
  let data : AnalyticsData :=
    { success := none
      detection_frequency := some { labels := series.1, data := series.2 }
      object_distribution :=
        some { labels := ["Person", "Vehicle", "Animal", "Unknown"], data := [45, 30, 15, 10] }
      threat_distribution :=
        some { labels := ["Low", "Medium", "High", "Critical"], data := [45, 23, 12, 3] } }
  let upd := updateCharts s.charts data o (n + 25)
  ({ s with analyticsData := data, charts := upd.1 }, upd.2)

/-- The part of `loadAnalyticsData` after the awaits: a truthy `success`
stores and draws the envelope, anything else in the envelope does nothing,
and the `catch` generates the mock data. -/
def loadAnalyticsDataComplete (s : AnalyticsSystem) (o : Oracle) (n : Nat) :
    FetchOutcome AnalyticsData → AnalyticsSystem × Nat
  | .threw => generateMockData s o n
  | .resolved data =>
    if data.success = some true then
      let upd := updateCharts s.charts data o n
      ({ s with analyticsData := data, charts := upd.1 }, upd.2)
    else (s, n)

/-- The method `loadAnalyticsData`, run to completion against one answer of
the environment: the controller, its effects and the next oracle index. -/
def loadAnalyticsData (s : AnalyticsSystem) (o : Oracle) (n : Nat)
    (out : FetchOutcome AnalyticsData) : AnalyticsSystem × List Effect × Nat :=
  let r := loadAnalyticsDataComplete s o n out
  (r.1, [Effect.request "GET" "/api/analytics-data/" none], r.2)

/-- The method `startRealTimeUpdates`: a no-op while the flag is set,
otherwise the flag is set and a 30 second interval is created. -/
def startRealTimeUpdates (s : AnalyticsSystem) (t : Timers) : AnalyticsSystem × Timers :=
  if s.isRealTimeActive then (s, t)
  else
    let created := t.setInterval TimerCallback.analyticsPoll 30000
    ({ s with isRealTimeActive := true, updateInterval := some created.1 }, created.2)

/-- The method `stopRealTimeUpdates`: a truthy `updateInterval` is cleared
and set to `null`; the flag is reset in any case. -/
def stopRealTimeUpdates (s : AnalyticsSystem) (t : Timers) : AnalyticsSystem × Timers :=
  if truthyId s.updateInterval then
    ({ s with updateInterval := none, isRealTimeActive := false },
     t.clearInterval s.updateInterval)
  else
    ({ s with isRealTimeActive := false }, t)

/-- The method `toggleRealTime`; `btn` is the button, `none` when the page
has none, in which case nothing happens. -/
def toggleRealTime (s : AnalyticsSystem) (btn : Option ToggleButton) (t : Timers) :
    AnalyticsSystem × Option ToggleButton × Timers × List Effect :=
  match btn with
  | none => (s, none, t, [])
  | some _ =>
    if s.isRealTimeActive then
      let r := stopRealTimeUpdates s t
      (r.1, some { innerHTML := "<i class=\"fas fa-play\"></i> Real-time", active := false },
       r.2, [Effect.notify "Real-time updates stopped" "info"])
    else
      let r := startRealTimeUpdates s t
      (r.1, some { innerHTML := "<i class=\"fas fa-stop\"></i> Stop", active := true },
       r.2, [Effect.notify "Real-time updates started" "info"])

end AnalyticsSystem

/-! ## Sequences of real-time calls -/

/-- A call of one of the real-time methods of a controller. -/
inductive RealTimeCall where
  | start
  | stop
  /-- The method `toggleRealTime`, which only `AnalyticsSystem` has; the
  flag tells whether the page has the toggle button. -/
  | toggle (hasButton : Bool)
  deriving DecidableEq, Repr

/-- One call on the drone controller; the controller has no `toggleRealTime`,
so a toggle leaves it as it is. -/
def DroneController.realTimeStep (st : DroneController × Timers) :
    RealTimeCall → DroneController × Timers
  | .start => DroneController.startRealTimeUpdates st.1 st.2
  | .stop => DroneController.stopRealTimeUpdates st.1 st.2
  | .toggle _ => st

/-- One call on the analytics controller. -/
def AnalyticsSystem.realTimeStep (st : AnalyticsSystem × Timers) :
    RealTimeCall → AnalyticsSystem × Timers
  | .start => AnalyticsSystem.startRealTimeUpdates st.1 st.2
  | .stop => AnalyticsSystem.stopRealTimeUpdates st.1 st.2
  | .toggle hasButton =>
    let btn : Option ToggleButton :=
      if hasButton then some { innerHTML := "", active := false } else none
    let r := AnalyticsSystem.toggleRealTime st.1 btn st.2
    (r.1, r.2.2.1)

/-- The timers a controller has created and not cleared: the live timers
that were not live at the start. -/
def ownTimers (t0 t : Timers) : List Timer := t.live.filter (fun x => !t0.live.contains x)

/-- The relation that the real-time methods keep between the flag, the
interval field and the timers of the window, `t0` being the timers when the
controller was constructed: either the flag is down, the field is `null` and
the live timers are those of `t0`; or the flag is up, the field holds the
identifier of a timer created since, and that timer is the one live timer
added to those of `t0`. -/
def RealTimeInv (t0 : Timers) (active : Bool) (interval : Option Nat) (t : Timers) : Prop :=
  t0.lastId ≤ t.lastId
    ∧ ((active = false ∧ interval = none ∧ t.live = t0.live)
      ∨ (active = true ∧ ∃ tm : Timer, interval = some tm.id ∧ t0.lastId < tm.id
          ∧ tm.id ≤ t.lastId ∧ t.live = t0.live ++ [tm]))

/-- The timers of a window in which no interval was ever created. -/
def noTimers : Timers where
  live := []
  lastId := 0

/-! ## main.js: the activity log -/

/-- An entry element of the activity log. -/
structure LogEntry where
  className : String
  time : String
  message : String
  deriving DecidableEq, Repr

/-- A child node of the log container: an element, or a text node such as
the white space between the tags of the page source. -/
inductive LogNode where
  | element (entry : LogEntry)
  | text (content : String)
  deriving DecidableEq, Repr

/-- Is the node an element. -/
def LogNode.isElement : LogNode → Bool
  | .element _ => true
  | .text _ => false

/-- The collection `children` of the container: its element children. -/
def children (nodes : List LogNode) : List LogNode := nodes.filter LogNode.isElement

/-- The element `addLogEntry` creates, at local time `hours:minutes`; the
default `type` is the empty string. -/
def newLogEntry (hours minutes : Nat) (message : String) (type : String) : LogEntry where
  className := "log-entry" ++ (if type = "" then "" else " " ++ type)
  time := padStart2 hours ++ ":" ++ padStart2 minutes
  message := message

/-- The function `addLogEntry` on the child nodes of `#alert-log-entries`
(`none` when the page has no such element), at local time `hours:minutes`.
The new entry goes before the first child; when more than 10 element
children result, the last child node is removed. -/
def addLogEntry (container : Option (List LogNode)) (hours minutes : Nat)
    (message : String) (type : String) : Option (List LogNode) :=
  match container with
  | none => none
  | some nodes =>
    let inserted := LogNode.element (newLogEntry hours minutes message type) :: nodes
    if (children inserted).length > 10 then some inserted.dropLast else some inserted

/-! ## main.js: the drone status poll -/

/-- Envelope returned by `/api/drone-status/`. -/
structure DroneStatusResponse where
  success : Bool
  drones : Option (List Drone)
  active_count : Option Int
  total_count : Option Int
  deriving DecidableEq, Repr

/-- The part of the page the drone status poll touches: the elements
carrying `data-drone-id` and the text of `#active-drones-count`, `none` when
the page has no such element. -/
structure StatusDom where
  droneElements : List DroneElement
  activeDronesCount : Option String
  deriving DecidableEq, Repr

/-- Body of the `forEach` of `updateDroneDisplay` once the element is found:
a patrolling drone moves by at most 5 within 10 and 90, and the class name is
rewritten. -/
def updateDroneDisplayElement (o : Oracle) (n : Nat) (el : DroneElement) (d : Drone) :
    DroneElement × Nat × Bool :=
  let moved : DroneElement × Nat :=
    if d.status = "patrolling" then
      let currentLeft := parseFloatOr el.left 20
      let currentTop := parseFloatOr el.top 30
      ({ el with
          left := some (max 10 (min 90 (currentLeft + (o.random n - 1 / 2) * 10)))
          top := some (max 10 (min 90 (currentTop + (o.random (n + 1) - 1 / 2) * 10))) },
       n + 2)
    else (el, n)
  ({ moved.1 with className := "drone drone-" ++ toString d.id ++ " status-" ++ d.status },
   moved.2, false)

/-- The function `updateDroneDisplay` on a defined list of drones. -/
def updateDroneDisplay (o : Oracle) : Nat → List DroneElement → List Drone →
    List DroneElement × Nat
  | n, els, [] => (els, n)
  | n, els, d :: rest =>
    match DroneController.updateFirst els d.id
        (fun el => updateDroneDisplayElement o n el d) n with
    | (els1, n1, _) => updateDroneDisplay o n1 els1 rest

/-- The first declaration of `updateDroneCount`, with the parameters
`active` and `total`. The second declaration of the same name, further down
the script, replaces it before any code runs, so no call reaches it. -/
def updateDroneCountShadowed (count : Option String) (active total : Option Int) :
    Option String :=
  match count with
  | none => none
  | some _ => some (jsInt active ++ "/" ++ jsInt total)

/-- The text before the first `/`: the expression `text.split("/")[0]`. -/
def beforeSlash (text : String) : String := String.mk (text.toList.takeWhile (fun c => c ≠ '/'))

/-- The draws of the second `updateDroneCount`: a count from 0 to 5 is drawn
until it differs from the current one. With the fuel used up the loop is
still running, which is `none`. -/
def drawNewCount (o : Oracle) (current : Option Int) : Nat → Nat → Option (Int × Nat)
  | 0, _ => none
  | fuel + 1, n =>
    let newCount : Int := ⌊o.random n * 6⌋
    if some newCount = current then drawNewCount o current fuel (n + 1)
    else some (newCount, n + 1)

/-- The second declaration of `updateDroneCount`, the one every call of the
name reaches; it has no parameters, so arguments are ignored. The result is
the text of the element, the effects and the next oracle index, or `none`
when the loop has not ended within the fuel. -/
def updateDroneCount (count : Option String) (o : Oracle) (n fuel : Nat) :
    Option (Option String × List Effect × Nat) :=
  match count with
  | none => some (none, [], n)
  | some text =>
    let current := jsParseInt (beforeSlash text)
    match drawNewCount o current fuel n with
    | none => none
    | some (newCount, n1) =>
      let logged : List Effect :=
        match current with
        | none => []
        | some cur =>
          if newCount > cur then
            [Effect.log ("Drone #" ++ toString newCount ++ " deployed for patrol")]
          else if newCount < cur then
            [Effect.log ("Drone #" ++ toString cur ++ " recalled to base")]
          else []
      some (some (toString newCount ++ "/5"), logged, n1)

/-- The part of `updateDroneStatus` after the awaits. On a success envelope
`updateDroneDisplay` runs, throwing on an undefined list, and then
`updateDroneCount` is called with two arguments; the `catch` only writes to
the console. `none` when the loop of `updateDroneCount` has not ended within
the fuel. -/
def updateDroneStatusComplete (dom : StatusDom) (o : Oracle) (n fuel : Nat) :
    FetchOutcome DroneStatusResponse → Option (StatusDom × List Effect × Nat)
  | .threw => some (dom, [], n)
  | .resolved data =>
    if data.success then
      match data.drones with
      | none => some (dom, [], n)
      | some drones =>
        let shown := updateDroneDisplay o n dom.droneElements drones
        match updateDroneCount dom.activeDronesCount o shown.2 fuel with
        | none => none
        | some (count, effects, n1) =>
          some ({ droneElements := shown.1, activeDronesCount := count }, effects, n1)
    else some (dom, [], n)

/-! ## analytics.js: the summary cards -/

/-- The method `updateSummaryStats` on the texts of the `.stat-value`
elements of the stat cards, in document order: with fewer than four nothing
happens. The four draws are taken in program order. Every arithmetic result
is rounded to a double: the number `parseInt` returns, the products and sums,
and the literal `0.3`, which is the double nearest to 3/10. `Math.floor` of a
double is exact. -/
def AnalyticsSystem.updateSummaryStats (cards : List String) (o : Oracle) (n : Nat) :
    List String × Nat :=
  match cards with
  | c0 :: c1 :: _ :: _ :: rest =>
    let currentDetections := roundDouble (parseIntOr c0 247)
    let detections := roundDouble (currentDetections + ⌊roundDouble (o.random n * 5)⌋)
    let currentAlerts := roundDouble (parseIntOr c1 18)
    let alerts :=
      if o.random (n + 1) < roundDouble (3 / 10) then integerText (roundDouble (currentAlerts + 1))
      else c1
    let coverage := roundDouble (⌊roundDouble (o.random (n + 2) * 5)⌋ + 90)
    let flightTime := toFixed1 (roundDouble (roundDouble (o.random (n + 3) * 2) + 4))
    (integerText detections :: alerts :: (integerText coverage ++ "%") :: (flightTime ++ "h")
      :: rest,
     n + 4)
  | _ => (cards, n)

/-! ## analytics.js: trend and anomalies -/

/-- The object `generateTrendAnalysis` returns. -/
structure TrendAnalysis where
  direction : String
  magnitude : ℚ
  confidence : ℚ
  deriving DecidableEq, Repr

/-- An entry of the array `generateAnomalyReport` returns; `time` is
`labels[index]`, undefined when the labels are fewer than the data. -/
structure Anomaly where
  type : String
  time : Option String
  value : ℚ
  severity : String
  deriving DecidableEq, Repr

namespace AnalyticsSystem

/-- The constant `sumX` of `calculateTrend`, in exact arithmetic. -/
def trendSumX (data : List ℚ) : ℚ := ((data.length : ℚ) * ((data.length : ℚ) - 1)) / 2

/-- The constant `sumX2` of `calculateTrend`, in exact arithmetic. -/
def trendSumX2 (data : List ℚ) : ℚ :=
  reduce (fun sum _ index => sum + (index : ℚ) * (index : ℚ)) 0 data

/-- The divisor of the slope in `calculateTrend`, in exact arithmetic. -/
def trendDenominator (data : List ℚ) : ℚ :=
  (data.length : ℚ) * trendSumX2 data - trendSumX data * trendSumX data

/-- The method `calculateTrend`, the result of every multiplication,
subtraction, addition and division rounded to a double, in the order in
which the program evaluates them. -/
def calculateTrend (data : List ℚ) : ℚ :=
  if data.length < 2 then 0
  else
    let n : ℚ := data.length
    let sumX := roundDouble (roundDouble (n * roundDouble (n - 1)) / 2)
    let sumY := reduce (fun sum val _ => roundDouble (sum + val)) 0 data
    let sumXY :=
      reduce (fun sum val index => roundDouble (sum + roundDouble ((index : ℚ) * val))) 0 data
    let sumX2 :=
      reduce (fun sum _ index => roundDouble (sum + roundDouble ((index : ℚ) * (index : ℚ)))) 0 data
    let slope :=
      roundDouble (roundDouble (roundDouble (n * sumXY) - roundDouble (sumX * sumY))
        / roundDouble (roundDouble (n * sumX2) - roundDouble (sumX * sumX)))
    slope

/-- The constant `mean` of `calculateTrendConfidence` and of
`generateAnomalyReport`. -/
def mean (data : List ℚ) : ℚ := reduce (fun sum val _ => sum + val) 0 data / (data.length : ℚ)

/-- The constant `variance` of `calculateTrendConfidence`. -/
def variance (data : List ℚ) : ℚ :=
  reduce (fun sum val _ => sum + (val - mean data) ^ 2) 0 data / (data.length : ℚ)

/-- The constant `stdDev` of `calculateTrendConfidence`, `sqrt` standing
for `Math.sqrt`. -/
def stdDev (sqrt : ℚ → ℚ) (data : List ℚ) : ℚ := sqrt (variance data)

/-- The method `calculateTrendConfidence`, `sqrt` standing for `Math.sqrt`. -/
def calculateTrendConfidence (sqrt : ℚ → ℚ) (data : List ℚ) : ℚ :=
  max 0 (min 100 (100 - stdDev sqrt data / mean data * 100))

/-- The method `generateTrendAnalysis`; `none` is the `null` returned without
a detection series. -/
def generateTrendAnalysis (s : AnalyticsSystem) (sqrt : ℚ → ℚ) : Option TrendAnalysis :=
  match s.analyticsData.detection_frequency with
  | none => none
  | some f =>
    let trend := calculateTrend f.data
    some { direction :=
             if trend > 0 then "increasing" else if trend < 0 then "decreasing" else "stable"
           magnitude := |trend|
           confidence := calculateTrendConfidence sqrt f.data }

/-- The `forEach` of `generateAnomalyReport`, from index `i` on. -/
def anomaliesFrom (labels : List String) (threshold : ℚ) : Nat → List ℚ → List Anomaly
  | _, [] => []
  | i, value :: rest =>
    if value > threshold then
      { type := "detection_spike"
        time := labels.get? i
        value := value
        severity := if value > threshold * (3 / 2) then "high" else "medium" }
        :: anomaliesFrom labels threshold (i + 1) rest
    else anomaliesFrom labels threshold (i + 1) rest

/-- The method `generateAnomalyReport`. -/
def generateAnomalyReport (s : AnalyticsSystem) : List Anomaly :=
  match s.analyticsData.detection_frequency with
  | none => []
  | some f => anomaliesFrom f.labels (mean f.data * 2) 0 f.data

end AnalyticsSystem

/-! ## drone-control.js: statistics and the detail panel -/

/-- The object `getDroneStatistics` returns. -/
structure DroneStatistics where
  total : Nat
  active : Nat
  standby : Nat
  maintenance : Nat
  offline : Nat
  averageBattery : ℚ
  deriving DecidableEq, Repr

/-- The first `.progress-bar` element of the page. -/
structure ProgressBar where
  width : String
  textContent : String
  classList : List String
  deriving DecidableEq, Repr

/-- The element that shows the status of the selected drone. -/
structure StatusValue where
  textContent : String
  className : String
  deriving DecidableEq, Repr

/-- The part of the page `updateSelectedDroneInfo` touches: the battery bar,
the signal bars (each with whether it carries the class `active`) and the
status element; an absent element is `none`. -/
structure DetailDom where
  progressBar : Option ProgressBar
  signalBars : List Bool
  statusElement : Option StatusValue
  deriving DecidableEq, Repr

/-- The keys of the table of `getStatusClass`: the statuses of a drone. -/
def droneStatuses : List String :=
  ["deployed", "patrolling", "scanning", "standby", "returning", "maintenance", "offline"]

/-- The names under which an object literal finds a member it inherits from
`Object.prototype`. -/
def objectPrototypeMembers : List String :=
  ["constructor", "hasOwnProperty", "isPrototypeOf", "propertyIsEnumerable", "toLocaleString",
   "toString", "valueOf", "__proto__", "__defineGetter__", "__defineSetter__",
   "__lookupGetter__", "__lookupSetter__"]

/-- What `getStatusClass` returns: a class name of its table, or a member
the table inherits. -/
inductive StatusClassResult where
  /-- A string of the table, or the default. -/
  | className (name : String)
  /-- The member of `Object.prototype` of that name. -/
  | inheritedMember (key : String)
  deriving DecidableEq, Repr

namespace DroneController

/-- The counting step of the `forEach` of `getDroneStatistics`. -/
def countDrone (stats : DroneStatistics) (d : Drone) : DroneStatistics :=
  if ["deployed", "patrolling", "scanning"].contains d.status then
    { stats with active := stats.active + 1 }
  else if d.status = "standby" then { stats with standby := stats.standby + 1 }
  else if d.status = "maintenance" then { stats with maintenance := stats.maintenance + 1 }
  else if d.status = "offline" then { stats with offline := stats.offline + 1 }
  else stats

/-- The variable `totalBattery` of `getDroneStatistics` after the `forEach`. -/
def totalBattery (c : DroneController) : ℚ :=
  (mapValues c.drones).foldl (fun total d => total + (d.battery_level : ℚ)) 0

/-- The method `getDroneStatistics`. -/
def getDroneStatistics (c : DroneController) : DroneStatistics :=
  let counted := (mapValues c.drones).foldl countDrone
    { total := c.drones.length, active := 0, standby := 0, maintenance := 0, offline := 0,
      averageBattery := 0 }
  { counted with
    averageBattery :=
      if c.drones.length > 0 then totalBattery c / (c.drones.length : ℚ) else 0 }

/-- The method `getStatusClass`: the entry of the table `statusClasses`
under the status, or `low` without one. The table is an object literal, so
under the name of a member of `Object.prototype` the lookup finds that
member, which is truthy, and the method returns it. -/
def getStatusClass (status : String) : StatusClassResult :=
  if status = "deployed" then .className "operational"
  else if status = "patrolling" then .className "operational"
  else if status = "scanning" then .className "operational"
  else if status = "standby" then .className "low"
  else if status = "returning" then .className "medium"
  else if status = "maintenance" then .className "warning"
  else if status = "offline" then .className "danger"
  else if objectPrototypeMembers.contains status then .inheritedMember status
  else .className "low"

/-- The class `updateSelectedDroneInfo` adds to the battery bar. -/
def batteryClass (batteryLevel : Int) : String :=
  if batteryLevel > 50 then "bg-success"
  else if batteryLevel > 20 then "bg-warning"
  else "bg-danger"

/-- The battery part of `updateSelectedDroneInfo` on the bar. -/
def updateBatteryBar (bar : ProgressBar) (batteryLevel : Int) : ProgressBar :=
  let removed := classListRemove bar.classList ["bg-success", "bg-warning", "bg-danger"]
  { width := toString batteryLevel ++ "%"
    textContent := toString batteryLevel ++ "%"
    classList :=
      match classListAdd removed (batteryClass batteryLevel) with
      | .ok added => added
      | .error _ => removed }

/-- The expression `s.charAt(0).toUpperCase() + s.slice(1)`. `toUpperCase`
gives the upper-casing of a one-character string, which the Unicode tables of
the browser define. A first character beyond U+FFFF is two code units of the
string, of which `charAt(0)` is the first: the expression puts the two
together again unchanged. -/
def capitalize (toUpperCase : Char → String) (s : String) : String :=
  match s.toList with
  | [] => ""
  | c :: rest => if c.toNat < 65536 then toUpperCase c ++ String.mk rest else s

/-- The method `updateSelectedDroneInfo`; without a cached drone under the
selected id nothing happens. `toUpperCase` is the upper-casing of a
character, and `memberText` gives the text the template literal makes of an
inherited member that `getStatusClass` returned; the browser defines both. -/
def updateSelectedDroneInfo (c : DroneController) (dom : DetailDom)
    (toUpperCase : Char → String) (memberText : String → String) : DetailDom :=
  match mapGet c.drones c.selectedDroneId with
  | none => dom
  | some drone =>
    { progressBar := dom.progressBar.map (fun bar => updateBatteryBar bar drone.battery_level)
      signalBars := dom.signalBars.enum.map
        (fun p => if (p.1 : Int) < drone.signal_strength then true else false)
      statusElement := dom.statusElement.map (fun _ =>
        { textContent := capitalize toUpperCase drone.status
          className := "status-value " ++
            match getStatusClass drone.status with
            | .className name => name
            | .inheritedMember key => memberText key }) }

end DroneController

/-! ## Concrete inputs used by the closed statements -/

/-- An oracle whose clock, draws and trigonometry are constant. -/
def constOracle (draw : ℚ) : Oracle where
  now := fun _ => 0
  random := fun _ => draw
  getHours := fun _ => 0
  cos := fun _ => 1
  sin := fun _ => 0

/-- A page without drone selector and without drone elements. -/
def emptyDroneDom : DroneDom where
  selector := none
  droneElements := []

/-- A drone with the given id and status. -/
def sampleDrone (id : Int) (status : String) : Drone where
  id := id
  name := "Alpha"
  type := "Recon"
  status := status
  battery_level := 80
  signal_strength := 4

/-- A controller whose cache holds the given drones under their ids. -/
def controllerWith (drones : List Drone) : DroneController :=
  { DroneController.new with drones := drones.map (fun d => (d.id, d)) }

/-- An entry as the page source may contain it. -/
def sampleEntry : LogEntry where
  className := "log-entry"
  time := "08:00"
  message := "System online"

/-- The analytics controller as `init` leaves it before the first fetch
answers, on a page that has every canvas. -/
def freshAnalytics : AnalyticsSystem :=
  AnalyticsSystem.setupCharts AnalyticsSystem.new
    { detectionCanvas := true, coverageCanvas := true, analyticsRow := true }

/-- An envelope that reports an application-level failure and nothing else. -/
def failedAnalytics : AnalyticsData where
  success := some false
  detection_frequency := none
  object_distribution := none
  threat_distribution := none

/-- A drone element at the given position, without icon. -/
def elementAt (left top : ℚ) : DroneElement where
  droneId := 1
  left := some left
  top := some top
  className := "drone drone-1 status-standby"
  icon := none

/-- A detection record. -/
def sampleDetection : Detection where
  object_type := "person"
  confidence := 90
  x := 10
  y := 20
  width := 30
  height := 40
  timestamp := "2024-01-01T00:00:00Z"
  detection_mode := "standard"

/-- A page without any element of the detection view. -/
def emptyDetectionDom : DetectionDom where
  runBtnDisabled := none
  detectionFeed := none
  resultsList := none

/-- The list `data[i] = a·i + b` for `i` from 0 to `n − 1`. -/
def affineData (a b : ℚ) (n : Nat) : List ℚ :=
  (List.range n).map (fun (i : Nat) => a * (i : ℚ) + b)

/-- An analytics controller whose detection series has the given data. -/
def analyticsWith (labels : List String) (data : List ℚ) : AnalyticsSystem :=
  { AnalyticsSystem.new with
    analyticsData :=
      { success := some true
        detection_frequency := some { labels := labels, data := data }
        object_distribution := none
        threat_distribution := none } }

/-! ## Theorems -/

/-- C1: while `isDetectionActive` is true, `runDetection` emits exactly the
warning notification, sends no request, and returns the controller (the flag
and `detectionResults` included) and the page unchanged, whatever the
environment would have answered. -/
theorem C1_runDetection_single_flight (s : ObjectDetectionSystem) (dom : DetectionDom)
    (out : FetchOutcome DetectionResponse) (h : s.isDetectionActive = true) :
    s.runDetection dom out
        = (s, dom, [Effect.notify "Detection already in progress" "warning"])
      ∧ requests (s.runDetection dom out).2.2 = []
      ∧ (s.runDetection dom out).1.isDetectionActive = true
      ∧ (s.runDetection dom out).1.detectionResults = s.detectionResults := by
  have e : s.runDetection dom out
      = (s, dom, [Effect.notify "Detection already in progress" "warning"]) := by
    simp [ObjectDetectionSystem.runDetection, ObjectDetectionSystem.runDetectionBegin, h]
  rw [e]
  exact ⟨rfl, rfl, h, rfl⟩

/-- C1 at a concrete input: the constructed controller with its flag raised,
against a response that would have succeeded. -/
theorem C1_runDetection_single_flight_witness :
    ({ ObjectDetectionSystem.new with isDetectionActive := true }.runDetection
        emptyDetectionDom (.resolved
          { success := true, detections := some [sampleDetection],
            analysis := some { total_objects := some 1 }, error := none }))
        = ({ ObjectDetectionSystem.new with isDetectionActive := true }, emptyDetectionDom,
            [Effect.notify "Detection already in progress" "warning"]) :=
  (C1_runDetection_single_flight { ObjectDetectionSystem.new with isDetectionActive := true }
    emptyDetectionDom _ rfl).1

/-! ### Lemmas on the drone cache -/

theorem mapGet_mapSet (m : List (Int × Drone)) (k : Int) (v : Drone) (j : Int) :
    mapGet (mapSet m k v) j = if k = j then some v else mapGet m j := by
  induction m with
  | nil => simp [mapSet, mapGet]
  | cons p rest ih =>
    obtain ⟨k1, v1⟩ := p
    simp only [mapSet]
    split_ifs <;> simp_all [mapGet]

theorem mapGet_updateDroneData (m : List (Int × Drone)) (drones : List Drone) (j : Int) :
    mapGet (DroneController.updateDroneData m drones) j
      = match drones.reverse.find? (fun d => decide (d.id = j)) with
        | some d => some d
        | none => mapGet m j := by
  induction drones using List.reverseRecOn with
  | nil => simp [DroneController.updateDroneData]
  | append_singleton init d ih =>
    have e : DroneController.updateDroneData m (init ++ [d])
        = mapSet (DroneController.updateDroneData m init) d.id d := by
      simp [DroneController.updateDroneData, List.foldl_append]
    rw [e, mapGet_mapSet, ih]
    by_cases h : d.id = j
    · simp [h]
    · simp [h]

theorem loadDroneData_success_cache (c : DroneController) (dom : DroneDom) (o : Oracle)
    (n : Nat) (data : DronesResponse) (drones : List Drone)
    (hs : data.success = true) (hd : data.drones = some drones) :
    (DroneController.loadDroneData c dom o n (.resolved data)).ctrl.drones
      = DroneController.updateDroneData c.drones drones := by
  simp only [DroneController.loadDroneData, DroneController.loadDroneDataComplete, hs, hd,
    if_true]

/-- C2, as the claim states it, fails: a drone cached under id 7 by an earlier
poll is still cached after a successful poll whose list holds drone 1 only. -/
theorem C2_counterexample :
    ¬ (∀ k : Int,
        (mapGet (DroneController.loadDroneData (controllerWith [sampleDrone 7 "standby"])
            emptyDroneDom (constOracle 0) 0
            (.resolved { success := true, drones := some [sampleDrone 1 "standby"] })
          ).ctrl.drones k).isSome = true
        → k ∈ [sampleDrone 1 "standby"].map Drone.id) := by
  intro h
  have h7 := h 7 (by
    rw [loadDroneData_success_cache _ _ _ _ _ [sampleDrone 1 "standby"] rfl rfl]
    decide)
  revert h7
  decide

/-- C2, amended: a successful poll merges the received list into the cache,
one `Map.set` per drone. Every id of the list ends up bound to the last drone
of the list carrying that id, and every other id keeps the record it had
before the poll. -/
theorem C2_loadDroneData_merges (c : DroneController) (dom : DroneDom) (o : Oracle)
    (n : Nat) (drones : List Drone) (k : Int) :
    mapGet (DroneController.loadDroneData c dom o n
        (.resolved { success := true, drones := some drones })).ctrl.drones k
      = match drones.reverse.find? (fun d => decide (d.id = k)) with
        | some d => some d
        | none => mapGet c.drones k := by
  rw [loadDroneData_success_cache c dom o n _ drones rfl rfl, mapGet_updateDroneData]

/-! ### The activity log -/

theorem children_cons_element (e : LogEntry) (nodes : List LogNode) :
    (children (LogNode.element e :: nodes)).length = (children nodes).length + 1 := by
  simp [children, LogNode.isElement]

/-- C3, as the claim states it, fails: a container that already holds 11
entries holds 11 entries after `addLogEntry`, which removes one node only. -/
theorem C3_counterexample :
    ∃ after,
      addLogEntry (some (List.replicate 11 (LogNode.element sampleEntry))) 9 5
          "Drone deployed" "" = some after
        ∧ 10 < (children after).length :=
  ⟨LogNode.element { className := "log-entry", time := "09:05", message := "Drone deployed" }
      :: List.replicate 10 (LogNode.element sampleEntry),
    by decide, by decide⟩

/-- C3, amended: the cap of 10 is preserved, not established. When the
container holds at most 10 entries and its last child node, if any, is an
entry element, then `addLogEntry` returns a container that holds at most 10
entries, for every message, type and time of day. -/
theorem C3_addLogEntry_preserves_cap (nodes : List LogNode) (hours minutes : Nat)
    (message type : String)
    (hcap : (children nodes).length ≤ 10)
    (hlast : ∀ x, nodes.getLast? = some x → x.isElement = true) :
    ∃ after,
      addLogEntry (some nodes) hours minutes message type = some after
        ∧ (children after).length ≤ 10 := by
  simp only [addLogEntry]
  generalize newLogEntry hours minutes message type = e
  split_ifs with h
  · refine ⟨_, rfl, ?_⟩
    rw [children_cons_element] at h
    rcases List.eq_nil_or_concat nodes with hn | ⟨init, x, hn⟩
    · subst hn
      simp [children] at h
    · rw [List.concat_eq_append] at hn
      subst hn
      have hx : x.isElement = true := hlast x (by simp)
      rw [← List.cons_append, List.dropLast_concat, children_cons_element]
      simp only [children, List.filter_append, List.filter_cons, hx, if_true,
        List.filter_nil, List.length_append, List.length_singleton] at hcap
      simp only [children]
      omega
  · refine ⟨_, rfl, ?_⟩
    omega

/-- C3 at a concrete input: a full log of 10 entries stays at 10 entries. -/
theorem C3_addLogEntry_preserves_cap_witness :
    ∃ after,
      addLogEntry (some (List.replicate 10 (LogNode.element sampleEntry))) 9 5
          "Drone deployed" "warning" = some after
        ∧ (children after).length ≤ 10 :=
  C3_addLogEntry_preserves_cap (List.replicate 10 (LogNode.element sampleEntry)) 9 5
    "Drone deployed" "warning" (by decide)
    (by intro x hx; simp [List.replicate, List.getLast?] at hx; subst hx; rfl)

/-! ### Emergency recall -/

theorem isActive_iff (d : Drone) :
    DroneController.isActive d = true
      ↔ d.status = "deployed" ∨ d.status = "patrolling" ∨ d.status = "scanning" := by
  simp [DroneController.isActive]

theorem anyRejects_eq_true_iff (rejects : Nat → Bool) (count : Nat) :
    DroneController.anyRejects rejects count = true ↔ ∃ i, i < count ∧ rejects i = true := by
  simp [DroneController.anyRejects, List.any_eq_true]

theorem filter_isPost_recallRequests (ds : List Drone) :
    (ds.map DroneController.recallRequest).filter Effect.isPost
      = ds.map DroneController.recallRequest := by
  rw [List.filter_eq_self]
  intro e he
  obtain ⟨d, _, rfl⟩ := List.mem_map.1 he
  simp [DroneController.recallRequest, Effect.isPost]

theorem requests_recallRequests (ds : List Drone) :
    requests (ds.map DroneController.recallRequest) = ds.map DroneController.recallRequest := by
  rw [requests, List.filter_eq_self]
  intro e he
  obtain ⟨d, _, rfl⟩ := List.mem_map.1 he
  rfl

theorem notifications_recallRequests (ds : List Drone) :
    notifications (ds.map DroneController.recallRequest) = [] := by
  rw [notifications, List.filter_eq_nil_iff]
  intro e he
  obtain ⟨d, _, rfl⟩ := List.mem_map.1 he
  simp [DroneController.recallRequest, Effect.isNotify]

/-- C4, as the claim states it, fails: with one deployed drone cached and its
recall request rejecting, the one POST is sent but the closing notification
is the generic failure message, which reports no count. -/
theorem C4_counterexample :
    (DroneController.activeDrones (controllerWith [sampleDrone 3 "deployed"])).length = 1
      ∧ DroneController.emergencyRecallAll (controllerWith [sampleDrone 3 "deployed"])
          (fun _ => true)
        = [Effect.notify "Emergency recall initiated..." "warning",
           Effect.request "POST" "/api/drones/3/recall/" none,
           Effect.notify "Emergency recall failed" "error"]
      ∧ (notifications (DroneController.emergencyRecallAll
            (controllerWith [sampleDrone 3 "deployed"]) (fun _ => true))).getLast?
          ≠ some (Effect.notify "Emergency recall complete: 1 drones recalled" "success") := by
  decide

/-- C4, amended: for every cache, the POST requests of `emergencyRecallAll`
are exactly one recall request per cached drone whose status is deployed,
patrolling or scanning, in cache order, whatever the requests answer. The
closing notification reports the number of these drones, counted before the
requests were sent, when no request rejects; when a request rejects it is
the generic failure message. -/
theorem C4_emergencyRecallAll_requests_and_report (c : DroneController)
    (rejects : Nat → Bool) :
    (DroneController.emergencyRecallAll c rejects).filter Effect.isPost
        = (DroneController.activeDrones c).map DroneController.recallRequest
      ∧ (∀ d, d ∈ DroneController.activeDrones c
          ↔ d ∈ mapValues c.drones
            ∧ (d.status = "deployed" ∨ d.status = "patrolling" ∨ d.status = "scanning"))
      ∧ (notifications (DroneController.emergencyRecallAll c rejects)).getLast?
          = some (if DroneController.anyRejects rejects (DroneController.activeDrones c).length
              then Effect.notify "Emergency recall failed" "error"
              else Effect.notify
                ("Emergency recall complete: "
                  ++ toString (DroneController.activeDrones c).length ++ " drones recalled")
                "success") := by
  refine ⟨?_, ?_, ?_⟩
  · simp only [DroneController.emergencyRecallAll, List.filter_append,
      filter_isPost_recallRequests]
    split_ifs <;> simp [Effect.isPost, DroneController.loadDroneDataBegin]
  · intro d
    simp [DroneController.activeDrones, List.mem_filter, isActive_iff]
  · simp only [DroneController.emergencyRecallAll, notifications, List.filter_append]
    have h := notifications_recallRequests (DroneController.activeDrones c)
    simp only [notifications] at h
    rw [h]
    split_ifs <;> simp [Effect.isNotify, DroneController.loadDroneDataBegin]

/-- C5: `emergencyRecallAll` has no handling of a failure of some of its
requests. If at least one recall request rejects, the notifications are
exactly the initial warning followed by the generic error, and the requests
are exactly the recall requests, so no reload and no retry is sent. If none
rejects, the notifications are the warning followed by the one aggregate
success message, and the requests are the recall requests followed by the
one reload of the drone list. -/
theorem C5_emergencyRecallAll_all_or_nothing (c : DroneController) (rejects : Nat → Bool) :
    ((∃ i, i < (DroneController.activeDrones c).length ∧ rejects i = true) →
        notifications (DroneController.emergencyRecallAll c rejects)
            = [Effect.notify "Emergency recall initiated..." "warning",
               Effect.notify "Emergency recall failed" "error"]
          ∧ requests (DroneController.emergencyRecallAll c rejects)
            = (DroneController.activeDrones c).map DroneController.recallRequest)
      ∧ ((∀ i, i < (DroneController.activeDrones c).length → rejects i = false) →
        notifications (DroneController.emergencyRecallAll c rejects)
            = [Effect.notify "Emergency recall initiated..." "warning",
               Effect.notify
                ("Emergency recall complete: "
                  ++ toString (DroneController.activeDrones c).length ++ " drones recalled")
                "success"]
          ∧ requests (DroneController.emergencyRecallAll c rejects)
            = (DroneController.activeDrones c).map DroneController.recallRequest
              ++ [Effect.request "GET" "/api/drones/" none]) := by
  have hn := notifications_recallRequests (DroneController.activeDrones c)
  have hr := requests_recallRequests (DroneController.activeDrones c)
  simp only [notifications] at hn
  simp only [requests] at hr
  constructor
  · intro hrej
    have h := (anyRejects_eq_true_iff rejects _).2 hrej
    simp [DroneController.emergencyRecallAll, h, notifications, requests, List.filter_append,
      hn, hr, Effect.isNotify, Effect.isRequest]
  · intro hnone
    have h : DroneController.anyRejects rejects (DroneController.activeDrones c).length
        = false := by
      cases hb : DroneController.anyRejects rejects (DroneController.activeDrones c).length
      · rfl
      · obtain ⟨i, hi, hri⟩ := (anyRejects_eq_true_iff rejects _).1 hb
        rw [hnone i hi] at hri
        exact absurd hri (by decide)
    simp [DroneController.emergencyRecallAll, h, notifications, requests, List.filter_append,
      hn, hr, Effect.isNotify, Effect.isRequest, DroneController.loadDroneDataBegin]

/-- C5 at concrete inputs: two active drones, the second request rejecting;
and the same cache with no request rejecting. -/
theorem C5_emergencyRecallAll_all_or_nothing_witness :
    (notifications (DroneController.emergencyRecallAll
          (controllerWith [sampleDrone 3 "deployed", sampleDrone 4 "scanning"])
          (fun i => decide (i = 1)))
        = [Effect.notify "Emergency recall initiated..." "warning",
           Effect.notify "Emergency recall failed" "error"]
      ∧ requests (DroneController.emergencyRecallAll
          (controllerWith [sampleDrone 3 "deployed", sampleDrone 4 "scanning"])
          (fun i => decide (i = 1)))
        = (DroneController.activeDrones
            (controllerWith [sampleDrone 3 "deployed", sampleDrone 4 "scanning"])).map
            DroneController.recallRequest)
      ∧ (notifications (DroneController.emergencyRecallAll
          (controllerWith [sampleDrone 3 "deployed", sampleDrone 4 "scanning"])
          (fun _ => false))
        = [Effect.notify "Emergency recall initiated..." "warning",
           Effect.notify
            ("Emergency recall complete: "
              ++ toString (DroneController.activeDrones
                  (controllerWith [sampleDrone 3 "deployed", sampleDrone 4 "scanning"])).length
              ++ " drones recalled")
            "success"]
      ∧ requests (DroneController.emergencyRecallAll
          (controllerWith [sampleDrone 3 "deployed", sampleDrone 4 "scanning"])
          (fun _ => false))
        = (DroneController.activeDrones
            (controllerWith [sampleDrone 3 "deployed", sampleDrone 4 "scanning"])).map
            DroneController.recallRequest
          ++ [Effect.request "GET" "/api/drones/" none]) :=
  ⟨(C5_emergencyRecallAll_all_or_nothing
      (controllerWith [sampleDrone 3 "deployed", sampleDrone 4 "scanning"])
      (fun i => decide (i = 1))).1 ⟨1, by decide, by decide⟩,
   (C5_emergencyRecallAll_all_or_nothing
      (controllerWith [sampleDrone 3 "deployed", sampleDrone 4 "scanning"])
      (fun _ => false)).2 (fun _ _ => rfl)⟩

/-! ### Analytics fallback -/

theorem mockHours_length (o : Oracle) (now : ℚ) (n k j : Nat) :
    (AnalyticsSystem.mockHours o now n k j).1.length = k
      ∧ (AnalyticsSystem.mockHours o now n k j).2.length = k := by
  induction k generalizing j with
  | zero => simp [AnalyticsSystem.mockHours]
  | succ k ih => simp [AnalyticsSystem.mockHours, ih (j + 1)]

/-- C6, as the claim states it, fails: when the envelope has `success: false`
the freshly set up controller keeps its empty `analyticsData` and the
detection chart keeps its empty labels and data. -/
theorem C6_counterexample :
    (AnalyticsSystem.loadAnalyticsData freshAnalytics (constOracle 0) 0
        (.resolved failedAnalytics)).1.analyticsData.detection_frequency = none
      ∧ (AnalyticsSystem.loadAnalyticsData freshAnalytics (constOracle 0) 0
        (.resolved failedAnalytics)).1.charts.detection = some { labels := [], data := [] } := by
  decide

/-- C6, amended: the fallback belongs to the `catch` only. When the fetch
throws, `analyticsData` holds a generated detection series of 24 labels and
24 counts, the detection chart, if it was created, shows that series, and the
threat chart, if it was created, shows the fixed fallback counts. When the
envelope arrives without a true `success`, the controller, its charts
included, is left exactly as it was. -/
theorem C6_loadAnalyticsData_fallback (s : AnalyticsSystem) (o : Oracle) (n : Nat) :
    (∃ f, (AnalyticsSystem.loadAnalyticsData s o n .threw).1.analyticsData.detection_frequency
          = some f
        ∧ f.labels.length = 24 ∧ f.data.length = 24
        ∧ (AnalyticsSystem.loadAnalyticsData s o n .threw).1.charts.detection
          = s.charts.detection.map (fun _ => f)
        ∧ (AnalyticsSystem.loadAnalyticsData s o n .threw).1.charts.threat
          = s.charts.threat.map (fun _ => [45, 23, 12, 3]))
      ∧ (∀ data : AnalyticsData, data.success ≠ some true →
          (AnalyticsSystem.loadAnalyticsData s o n (.resolved data)).1 = s) := by
  constructor
  · refine ⟨_, rfl, (mockHours_length o (o.now n) (n + 1) 24 0).1,
      (mockHours_length o (o.now n) (n + 1) 24 0).2, ?_, ?_⟩
    · simp only [AnalyticsSystem.loadAnalyticsData, AnalyticsSystem.loadAnalyticsDataComplete,
        AnalyticsSystem.generateMockData, AnalyticsSystem.updateCharts]
      cases s.charts.detection <;> rfl
    · simp only [AnalyticsSystem.loadAnalyticsData, AnalyticsSystem.loadAnalyticsDataComplete,
        AnalyticsSystem.generateMockData, AnalyticsSystem.updateCharts]
      cases s.charts.threat <;> rfl
  · intro data h
    simp [AnalyticsSystem.loadAnalyticsData, AnalyticsSystem.loadAnalyticsDataComplete, h]

/-- C6 at concrete inputs: the fresh controller on a throwing fetch and on an
envelope with `success: false`. -/
theorem C6_loadAnalyticsData_fallback_witness :
    (AnalyticsSystem.loadAnalyticsData freshAnalytics (constOracle 0) 0
        (.resolved failedAnalytics)).1 = freshAnalytics :=
  (C6_loadAnalyticsData_fallback freshAnalytics (constOracle 0) 0).2 failedAnalytics
    (by decide)

/-! ### Drone movement -/

theorem keepWithinBounds_mem (x : ℚ) : 5 ≤ keepWithinBounds x ∧ keepWithinBounds x ≤ 95 := by
  unfold keepWithinBounds
  exact ⟨le_max_left _ _, max_le (by norm_num) (min_le_left _ _)⟩

theorem keepWithinBounds_step (c r k : ℚ) (hk : 0 ≤ k) (hk2 : k ≤ 2)
    (hc : 4 ≤ c ∧ c ≤ 96) (hr : 0 ≤ r ∧ r < 1) :
    |keepWithinBounds (c + (r - 1 / 2) * k) - c| ≤ 1 := by
  have h1 : -1 ≤ (r - 1 / 2) * k := by nlinarith [hr.1, hr.2]
  have h2 : (r - 1 / 2) * k ≤ 1 := by nlinarith [hr.1, hr.2]
  obtain ⟨hc1, hc2⟩ := hc
  unfold keepWithinBounds
  rw [abs_le]
  constructor
  · rcases le_total 95 (c + (r - 1 / 2) * k) with h | h
    · rw [min_eq_left h, max_eq_right (by norm_num)]
      linarith
    · rw [min_eq_right h]
      have := le_max_right 5 (c + (r - 1 / 2) * k)
      linarith
  · rcases le_total 95 (c + (r - 1 / 2) * k) with h | h
    · rw [min_eq_left h, max_eq_right (by norm_num)]
      linarith
    · rw [min_eq_right h]
      exact sub_le_iff_le_add.2 (max_le (by linarith) (by linarith))

/-- C7: whatever the status of the drone, the position read from the element
(unparsable and zero reads included), the clock, the trigonometric values and
the random draws, `animateDroneMovement` writes a `left` and a `top` that both
lie in the closed interval from 5 to 95. -/
theorem C7_animateDroneMovement_on_map (o : Oracle) (n : Nat) (el : DroneElement)
    (d : Drone) :
    ∃ l t, (DroneController.animateDroneMovement o n el d).1.left = some l
      ∧ (DroneController.animateDroneMovement o n el d).1.top = some t
      ∧ 5 ≤ l ∧ l ≤ 95 ∧ 5 ≤ t ∧ t ≤ 95 := by
  rcases h : DroneController.movementTarget o n (parseFloatOr el.left 20)
    (parseFloatOr el.top 30) d with ⟨a, b, m⟩
  refine ⟨keepWithinBounds a, keepWithinBounds b, ?_, ?_, (keepWithinBounds_mem a).1,
    (keepWithinBounds_mem a).2, (keepWithinBounds_mem b).1, (keepWithinBounds_mem b).2⟩
  · simp [DroneController.animateDroneMovement, h]
  · simp [DroneController.animateDroneMovement, h]

/-- C8, as the claim states it, fails: a standby drone whose element stands at
left 100 is written at left 95, five percent away, by the clamp. -/
theorem C8_counterexample :
    (DroneController.animateDroneMovement (constOracle (1 / 2)) 0 (elementAt 100 50)
        (sampleDrone 1 "standby")).1.left = some 95
      ∧ ¬ (|(95 : ℚ) - parseFloatOr (elementAt 100 50).left 20| ≤ 1) := by
  have hp : ("standby" : String) ≠ "patrolling" := by decide
  have hs : ("standby" : String) ≠ "scanning" := by decide
  constructor
  · norm_num [DroneController.animateDroneMovement, DroneController.movementTarget,
      parseFloatOr, keepWithinBounds, elementAt, sampleDrone, constOracle, hp, hs]
  · norm_num [parseFloatOr, elementAt, abs_le]

/-- C8, amended: for a drone that is neither patrolling nor scanning, when
the position the function reads (after its defaults of 20 and 30) has left
and top between 4 and 96, which covers every position on the map, and both
draws lie in the half-open interval from 0 to 1, then the `left` and `top`
written differ from the position read by at most 1 and lie between 5 and 95. -/
theorem C8_other_status_step_bounded (o : Oracle) (n : Nat) (el : DroneElement) (d : Drone)
    (hp : d.status ≠ "patrolling") (hs : d.status ≠ "scanning")
    (hl : 4 ≤ parseFloatOr el.left 20 ∧ parseFloatOr el.left 20 ≤ 96)
    (ht : 4 ≤ parseFloatOr el.top 30 ∧ parseFloatOr el.top 30 ≤ 96)
    (hr1 : 0 ≤ o.random n ∧ o.random n < 1)
    (hr2 : 0 ≤ o.random (n + 1) ∧ o.random (n + 1) < 1) :
    ∃ l t, (DroneController.animateDroneMovement o n el d).1.left = some l
      ∧ (DroneController.animateDroneMovement o n el d).1.top = some t
      ∧ |l - parseFloatOr el.left 20| ≤ 1 ∧ |t - parseFloatOr el.top 30| ≤ 1
      ∧ 5 ≤ l ∧ l ≤ 95 ∧ 5 ≤ t ∧ t ≤ 95 := by
  refine ⟨keepWithinBounds (parseFloatOr el.left 20 + (o.random n - 1 / 2) * 2),
    keepWithinBounds (parseFloatOr el.top 30 + (o.random (n + 1) - 1 / 2) * 2), ?_, ?_,
    keepWithinBounds_step _ _ 2 (by norm_num) (by norm_num) hl hr1,
    keepWithinBounds_step _ _ 2 (by norm_num) (by norm_num) ht hr2,
    (keepWithinBounds_mem _).1, (keepWithinBounds_mem _).2,
    (keepWithinBounds_mem _).1, (keepWithinBounds_mem _).2⟩
  · simp [DroneController.animateDroneMovement, DroneController.movementTarget, hp, hs]
  · simp [DroneController.animateDroneMovement, DroneController.movementTarget, hp, hs]

/-- C8 at a concrete input: a standby drone at (50, 50) with draws 1/2. -/
theorem C8_other_status_step_bounded_witness :
    ∃ l t, (DroneController.animateDroneMovement (constOracle (1 / 2)) 0 (elementAt 50 50)
          (sampleDrone 1 "standby")).1.left = some l
      ∧ (DroneController.animateDroneMovement (constOracle (1 / 2)) 0 (elementAt 50 50)
          (sampleDrone 1 "standby")).1.top = some t
      ∧ |l - parseFloatOr (elementAt 50 50).left 20| ≤ 1
      ∧ |t - parseFloatOr (elementAt 50 50).top 30| ≤ 1
      ∧ 5 ≤ l ∧ l ≤ 95 ∧ 5 ≤ t ∧ t ≤ 95 :=
  C8_other_status_step_bounded (constOracle (1 / 2)) 0 (elementAt 50 50)
    (sampleDrone 1 "standby") (by decide) (by decide)
    (by norm_num [parseFloatOr, elementAt]) (by norm_num [parseFloatOr, elementAt])
    (by norm_num [constOracle]) (by norm_num [constOracle])

/-! ### Detection results -/

theorem processDetectionResults_results (s : ObjectDetectionSystem) (dom : DetectionDom)
    (data : DetectionResponse) :
    (ObjectDetectionSystem.processDetectionResults s dom data).1.detectionResults
      = data.detections := by
  unfold ObjectDetectionSystem.processDetectionResults
  rcases ObjectDetectionSystem.updateDetectionDisplay dom data.detections with ⟨dom1, b⟩
  cases b <;> rfl

theorem runDetectionHandle_results (s : ObjectDetectionSystem) (dom : DetectionDom)
    (data : DetectionResponse) :
    (ObjectDetectionSystem.runDetectionHandle s dom (.resolved data)).1.detectionResults
      = if data.success then data.detections else s.detectionResults := by
  have hp := processDetectionResults_results s dom data
  simp only [ObjectDetectionSystem.runDetectionHandle]
  by_cases hs : data.success = true
  · simp only [hs, if_true]
    rcases hq : ObjectDetectionSystem.processDetectionResults s dom data with ⟨s1, dom1, b⟩
    rw [hq] at hp
    cases b
    · cases data.analysis <;> exact hp
    · exact hp
  · simp [hs]

theorem runDetection_of_idle (s : ObjectDetectionSystem) (dom : DetectionDom)
    (out : FetchOutcome DetectionResponse) (h : s.isDetectionActive = false) :
    (s.runDetection dom out).1.detectionResults
      = (ObjectDetectionSystem.runDetectionHandle { s with isDetectionActive := true }
          (ObjectDetectionSystem.showDetectionProgress dom) out).1.detectionResults := by
  simp only [ObjectDetectionSystem.runDetection, ObjectDetectionSystem.runDetectionBegin, h,
    ObjectDetectionSystem.runDetectionComplete]
  rfl

/-- C9: for every prior result list and every `runDetection` call that passes
the guard, `detectionResults` afterwards is the `detections` of the response
when the envelope has `success: true`, and is the prior list when the
envelope has `success: false` or when the fetch throws. -/
theorem C9_detectionResults_overwritten_on_success_only (s : ObjectDetectionSystem)
    (dom : DetectionDom) (detections : Option (List Detection)) (analysis : Option Analysis)
    (error : Option String) (h : s.isDetectionActive = false) :
    (s.runDetection dom (.resolved
        { success := true, detections := detections, analysis := analysis, error := error })
      ).1.detectionResults = detections
      ∧ (s.runDetection dom (.resolved
        { success := false, detections := detections, analysis := analysis, error := error })
      ).1.detectionResults = s.detectionResults
      ∧ (s.runDetection dom .threw).1.detectionResults = s.detectionResults := by
  refine ⟨?_, ?_, ?_⟩
  · rw [runDetection_of_idle s dom _ h, runDetectionHandle_results]
    rfl
  · rw [runDetection_of_idle s dom _ h, runDetectionHandle_results]
    rfl
  · rw [runDetection_of_idle s dom _ h]
    rfl

/-- C9 at a concrete input: the freshly constructed controller, holding an
empty result list, against a response with one detection. -/
theorem C9_detectionResults_overwritten_on_success_only_witness :
    (ObjectDetectionSystem.new.runDetection emptyDetectionDom (.resolved
        { success := true, detections := some [sampleDetection],
          analysis := some { total_objects := some 1 }, error := none })
      ).1.detectionResults = some [sampleDetection]
      ∧ (ObjectDetectionSystem.new.runDetection emptyDetectionDom (.resolved
        { success := false, detections := some [sampleDetection],
          analysis := some { total_objects := some 1 }, error := none })
      ).1.detectionResults = ObjectDetectionSystem.new.detectionResults
      ∧ (ObjectDetectionSystem.new.runDetection emptyDetectionDom .threw).1.detectionResults
        = ObjectDetectionSystem.new.detectionResults :=
  C9_detectionResults_overwritten_on_success_only ObjectDetectionSystem.new emptyDetectionDom
    (some [sampleDetection]) (some { total_objects := some 1 }) none rfl

/-! ### Failed poll -/

/-- C10: when the fetch of `loadDroneData` throws, or the envelope has
`success: false`, the controller (the cache with every id and record, and
`selectedDroneId`) and the page are exactly what they were before the call,
and the only request of the call is its one GET of the drone list, so no
retry is sent. -/
theorem C10_failed_poll_keeps_stale_data (c : DroneController) (dom : DroneDom) (o : Oracle)
    (n : Nat) (drones : Option (List Drone)) :
    ((DroneController.loadDroneData c dom o n .threw).ctrl = c
        ∧ (DroneController.loadDroneData c dom o n .threw).dom = dom
        ∧ requests (DroneController.loadDroneData c dom o n .threw).effects
          = [Effect.request "GET" "/api/drones/" none])
      ∧ ((DroneController.loadDroneData c dom o n
            (.resolved { success := false, drones := drones })).ctrl = c
        ∧ (DroneController.loadDroneData c dom o n
            (.resolved { success := false, drones := drones })).dom = dom
        ∧ requests (DroneController.loadDroneData c dom o n
            (.resolved { success := false, drones := drones })).effects
          = [Effect.request "GET" "/api/drones/" none]) := by
  refine ⟨⟨rfl, rfl, rfl⟩, ⟨rfl, rfl, rfl⟩⟩

/-! ### Drone commands -/

theorem post_ne_get : ("POST" : String) ≠ "GET" := by decide

/-- C11: each of `deployDrone`, `recallDrone` and `scanArea`, for every
selected drone id, shows its in-progress info notification first and sends
exactly one POST, to the command url of the selected drone. On an envelope
with `success: false` and error string `e` the notifications are the
in-progress one followed by `e` itself with type error, and neither a reload
of the drone list nor a log entry is produced. On an envelope with
`success: true` exactly one reload of the drone list is requested. When the
fetch throws, the in-progress notification is still first and the one POST is
still sent. -/
theorem C11_command_success_and_failure (c : DroneController) (message error : Option String)
    (e : String) :
    ∀ p ∈ [(DroneController.deployDrone, "Deploying drone...", "deploy"),
           (DroneController.recallDrone, "Recalling drone...", "recall"),
           (DroneController.scanArea, "Initiating area scan...", "scan")],
      (p.1 c (.resolved { success := false, message := message, error := some e })).head?
          = some (Effect.notify p.2.1 "info")
        ∧ (p.1 c (.resolved { success := false, message := message, error := some e })).filter
            Effect.isPost
          = [Effect.request "POST"
              ("/api/drones/" ++ toString c.selectedDroneId ++ "/" ++ p.2.2 ++ "/") none]
        ∧ notifications
            (p.1 c (.resolved { success := false, message := message, error := some e }))
          = [Effect.notify p.2.1 "info", Effect.notify e "error"]
        ∧ (p.1 c (.resolved { success := false, message := message, error := some e })).count
            (Effect.request "GET" "/api/drones/" none) = 0
        ∧ (p.1 c (.resolved { success := false, message := message, error := some e })).filter
            Effect.isLog = []
        ∧ (p.1 c (.resolved { success := true, message := message, error := error })).head?
          = some (Effect.notify p.2.1 "info")
        ∧ (p.1 c (.resolved { success := true, message := message, error := error })).filter
            Effect.isPost
          = [Effect.request "POST"
              ("/api/drones/" ++ toString c.selectedDroneId ++ "/" ++ p.2.2 ++ "/") none]
        ∧ (p.1 c (.resolved { success := true, message := message, error := error })).count
            (Effect.request "GET" "/api/drones/" none) = 1
        ∧ (p.1 c .threw).head? = some (Effect.notify p.2.1 "info")
        ∧ (p.1 c .threw).filter Effect.isPost
          = [Effect.request "POST"
              ("/api/drones/" ++ toString c.selectedDroneId ++ "/" ++ p.2.2 ++ "/") none] := by
  intro p hp
  simp only [List.mem_cons, List.mem_singleton, List.not_mem_nil, or_false] at hp
  rcases hp with rfl | rfl | rfl <;>
    simp [DroneController.deployDrone, DroneController.recallDrone, DroneController.scanArea,
      DroneController.commandUrl, DroneController.loadDroneDataBegin,
      DroneController.logDroneActivity, notifications, Effect.isPost, Effect.isNotify,
      Effect.isLog, jsString, List.count_cons, post_ne_get, post_ne_get.symm]

/-- C11 at a concrete input: `deployDrone` for the selected drone 1, against
an envelope that reports the failure `Drone offline`. -/
theorem C11_command_success_and_failure_witness :
    notifications (DroneController.deployDrone (controllerWith [sampleDrone 1 "standby"])
        (.resolved { success := false, message := none, error := some "Drone offline" }))
      = [Effect.notify "Deploying drone..." "info", Effect.notify "Drone offline" "error"] :=
  (C11_command_success_and_failure (controllerWith [sampleDrone 1 "standby"]) none none
    "Drone offline" (DroneController.deployDrone, "Deploying drone...", "deploy")
    (List.mem_cons_self _ _)).2.2.1

/-! ### Failures and notifications -/

/-- C12, as the claim states it, fails: `loadDroneData` shows no notification
when the envelope has `success: false`. -/
theorem C12_counterexample :
    notifications (DroneController.loadDroneData (controllerWith [sampleDrone 7 "standby"])
      emptyDroneDom (constOracle 0) 0
      (.resolved { success := false, drones := none })).effects = [] := by
  decide

/-- C12, amended: a transport failure is surfaced at every call site, by the
error notification of that call site. An application-level failure is
surfaced by `deployDrone`, `recallDrone`, `scanArea`, `setPatrolRoute` and,
when the call passes its guard, `runDetection`, as the error string of the
envelope; `loadDroneData` shows no notification for an envelope with
`success: false`. -/
theorem C12_failures_surfaced (c : DroneController) (dom : DroneDom) (o : Oracle) (n : Nat)
    (drones : Option (List Drone)) (message error : Option String)
    (routePoints : List (ℚ × ℚ)) (s : ObjectDetectionSystem) (ddom : DetectionDom)
    (detections : Option (List Detection)) (analysis : Option Analysis) :
    notifications (DroneController.loadDroneData c dom o n .threw).effects
        = [Effect.notify "Failed to load drone data" "error"]
      ∧ notifications (DroneController.loadDroneData c dom o n
          (.resolved { success := false, drones := drones })).effects = []
      ∧ Effect.notify "Failed to deploy drone" "error" ∈ DroneController.deployDrone c .threw
      ∧ Effect.notify (jsString error) "error" ∈ DroneController.deployDrone c
          (.resolved { success := false, message := message, error := error })
      ∧ Effect.notify "Failed to recall drone" "error" ∈ DroneController.recallDrone c .threw
      ∧ Effect.notify (jsString error) "error" ∈ DroneController.recallDrone c
          (.resolved { success := false, message := message, error := error })
      ∧ Effect.notify "Failed to initiate scan" "error" ∈ DroneController.scanArea c .threw
      ∧ Effect.notify (jsString error) "error" ∈ DroneController.scanArea c
          (.resolved { success := false, message := message, error := error })
      ∧ Effect.notify "Failed to set patrol route" "error"
          ∈ DroneController.setPatrolRoute c routePoints .threw
      ∧ Effect.notify (jsString error) "error" ∈ DroneController.setPatrolRoute c routePoints
          (.resolved { success := false, message := message, error := error })
      ∧ Effect.notify "Detection failed" "error"
          ∈ (ObjectDetectionSystem.runDetection { s with isDetectionActive := false } ddom
              .threw).2.2
      ∧ Effect.notify (jsString error) "error"
          ∈ (ObjectDetectionSystem.runDetection { s with isDetectionActive := false } ddom
              (.resolved { success := false, detections := detections, analysis := analysis,
                           error := error })).2.2 := by
  refine ⟨rfl, rfl, ?_, ?_, ?_, ?_, ?_, ?_, ?_, ?_, ?_, ?_⟩ <;>
    simp [DroneController.deployDrone, DroneController.recallDrone, DroneController.scanArea,
      DroneController.setPatrolRoute, ObjectDetectionSystem.runDetection,
      ObjectDetectionSystem.runDetectionBegin, ObjectDetectionSystem.runDetectionComplete,
      ObjectDetectionSystem.runDetectionHandle]

/-! ### Request body of a detection -/

theorem requests_runDetectionHandle (s : ObjectDetectionSystem) (dom : DetectionDom)
    (out : FetchOutcome DetectionResponse) :
    requests (ObjectDetectionSystem.runDetectionHandle s dom out).2.2 = [] := by
  cases out with
  | threw => rfl
  | resolved data =>
    simp only [ObjectDetectionSystem.runDetectionHandle]
    by_cases hs : data.success = true
    · simp only [hs, if_true]
      rcases ObjectDetectionSystem.processDetectionResults s dom data with ⟨s1, dom1, b⟩
      cases b
      · cases data.analysis <;> rfl
      · rfl
    · simp only [hs, if_false]
      rfl

theorem requests_runDetection (s : ObjectDetectionSystem) (dom : DetectionDom)
    (out : FetchOutcome DetectionResponse) :
    requests (s.runDetection dom out).2.2
      = if s.isDetectionActive then []
        else [Effect.request "POST" "/api/detect-objects/"
                (some (ObjectDetectionSystem.detectionParams s))] := by
  cases h : s.isDetectionActive
  · have hh := requests_runDetectionHandle { s with isDetectionActive := true }
      (ObjectDetectionSystem.showDetectionProgress dom) out
    simp only [requests] at hh
    simp [ObjectDetectionSystem.runDetection, ObjectDetectionSystem.runDetectionBegin, h,
      ObjectDetectionSystem.runDetectionComplete, requests, List.filter_append, hh,
      Effect.isRequest]
  · simp [ObjectDetectionSystem.runDetection, ObjectDetectionSystem.runDetectionBegin, h,
      requests, Effect.isRequest]

/-- C13: for every controller state, the requests of `runDetection` are,
when the call passes the guard, the single POST whose body holds the five
settings as they are at the moment of the call (and none otherwise). A change
of the detection mode writes only the field `detectionMode`, sends no request
and leaves the requests of any trace so far as they were, and the body of the
next run carries the new mode with the other four settings unchanged. -/
theorem C13_request_body_is_current_settings (s : ObjectDetectionSystem)
    (dom dom2 : DetectionDom) (out : FetchOutcome DetectionResponse) (value : String)
    (sent : List Effect) :
    requests (s.runDetection dom out).2.2
        = (if s.isDetectionActive then []
           else [Effect.request "POST" "/api/detect-objects/"
                  (some { mode := s.detectionMode
                          sensitivity := s.sensitivity
                          target_classes := s.targetClasses
                          facial_recognition := s.facialRecognitionEnabled
                          threat_assessment := s.threatAssessmentEnabled })])
      ∧ (ObjectDetectionSystem.onDetectionModeChange s dom value).1
          = { s with detectionMode := value }
      ∧ requests (ObjectDetectionSystem.onDetectionModeChange s dom value).2.2 = []
      ∧ requests (sent ++ (ObjectDetectionSystem.onDetectionModeChange s dom value).2.2)
          = requests sent
      ∧ requests ((ObjectDetectionSystem.onDetectionModeChange s dom value).1.runDetection
            dom2 out).2.2
        = (if s.isDetectionActive then []
           else [Effect.request "POST" "/api/detect-objects/"
                  (some { mode := value
                          sensitivity := s.sensitivity
                          target_classes := s.targetClasses
                          facial_recognition := s.facialRecognitionEnabled
                          threat_assessment := s.threatAssessmentEnabled })]) := by
  refine ⟨?_, rfl, rfl, ?_, ?_⟩
  · rw [requests_runDetection]
    rfl
  · simp [requests, List.filter_append, ObjectDetectionSystem.onDetectionModeChange,
      ObjectDetectionSystem.updateDetectionSettings, Effect.isRequest]
  · rw [requests_runDetection]
    rfl

/-! ### Export of detection results -/

/-- C14: for every non-empty `detectionResults`, `exportResults` does not
throw and the object it serialises has the time stamp taken for it, `results`
equal to the whole of `detectionResults` in the same order, `total_detections`
equal to its length, and the current detection mode, sensitivity and target
classes. -/
theorem C14_export_holds_all_results (s : ObjectDetectionSystem) (iso1 iso2 : String)
    (results : List Detection) (hres : s.detectionResults = some results)
    (hne : results ≠ []) :
    (s.exportResults iso1 iso2).threw = false
      ∧ ∃ name data, (s.exportResults iso1 iso2).file = some (name, data)
        ∧ data.timestamp = iso1
        ∧ data.results = results
        ∧ data.total_detections = results.length
        ∧ data.detection_mode = s.detectionMode
        ∧ data.sensitivity = s.sensitivity
        ∧ data.target_classes = s.targetClasses := by
  have hlen : ¬ results.length = 0 := by
    intro h
    exact hne (List.length_eq_zero.1 h)
  have hfile : (s.exportResults iso1 iso2)
      = { threw := false
          file := some ("detection_results_" ++ (iso2.take 19).replace ":" "-" ++ ".json",
            { timestamp := iso1, detection_mode := s.detectionMode,
              sensitivity := s.sensitivity, target_classes := s.targetClasses,
              total_detections := results.length, results := results })
          effects := [Effect.notify "Detection results exported successfully" "success"] } := by
    simp [ObjectDetectionSystem.exportResults, hres, hlen]
  rw [hfile]
  exact ⟨rfl, _, _, rfl, rfl, rfl, rfl, rfl, rfl, rfl⟩

/-- C14 at a concrete input: the constructed controller holding one result. -/
theorem C14_export_holds_all_results_witness :
    ({ ObjectDetectionSystem.new with detectionResults := some [sampleDetection] }.exportResults
        "2024-01-01T10:20:30.000Z" "2024-01-01T10:20:30.001Z").threw = false
      ∧ ∃ name data,
        ({ ObjectDetectionSystem.new with
            detectionResults := some [sampleDetection] }.exportResults
          "2024-01-01T10:20:30.000Z" "2024-01-01T10:20:30.001Z").file = some (name, data)
        ∧ data.timestamp = "2024-01-01T10:20:30.000Z"
        ∧ data.results = [sampleDetection]
        ∧ data.total_detections = [sampleDetection].length
        ∧ data.detection_mode
          = { ObjectDetectionSystem.new with
              detectionResults := some [sampleDetection] }.detectionMode
        ∧ data.sensitivity
          = { ObjectDetectionSystem.new with
              detectionResults := some [sampleDetection] }.sensitivity
        ∧ data.target_classes
          = { ObjectDetectionSystem.new with
              detectionResults := some [sampleDetection] }.targetClasses :=
  C14_export_holds_all_results
    { ObjectDetectionSystem.new with detectionResults := some [sampleDetection] }
    "2024-01-01T10:20:30.000Z" "2024-01-01T10:20:30.001Z" [sampleDetection] rfl (by simp)

/-! ### Eviction from the activity log -/

theorem addLogEntry_of_elements (nodes : List LogNode) (hours minutes : Nat)
    (message type : String) (hall : ∀ x ∈ nodes, x.isElement = true)
    (hcap : nodes.length ≤ 10) :
    addLogEntry (some nodes) hours minutes message type
      = some ((LogNode.element (newLogEntry hours minutes message type) :: nodes).take 10) := by
  have hch : children nodes = nodes := by
    simpa [children] using hall
  simp only [addLogEntry, children_cons_element, hch]
  by_cases h : nodes.length + 1 > 10
  · have h10 : nodes.length = 10 := by omega
    rw [if_pos h]
    congr 1
    rw [List.dropLast_eq_take]
    simp [h10]
  · rw [if_neg h]
    congr 1
    rw [List.take_of_length_le]
    simp only [List.length_cons]
    omega

/-- C15: the code at a log of 10 entries followed by the white space text
node that the page source leaves before the closing tag. The log holds 10
entries, so the new entry should evict the oldest; the code counts 11 element
children, removes the last child node, which is the text node, and leaves 11
entries instead of the first 10 of the new entry followed by the old ones. -/
theorem C15_addLogEntry_removes_text_node :
    addLogEntry
        (some (List.replicate 10 (LogNode.element sampleEntry) ++ [LogNode.text "\n"]))
        9 5 "Drone deployed" ""
      = some (LogNode.element (newLogEntry 9 5 "Drone deployed" "")
          :: List.replicate 10 (LogNode.element sampleEntry))
      ∧ (children (LogNode.element (newLogEntry 9 5 "Drone deployed" "")
          :: List.replicate 10 (LogNode.element sampleEntry))).length = 11
      ∧ children (LogNode.element (newLogEntry 9 5 "Drone deployed" "")
          :: List.replicate 10 (LogNode.element sampleEntry))
        ≠ (LogNode.element (newLogEntry 9 5 "Drone deployed" "")
            :: children (List.replicate 10 (LogNode.element sampleEntry)
                ++ [LogNode.text "\n"])).take 10 := by
  decide

/-! ### Patrol path -/

theorem keepWithinBounds_of_mem (x : ℚ) (h1 : 5 ≤ x) (h2 : x ≤ 95) : keepWithinBounds x = x := by
  unfold keepWithinBounds
  rw [min_eq_right h2, max_eq_right h1]

theorem unit_of_circle (a b : ℚ) (h : a ^ 2 + b ^ 2 = 1) : -1 ≤ a ∧ a ≤ 1 := by
  constructor <;> nlinarith [sq_nonneg b, sq_nonneg (a - 1), sq_nonneg (a + 1)]

theorem animateDroneMovement_patrolling (o : Oracle) (n : Nat) (el : DroneElement) (d : Drone)
    (hst : d.status = "patrolling") (hcirc : ∀ x, o.cos x ^ 2 + o.sin x ^ 2 = 1) :
    (DroneController.animateDroneMovement o n el d).1.left
        = some (50 + o.cos (o.now n / 1000 * (1 / 10) + d.id) * 15)
      ∧ (DroneController.animateDroneMovement o n el d).1.top
        = some (50 + o.sin (o.now n / 1000 * (1 / 10) + d.id) * 15) := by
  have hc := unit_of_circle _ _ (hcirc (o.now n / 1000 * (1 / 10) + d.id))
  have hs := unit_of_circle (o.sin (o.now n / 1000 * (1 / 10) + d.id))
    (o.cos (o.now n / 1000 * (1 / 10) + d.id))
    (by rw [add_comm]; exact hcirc _)
  have e1 := keepWithinBounds_of_mem (50 + o.cos (o.now n / 1000 * (1 / 10) + d.id) * 15)
    (by linarith [hc.1]) (by linarith [hc.2])
  have e2 := keepWithinBounds_of_mem (50 + o.sin (o.now n / 1000 * (1 / 10) + d.id) * 15)
    (by linarith [hs.1]) (by linarith [hs.2])
  simp only [DroneController.animateDroneMovement, DroneController.movementTarget, hst,
    if_true]
  exact ⟨congrArg some e1, congrArg some e2⟩

/-- C16: for a patrolling drone, every drone id, clock value and current
position, with cosine and sine functions that satisfy the circle identity,
`animateDroneMovement` writes left `50 + 15 cos(0.1 t + id)` and top
`50 + 15 sin(0.1 t + id)`, `t` being the clock in seconds: the clamp changes
nothing and the point lies on the circle of radius 15 about (50, 50). Two
runs with the same clock value and id agree, whatever their elements, oracle
indices and random draws. -/
theorem C16_patrol_path_is_deterministic_circle (o : Oracle) (n : Nat) (el : DroneElement)
    (d : Drone) (hst : d.status = "patrolling")
    (hcirc : ∀ x, o.cos x ^ 2 + o.sin x ^ 2 = 1) :
    (∃ l t, (DroneController.animateDroneMovement o n el d).1.left = some l
        ∧ (DroneController.animateDroneMovement o n el d).1.top = some t
        ∧ l = 50 + 15 * o.cos (1 / 10 * (o.now n / 1000) + d.id)
        ∧ t = 50 + 15 * o.sin (1 / 10 * (o.now n / 1000) + d.id)
        ∧ (l - 50) ^ 2 + (t - 50) ^ 2 = 15 ^ 2)
      ∧ ∀ (o2 : Oracle) (n2 : Nat) (el2 : DroneElement) (d2 : Drone),
          d2.status = "patrolling" → d2.id = d.id → o2.now n2 = o.now n →
          o2.cos = o.cos → o2.sin = o.sin →
          (DroneController.animateDroneMovement o2 n2 el2 d2).1.left
              = (DroneController.animateDroneMovement o n el d).1.left
            ∧ (DroneController.animateDroneMovement o2 n2 el2 d2).1.top
              = (DroneController.animateDroneMovement o n el d).1.top := by
  obtain ⟨hl, ht⟩ := animateDroneMovement_patrolling o n el d hst hcirc
  constructor
  · refine ⟨_, _, hl, ht, ?_, ?_, ?_⟩
    · ring_nf
    · ring_nf
    · have h := hcirc (o.now n / 1000 * (1 / 10) + d.id)
      linear_combination 225 * h
  · intro o2 n2 el2 d2 hst2 hid hnow hcos hsin
    have hcirc2 : ∀ x, o2.cos x ^ 2 + o2.sin x ^ 2 = 1 := by
      intro x
      rw [hcos, hsin]
      exact hcirc x
    obtain ⟨hl2, ht2⟩ := animateDroneMovement_patrolling o2 n2 el2 d2 hst2 hcirc2
    rw [hl, ht, hl2, ht2, hid, hnow, hcos, hsin]
    exact ⟨rfl, rfl⟩

/-- C16 at a concrete input: a patrolling drone under the oracle whose cosine
is 1 and whose sine is 0. -/
theorem C16_patrol_path_is_deterministic_circle_witness :
    ∃ l t, (DroneController.animateDroneMovement (constOracle 0) 0 (elementAt 20 30)
          (sampleDrone 1 "patrolling")).1.left = some l
        ∧ (DroneController.animateDroneMovement (constOracle 0) 0 (elementAt 20 30)
          (sampleDrone 1 "patrolling")).1.top = some t
        ∧ l = 50 + 15 * (constOracle 0).cos
            (1 / 10 * ((constOracle 0).now 0 / 1000) + (sampleDrone 1 "patrolling").id)
        ∧ t = 50 + 15 * (constOracle 0).sin
            (1 / 10 * ((constOracle 0).now 0 / 1000) + (sampleDrone 1 "patrolling").id)
        ∧ (l - 50) ^ 2 + (t - 50) ^ 2 = 15 ^ 2 :=
  (C16_patrol_path_is_deterministic_circle (constOracle 0) 0 (elementAt 20 30)
    (sampleDrone 1 "patrolling") rfl (by intro x; norm_num [constOracle])).1

/-! ### Continuous detection -/

/-- C17: a tick of the continuous-detection timer that fires while
`isDetectionActive` is true does nothing: no request, no notification, no
other effect, and the controller and the page are unchanged. A tick that
fires while the flag is false is the start of one `runDetection`: the flag is
raised and exactly one request, the detection POST, is sent. -/
theorem C17_continuous_tick (s : ObjectDetectionSystem) (dom : DetectionDom) :
    (s.isDetectionActive = true →
        s.continuousDetectionTick dom
          = { inFlight := false, ctrl := s, dom := dom, effects := [] })
      ∧ (s.isDetectionActive = false →
        s.continuousDetectionTick dom = s.runDetectionBegin dom
          ∧ (s.continuousDetectionTick dom).inFlight = true
          ∧ (s.continuousDetectionTick dom).ctrl = { s with isDetectionActive := true }
          ∧ (s.continuousDetectionTick dom).effects
            = [Effect.request "POST" "/api/detect-objects/"
                (some (ObjectDetectionSystem.detectionParams s))]) := by
  constructor
  · intro h
    simp [ObjectDetectionSystem.continuousDetectionTick, h]
  · intro h
    simp [ObjectDetectionSystem.continuousDetectionTick,
      ObjectDetectionSystem.runDetectionBegin, h]

/-- C17 at concrete inputs: the constructed controller with the flag raised,
and with the flag lowered. -/
theorem C17_continuous_tick_witness :
    ({ ObjectDetectionSystem.new with isDetectionActive := true }.continuousDetectionTick
        emptyDetectionDom
        = { inFlight := false
            ctrl := { ObjectDetectionSystem.new with isDetectionActive := true }
            dom := emptyDetectionDom, effects := [] })
      ∧ (ObjectDetectionSystem.new.continuousDetectionTick emptyDetectionDom).effects
        = [Effect.request "POST" "/api/detect-objects/"
            (some (ObjectDetectionSystem.detectionParams ObjectDetectionSystem.new))] :=
  ⟨(C17_continuous_tick { ObjectDetectionSystem.new with isDetectionActive := true }
      emptyDetectionDom).1 rfl,
   ((C17_continuous_tick ObjectDetectionSystem.new emptyDetectionDom).2 rfl).2.2.2⟩

/-! ### Mock analytics data -/

theorem randomInt_range (r : ℚ) (h0 : 0 ≤ r) (h1 : r < 1) :
    ∃ m : Int, AnalyticsSystem.randomInt r 20 5 = m ∧ 5 ≤ m ∧ m ≤ 24 := by
  refine ⟨⌊r * ((20 : Int) : ℚ)⌋ + 5, rfl, ?_, ?_⟩
  · have : 0 ≤ ⌊r * ((20 : Int) : ℚ)⌋ := Int.floor_nonneg.2 (by push_cast; linarith)
    omega
  · have : ⌊r * ((20 : Int) : ℚ)⌋ < 20 := Int.floor_lt.2 (by push_cast; linarith)
    omega

theorem padStart2_length (h : Nat) (hlt : h < 24) : (padStart2 h).length = 2 := by
  interval_cases h <;> decide

theorem mockHours_members (o : Oracle) (now : ℚ) (n k j : Nat)
    (hr : ∀ i, 0 ≤ o.random i ∧ o.random i < 1) (hh : ∀ x, o.getHours x < 24) :
    (∀ l ∈ (AnalyticsSystem.mockHours o now n k j).1,
        ∃ h, h < 24 ∧ l = padStart2 h ++ ":00" ∧ (padStart2 h).length = 2)
      ∧ ∀ c ∈ (AnalyticsSystem.mockHours o now n k j).2,
        ∃ m : Int, c = m ∧ 5 ≤ m ∧ m ≤ 24 := by
  induction k generalizing j with
  | zero => simp [AnalyticsSystem.mockHours]
  | succ k ih =>
    obtain ⟨ih1, ih2⟩ := ih (j + 1)
    constructor
    · intro l hl
      simp only [AnalyticsSystem.mockHours, List.mem_cons] at hl
      rcases hl with rfl | hl
      · exact ⟨_, hh _, rfl, padStart2_length _ (hh _)⟩
      · exact ih1 l hl
    · intro c hc
      simp only [AnalyticsSystem.mockHours, List.mem_cons] at hc
      rcases hc with rfl | hc
      · exact randomInt_range _ (hr _).1 (hr _).2
      · exact ih2 c hc

/-- C18: for every clock value, every sequence of random draws in the
half-open interval from 0 to 1 and every hour function with values below 24,
`generateMockData` stores a detection series of exactly 24 labels and 24
counts, each count an integer from 5 to 24 and each label a two-character
hour from 00 to 23 followed by `:00`, together with the threat data
45, 23, 12, 3 and the object data 45, 30, 15, 10. -/
theorem C18_generateMockData_series (s : AnalyticsSystem) (o : Oracle) (n : Nat)
    (hr : ∀ i, 0 ≤ o.random i ∧ o.random i < 1) (hh : ∀ x, o.getHours x < 24) :
    ∃ f obj thr,
      (AnalyticsSystem.generateMockData s o n).1.analyticsData.detection_frequency = some f
        ∧ (AnalyticsSystem.generateMockData s o n).1.analyticsData.object_distribution
          = some obj
        ∧ (AnalyticsSystem.generateMockData s o n).1.analyticsData.threat_distribution
          = some thr
        ∧ f.labels.length = 24 ∧ f.data.length = 24
        ∧ (∀ c ∈ f.data, ∃ m : Int, c = m ∧ 5 ≤ m ∧ m ≤ 24)
        ∧ (∀ l ∈ f.labels, ∃ h, h < 24 ∧ l = padStart2 h ++ ":00" ∧ (padStart2 h).length = 2)
        ∧ thr.data = [45, 23, 12, 3] ∧ obj.data = [45, 30, 15, 10] :=
  ⟨_, _, _, rfl, rfl, rfl,
    (mockHours_length o (o.now n) (n + 1) 24 0).1,
    (mockHours_length o (o.now n) (n + 1) 24 0).2,
    (mockHours_members o (o.now n) (n + 1) 24 0 hr hh).2,
    (mockHours_members o (o.now n) (n + 1) 24 0 hr hh).1, rfl, rfl⟩

/-- C18 at a concrete input: the fresh controller under constant draws of one
quarter. -/
theorem C18_generateMockData_series_witness :
    ∃ f obj thr,
      (AnalyticsSystem.generateMockData freshAnalytics (constOracle (1 / 4)) 0
          ).1.analyticsData.detection_frequency = some f
        ∧ (AnalyticsSystem.generateMockData freshAnalytics (constOracle (1 / 4)) 0
          ).1.analyticsData.object_distribution = some obj
        ∧ (AnalyticsSystem.generateMockData freshAnalytics (constOracle (1 / 4)) 0
          ).1.analyticsData.threat_distribution = some thr
        ∧ f.labels.length = 24 ∧ f.data.length = 24
        ∧ (∀ c ∈ f.data, ∃ m : Int, c = m ∧ 5 ≤ m ∧ m ≤ 24)
        ∧ (∀ l ∈ f.labels, ∃ h, h < 24 ∧ l = padStart2 h ++ ":00" ∧ (padStart2 h).length = 2)
        ∧ thr.data = [45, 23, 12, 3] ∧ obj.data = [45, 30, 15, 10] :=
  C18_generateMockData_series freshAnalytics (constOracle (1 / 4)) 0
    (by intro i; norm_num [constOracle]) (by intro x; norm_num [constOracle])

/-! ### Status classes of the map icon -/

/-- C20: the code on an icon of a drone that was returning and is now on
standby. The first call leaves the class of the returning status on the
icon; the second call, which should remove it, removes only the classes of
the deployed, patrolling, scanning and standby statuses, so the icon ends
with the classes of two statuses. -/
theorem C20_updateDroneIconStatus_keeps_returning :
    DroneController.updateDroneIconStatus ["drone-icon"] "returning" 80
        = (["drone-icon", "status-returning"], false)
      ∧ DroneController.updateDroneIconStatus ["drone-icon", "status-returning"] "standby" 80
        = (["drone-icon", "status-returning", "status-standby"], false)
      ∧ "status-returning"
        ∈ (DroneController.updateDroneIconStatus ["drone-icon", "status-returning"]
            "standby" 80).1 := by
  decide

/-! ### Real-time flag and polling timer -/

theorem RealTimeInv.init (t0 : Timers) : RealTimeInv t0 false none t0 :=
  ⟨le_refl _, Or.inl ⟨rfl, rfl, rfl⟩⟩

theorem RealTimeInv.start {t0 t : Timers} {active : Bool} {interval : Option Nat}
    (h : RealTimeInv t0 active interval t) (hna : active = false) (cb : TimerCallback)
    (d : Nat) :
    RealTimeInv t0 true (some (t.setInterval cb d).1) (t.setInterval cb d).2 := by
  obtain ⟨hle, hcase⟩ := h
  rcases hcase with ⟨_, _, hlive⟩ | ⟨hact, _⟩
  · refine ⟨Nat.le_succ_of_le hle, Or.inr ⟨rfl, ⟨t.lastId + 1, cb, d⟩, rfl, ?_, ?_, ?_⟩⟩
    · exact Nat.lt_succ_of_le hle
    · exact le_refl _
    · simp [Timers.setInterval, hlive]
  · rw [hna] at hact
    exact absurd hact (by decide)

theorem RealTimeInv.stop {t0 t : Timers} {active : Bool} {interval : Option Nat}
    (hwf : ∀ x ∈ t0.live, x.id ≤ t0.lastId) (h : RealTimeInv t0 active interval t) :
    (truthyId interval = true → RealTimeInv t0 false none (t.clearInterval interval))
      ∧ (truthyId interval = false → RealTimeInv t0 false interval t) := by
  obtain ⟨hle, hcase⟩ := h
  rcases hcase with ⟨_, hint, hlive⟩ | ⟨_, tm, hint, hlt, _, hlive⟩
  · subst hint
    exact ⟨fun hf => absurd hf (by simp [truthyId]), fun _ => ⟨hle, Or.inl ⟨rfl, rfl, hlive⟩⟩⟩
  · subst hint
    constructor
    · intro _
      refine ⟨hle, Or.inl ⟨rfl, rfl, ?_⟩⟩
      simp only [Timers.clearInterval, hlive, List.filter_append]
      have h1 : t0.live.filter (fun x => decide (x.id ≠ tm.id)) = t0.live := by
        rw [List.filter_eq_self]
        intro x hx
        have := hwf x hx
        simp only [ne_eq, decide_not, Bool.not_eq_true', decide_eq_false_iff_not]
        omega
      rw [h1]
      simp
    · intro hf
      have hpos : tm.id ≠ 0 := by omega
      simp [truthyId, hpos] at hf

theorem RealTimeInv.flag_iff {t0 t : Timers} {active : Bool} {interval : Option Nat}
    (h : RealTimeInv t0 active interval t) :
    active = true ↔ ∃ id, interval = some id ∧ id ∈ t.liveIds := by
  obtain ⟨_, hcase⟩ := h
  rcases hcase with ⟨hact, hint, _⟩ | ⟨hact, tm, hint, _, _, hlive⟩
  · subst hint
    simp [hact]
  · subst hint
    simp [hact, Timers.liveIds, hlive]

theorem RealTimeInv.ownTimers_length {t0 t : Timers} {active : Bool} {interval : Option Nat}
    (hwf : ∀ x ∈ t0.live, x.id ≤ t0.lastId) (h : RealTimeInv t0 active interval t) :
    (ownTimers t0 t).length = if active then 1 else 0 := by
  obtain ⟨_, hcase⟩ := h
  have hold : t0.live.filter (fun x => !t0.live.contains x) = [] := by
    rw [List.filter_eq_nil_iff]
    intro x hx
    simp [hx]
  rcases hcase with ⟨hact, _, hlive⟩ | ⟨hact, tm, _, hlt, _, hlive⟩
  · simp [ownTimers, hlive, hold, hact]
  · have hnew : tm ∉ t0.live := by
      intro hm
      have := hwf tm hm
      omega
    simp [ownTimers, hlive, List.filter_append, hold, hact, hnew]

theorem drone_realTimeStep_inv (t0 : Timers) (hwf : ∀ x ∈ t0.live, x.id ≤ t0.lastId)
    (st : DroneController × Timers) (call : RealTimeCall)
    (h : RealTimeInv t0 st.1.isRealTimeActive st.1.updateInterval st.2) :
    RealTimeInv t0 (DroneController.realTimeStep st call).1.isRealTimeActive
      (DroneController.realTimeStep st call).1.updateInterval
      (DroneController.realTimeStep st call).2 := by
  cases call with
  | start =>
    simp only [DroneController.realTimeStep, DroneController.startRealTimeUpdates]
    cases hact : st.1.isRealTimeActive
    · exact h.start hact _ _
    · simpa [hact] using h
  | stop =>
    simp only [DroneController.realTimeStep, DroneController.stopRealTimeUpdates]
    cases htr : truthyId st.1.updateInterval
    · exact (RealTimeInv.stop hwf h).2 htr
    · exact (RealTimeInv.stop hwf h).1 htr
  | toggle b => exact h

theorem analytics_start_inv (t0 : Timers) (s : AnalyticsSystem) (t : Timers)
    (h : RealTimeInv t0 s.isRealTimeActive s.updateInterval t) :
    RealTimeInv t0 (AnalyticsSystem.startRealTimeUpdates s t).1.isRealTimeActive
      (AnalyticsSystem.startRealTimeUpdates s t).1.updateInterval
      (AnalyticsSystem.startRealTimeUpdates s t).2 := by
  simp only [AnalyticsSystem.startRealTimeUpdates]
  cases hact : s.isRealTimeActive
  · exact h.start hact _ _
  · simpa [hact] using h

theorem analytics_stop_inv (t0 : Timers) (hwf : ∀ x ∈ t0.live, x.id ≤ t0.lastId)
    (s : AnalyticsSystem) (t : Timers)
    (h : RealTimeInv t0 s.isRealTimeActive s.updateInterval t) :
    RealTimeInv t0 (AnalyticsSystem.stopRealTimeUpdates s t).1.isRealTimeActive
      (AnalyticsSystem.stopRealTimeUpdates s t).1.updateInterval
      (AnalyticsSystem.stopRealTimeUpdates s t).2 := by
  simp only [AnalyticsSystem.stopRealTimeUpdates]
  cases htr : truthyId s.updateInterval
  · exact (RealTimeInv.stop hwf h).2 htr
  · exact (RealTimeInv.stop hwf h).1 htr

theorem analytics_realTimeStep_inv (t0 : Timers) (hwf : ∀ x ∈ t0.live, x.id ≤ t0.lastId)
    (st : AnalyticsSystem × Timers) (call : RealTimeCall)
    (h : RealTimeInv t0 st.1.isRealTimeActive st.1.updateInterval st.2) :
    RealTimeInv t0 (AnalyticsSystem.realTimeStep st call).1.isRealTimeActive
      (AnalyticsSystem.realTimeStep st call).1.updateInterval
      (AnalyticsSystem.realTimeStep st call).2 := by
  cases call with
  | start => exact analytics_start_inv t0 st.1 st.2 h
  | stop => exact analytics_stop_inv t0 hwf st.1 st.2 h
  | toggle b =>
    cases b
    · exact h
    · simp only [AnalyticsSystem.realTimeStep, AnalyticsSystem.toggleRealTime, if_true]
      cases hact : st.1.isRealTimeActive
      · exact analytics_start_inv t0 st.1 st.2 h
      · exact analytics_stop_inv t0 hwf st.1 st.2 h

theorem drone_calls_inv (t0 : Timers) (hwf : ∀ x ∈ t0.live, x.id ≤ t0.lastId)
    (calls : List RealTimeCall) (st : DroneController × Timers)
    (h : RealTimeInv t0 st.1.isRealTimeActive st.1.updateInterval st.2) :
    RealTimeInv t0 (calls.foldl DroneController.realTimeStep st).1.isRealTimeActive
      (calls.foldl DroneController.realTimeStep st).1.updateInterval
      (calls.foldl DroneController.realTimeStep st).2 := by
  induction calls generalizing st with
  | nil => exact h
  | cons call rest ih => exact ih _ (drone_realTimeStep_inv t0 hwf st call h)

theorem analytics_calls_inv (t0 : Timers) (hwf : ∀ x ∈ t0.live, x.id ≤ t0.lastId)
    (calls : List RealTimeCall) (st : AnalyticsSystem × Timers)
    (h : RealTimeInv t0 st.1.isRealTimeActive st.1.updateInterval st.2) :
    RealTimeInv t0 (calls.foldl AnalyticsSystem.realTimeStep st).1.isRealTimeActive
      (calls.foldl AnalyticsSystem.realTimeStep st).1.updateInterval
      (calls.foldl AnalyticsSystem.realTimeStep st).2 := by
  induction calls generalizing st with
  | nil => exact h
  | cons call rest ih => exact ih _ (analytics_realTimeStep_inv t0 hwf st call h)

/-- C19: start from a freshly constructed `DroneController` or
`AnalyticsSystem`, in a window whose live timers carry identifiers already
handed out. After every sequence of calls of `startRealTimeUpdates`,
`stopRealTimeUpdates` and `toggleRealTime`, the flag `isRealTimeActive` is
true exactly when `updateInterval` holds the identifier of a live timer, and
the number of live timers the controller has created is 1 when the flag is
true and 0 otherwise. Calling `startRealTimeUpdates` twice in a row, in any
state, gives the same controller and timers as calling it once. -/
theorem C19_realTime_flag_tracks_timer (t0 : Timers)
    (hwf : ∀ x ∈ t0.live, x.id ≤ t0.lastId) (calls : List RealTimeCall) :
    (((calls.foldl DroneController.realTimeStep (DroneController.new, t0)).1.isRealTimeActive
          = true
        ↔ ∃ id, (calls.foldl DroneController.realTimeStep
              (DroneController.new, t0)).1.updateInterval = some id
            ∧ id ∈ (calls.foldl DroneController.realTimeStep
              (DroneController.new, t0)).2.liveIds)
      ∧ (ownTimers t0 (calls.foldl DroneController.realTimeStep
            (DroneController.new, t0)).2).length
          = if (calls.foldl DroneController.realTimeStep
              (DroneController.new, t0)).1.isRealTimeActive then 1 else 0)
      ∧ (((calls.foldl AnalyticsSystem.realTimeStep
            (AnalyticsSystem.new, t0)).1.isRealTimeActive = true
        ↔ ∃ id, (calls.foldl AnalyticsSystem.realTimeStep
              (AnalyticsSystem.new, t0)).1.updateInterval = some id
            ∧ id ∈ (calls.foldl AnalyticsSystem.realTimeStep
              (AnalyticsSystem.new, t0)).2.liveIds)
      ∧ (ownTimers t0 (calls.foldl AnalyticsSystem.realTimeStep
            (AnalyticsSystem.new, t0)).2).length
          = if (calls.foldl AnalyticsSystem.realTimeStep
              (AnalyticsSystem.new, t0)).1.isRealTimeActive then 1 else 0)
      ∧ (∀ (c : DroneController) (t : Timers),
          DroneController.startRealTimeUpdates (DroneController.startRealTimeUpdates c t).1
              (DroneController.startRealTimeUpdates c t).2
            = DroneController.startRealTimeUpdates c t)
      ∧ ∀ (s : AnalyticsSystem) (t : Timers),
          AnalyticsSystem.startRealTimeUpdates (AnalyticsSystem.startRealTimeUpdates s t).1
              (AnalyticsSystem.startRealTimeUpdates s t).2
            = AnalyticsSystem.startRealTimeUpdates s t := by
  have hd := drone_calls_inv t0 hwf calls (DroneController.new, t0) (RealTimeInv.init t0)
  have ha := analytics_calls_inv t0 hwf calls (AnalyticsSystem.new, t0) (RealTimeInv.init t0)
  refine ⟨⟨hd.flag_iff, hd.ownTimers_length hwf⟩, ⟨ha.flag_iff, ha.ownTimers_length hwf⟩,
    ?_, ?_⟩
  · intro c t
    cases hact : c.isRealTimeActive <;> simp [DroneController.startRealTimeUpdates, hact]
  · intro s t
    cases hact : s.isRealTimeActive <;> simp [AnalyticsSystem.startRealTimeUpdates, hact]

/-- C19 at a concrete input: start, start, toggle, stop, start in a window
without timers. -/
theorem C19_realTime_flag_tracks_timer_witness :
    (ownTimers noTimers
        ([RealTimeCall.start, RealTimeCall.start, RealTimeCall.toggle true, RealTimeCall.stop,
          RealTimeCall.start].foldl AnalyticsSystem.realTimeStep
            (AnalyticsSystem.new, noTimers)).2).length
      = if ([RealTimeCall.start, RealTimeCall.start, RealTimeCall.toggle true,
              RealTimeCall.stop, RealTimeCall.start].foldl AnalyticsSystem.realTimeStep
            (AnalyticsSystem.new, noTimers)).1.isRealTimeActive then 1 else 0 :=
  (C19_realTime_flag_tracks_timer noTimers (by intro x hx; simp [noTimers] at hx)
    [RealTimeCall.start, RealTimeCall.start, RealTimeCall.toggle true, RealTimeCall.stop,
     RealTimeCall.start]).2.1.2

/-! ### The drone count of the status poll -/

theorem drawNewCount_first (o : Oracle) (current : Option Int) (fuel n : Nat)
    (h : some (⌊o.random n * 6⌋ : Int) ≠ current) :
    drawNewCount o current (fuel + 1) n = some (⌊o.random n * 6⌋, n + 1) := by
  simp [drawNewCount, h]

/-- C21: the code at a page whose count element shows `3/5`, on a success
envelope with `active_count` 2 and `total_count` 4 and with `Math.random()`
returning 0. The call `updateDroneCount(2, 4)` reaches the second declaration
of that name, which ignores its arguments: the element shows `0/5`, not
`2/4`, and a log entry is added. The first declaration, which no call
reaches, would have written `2/4`. -/
theorem C21_updateDroneCount_is_the_random_one :
    updateDroneStatusComplete { droneElements := [], activeDronesCount := some "3/5" }
        (constOracle 0) 0 1
        (.resolved { success := true, drones := some [], active_count := some 2,
                     total_count := some 4 })
      = some ({ droneElements := [], activeDronesCount := some "0/5" },
              [Effect.log "Drone #3 recalled to base"], 1)
      ∧ updateDroneCountShadowed (some "3/5") (some 2) (some 4) = some "2/4" := by
  have hcur : jsParseInt (beforeSlash "3/5") = some 3 := by decide
  have hdraw : drawNewCount (constOracle 0) (some 3) 1 0 = some (0, 1) := by
    rw [drawNewCount_first] <;> norm_num [constOracle]
  constructor
  · simp only [updateDroneStatusComplete, updateDroneDisplay, updateDroneCount, hcur, hdraw,
      if_true]
    decide
  · decide

/-! ### Rounding to a double -/

theorem floorLog2_spec (fuel n : Nat) (h1 : 1 ≤ n) (h2 : n ≤ fuel) :
    2 ^ floorLog2 fuel n ≤ n ∧ n < 2 ^ (floorLog2 fuel n + 1) := by
  induction fuel generalizing n with
  | zero => omega
  | succ f ih =>
    by_cases h : n < 2
    · simp only [floorLog2, if_pos h]
      constructor <;> norm_num <;> omega
    · simp only [floorLog2, if_neg h]
      have h3 := ih (n / 2) (by omega) (by omega)
      rw [pow_succ] at h3
      rw [pow_succ, pow_succ]
      constructor <;> omega

theorem binade_spec (x : ℚ) (hx : x ≠ 0) :
    (2 : ℚ) ^ binade x ≤ |x| ∧ |x| < (2 : ℚ) ^ (binade x + 1) := by
  have hnum : 1 ≤ x.num.natAbs := by
    have : x.num ≠ 0 := Rat.num_ne_zero.2 hx
    omega
  have hden : 1 ≤ x.den := x.den_pos
  obtain ⟨hp1, hp2⟩ := floorLog2_spec x.num.natAbs x.num.natAbs hnum le_rfl
  obtain ⟨hq1, hq2⟩ := floorLog2_spec x.den x.den hden le_rfl
  have habs : |x| = (x.num.natAbs : ℚ) / (x.den : ℚ) := by
    conv_lhs => rw [← Rat.num_div_den x]
    rw [abs_div, Nat.cast_natAbs, Int.cast_abs]
    simp
  generalize hlp : floorLog2 x.num.natAbs x.num.natAbs = lp at hp1 hp2
  generalize hlq : floorLog2 x.den x.den = lq at hq1 hq2
  have hp1q : ((2 : ℚ) ^ lp) ≤ (x.num.natAbs : ℚ) := by exact_mod_cast hp1
  have hp2q : (x.num.natAbs : ℚ) < (2 : ℚ) ^ (lp + 1) := by exact_mod_cast hp2
  have hq1q : ((2 : ℚ) ^ lq) ≤ (x.den : ℚ) := by exact_mod_cast hq1
  have hq2q : (x.den : ℚ) < (2 : ℚ) ^ (lq + 1) := by exact_mod_cast hq2
  have hdq : (0 : ℚ) < (x.den : ℚ) := by exact_mod_cast hden
  have h2lq : (0 : ℚ) < (2 : ℚ) ^ lq := by positivity
  have hlow : (2 : ℚ) ^ ((lp : Int) - (lq : Int) - 1) ≤ |x| := by
    rw [habs, le_div_iff₀ hdq]
    have e : (2 : ℚ) ^ ((lp : Int) - (lq : Int) - 1) = (2 : ℚ) ^ lp / (2 : ℚ) ^ (lq + 1) := by
      rw [show (lp : Int) - (lq : Int) - 1 = (lp : Int) - ((lq + 1 : Nat) : Int) by push_cast; ring,
        zpow_sub₀ (by norm_num), zpow_natCast, zpow_natCast]
    rw [e, div_mul_eq_mul_div, div_le_iff₀ (by positivity)]
    have := mul_le_mul hp1q (le_of_lt hq2q) (le_of_lt hdq) (by positivity)
    linarith
  have hhigh : |x| < (2 : ℚ) ^ ((lp : Int) - (lq : Int) + 1) := by
    rw [habs, div_lt_iff₀ hdq]
    have e : (2 : ℚ) ^ ((lp : Int) - (lq : Int) + 1) = (2 : ℚ) ^ (lp + 1) / (2 : ℚ) ^ lq := by
      rw [show (lp : Int) - (lq : Int) + 1 = ((lp + 1 : Nat) : Int) - (lq : Int) by push_cast; ring,
        zpow_sub₀ (by norm_num), zpow_natCast, zpow_natCast]
    rw [e, div_mul_eq_mul_div, lt_div_iff₀ h2lq]
    have := mul_lt_mul hp2q hq1q h2lq (by positivity)
    linarith
  unfold binade
  rw [hlp, hlq]
  split_ifs with h
  · exact ⟨h, hhigh⟩
  · refine ⟨hlow, ?_⟩
    rw [sub_add_cancel]
    exact not_le.1 h

theorem binade_nonneg (x : ℚ) (h : 1 ≤ |x|) : 0 ≤ binade x := by
  have hx : x ≠ 0 := by
    rintro rfl
    norm_num at h
  have h2 := (binade_spec x hx).2
  have h3 : (2 : ℚ) ^ (0 : Int) < (2 : ℚ) ^ (binade x + 1) := by
    rw [zpow_zero]
    exact lt_of_le_of_lt h h2
  have := (zpow_lt_zpow_iff_right₀ (by norm_num : (1 : ℚ) < 2)).1 h3
  omega

theorem binade_le (x : ℚ) (hx : x ≠ 0) (e : Int) (h : |x| ≤ (2 : ℚ) ^ e) : binade x ≤ e := by
  have h2 := (binade_spec x hx).1
  exact (zpow_le_zpow_iff_right₀ (by norm_num : (1 : ℚ) < 2)).1 (le_trans h2 h)

theorem roundHalfEven_intCast (m : Int) : roundHalfEven (m : ℚ) = m := by
  simp [roundHalfEven]

theorem roundDouble_of_quotient (x : ℚ) (hx : x ≠ 0) (m : Int)
    (h : x / 2 ^ max (binade x - 52) (-1074) = (m : ℚ)) : roundDouble x = x := by
  have hu : (2 : ℚ) ^ max (binade x - 52) (-1074) ≠ 0 := by positivity
  rw [roundDouble, if_neg hx, h, roundHalfEven_intCast, ← h, div_mul_cancel₀ _ hu]

theorem roundDouble_intCast (k : Int) (h : |k| ≤ 2 ^ 53) : roundDouble (k : ℚ) = k := by
  by_cases hk : k = 0
  · simp [hk, roundDouble]
  have hx : (k : ℚ) ≠ 0 := by exact_mod_cast hk
  have h1 : (1 : ℚ) ≤ |(k : ℚ)| := by
    have : 1 ≤ |k| := Int.one_le_abs hk
    exact_mod_cast this
  have h53 : |(k : ℚ)| ≤ (2 : ℚ) ^ (53 : Int) := by
    have : ((|k| : Int) : ℚ) ≤ ((2 ^ 53 : Int) : ℚ) := by exact_mod_cast h
    rw [Int.cast_abs] at this
    rw [zpow_ofNat]
    exact_mod_cast this
  have he0 := binade_nonneg (k : ℚ) h1
  have he1 := binade_le (k : ℚ) hx 53 h53
  have hspec := binade_spec (k : ℚ) hx
  have hmax : max (binade (k : ℚ) - 52) (-1074) = binade (k : ℚ) - 52 := by
    apply max_eq_left
    omega
  by_cases he : binade (k : ℚ) ≤ 52
  · obtain ⟨d, hd⟩ := Int.eq_ofNat_of_zero_le (show 0 ≤ 52 - binade (k : ℚ) by omega)
    have hexp : binade (k : ℚ) - 52 = -(d : Int) := by omega
    apply roundDouble_of_quotient (k : ℚ) hx (k * 2 ^ d)
    rw [hmax, hexp, zpow_neg, zpow_natCast, div_inv_eq_mul]
    push_cast
    ring
  · have he53 : binade (k : ℚ) = 53 := by omega
    have habs : |(k : ℚ)| = (2 : ℚ) ^ (53 : Int) := le_antisymm h53 (by rw [← he53]; exact hspec.1)
    have hexp : binade (k : ℚ) - 52 = 1 := by omega
    have hk2 : |k| = 2 ^ 53 := by
      have : ((|k| : Int) : ℚ) = ((2 ^ 53 : Int) : ℚ) := by
        rw [Int.cast_abs, habs]
        norm_num
      exact_mod_cast this
    rcases abs_eq (by norm_num : (0 : Int) ≤ 2 ^ 53) |>.1 hk2 with h | h
    · apply roundDouble_of_quotient (k : ℚ) hx (2 ^ 52)
      rw [hmax, hexp, h]
      norm_num
    · apply roundDouble_of_quotient (k : ℚ) hx (-(2 ^ 52))
      rw [hmax, hexp, h]
      norm_num

theorem integerText_intCast (k : Int) : integerText (k : ℚ) = toString k := by
  simp [integerText]

/-! ### The alerts card -/

theorem alerts_card_of_count (c0 c1 c2 c3 : String) (rest : List String) (o : Oracle) (n : Nat)
    (k : Int) (hp : parseIntOr c1 18 = k) (hk : |k| < 2 ^ 53) :
    (AnalyticsSystem.updateSummaryStats (c0 :: c1 :: c2 :: c3 :: rest) o n).1.get? 1
      = some (if o.random (n + 1) < roundDouble (3 / 10) then toString (k + 1) else c1) := by
  obtain ⟨hlo, hhi⟩ := abs_lt.1 hk
  have e1 : roundDouble ((k : Int) : ℚ) = (k : ℚ) := roundDouble_intCast k (le_of_lt hk)
  have e2 : roundDouble ((k : ℚ) + 1) = ((k + 1 : Int) : ℚ) := by
    have := roundDouble_intCast (k + 1) (abs_le.2 ⟨by omega, by omega⟩)
    push_cast at this ⊢
    exact this
  simp only [AnalyticsSystem.updateSummaryStats, hp, e1, e2, integerText_intCast,
    List.get?_cons_succ, List.get?_cons_zero]

/-- C22, as the claim states it, fails: a second card whose text holds no
number shows `19` after an update whose draw is below 0.3, which is neither
its old text nor that text plus 1; so does a card that shows `0`. -/
theorem C22_counterexample :
    (AnalyticsSystem.updateSummaryStats ["247", "n/a", "92%", "5.0h"] (constOracle 0) 0).1.get? 1
        = some "19"
      ∧ (AnalyticsSystem.updateSummaryStats ["247", "0", "92%", "5.0h"] (constOracle 0) 0).1.get? 1
        = some "19" := by
  have h1 : parseIntOr "n/a" 18 = 18 := by decide
  have h0 : parseIntOr "0" 18 = 18 := by decide
  have hd : (constOracle 0).random (0 + 1) < roundDouble (3 / 10) := by decide!
  have e1 := alerts_card_of_count "247" "n/a" "92%" "5.0h" [] (constOracle 0) 0 18 h1 (by norm_num)
  have e0 := alerts_card_of_count "247" "0" "92%" "5.0h" [] (constOracle 0) 0 18 h0 (by norm_num)
  rw [if_pos hd] at e1 e0
  exact ⟨e1, e0⟩

/-- C22, amended: with at least four stat cards, the second card after
`updateSummaryStats` shows its old text when the second draw is not below
the double 0.3, and otherwise a count plus 1. When `parseInt` reads from the
old text an integer `k` other than zero, of magnitude below `2 ^ 53`, the
count is `k`; when `parseInt` finds no number in the old text, the count is
18, so the card shows `19`. The double 0.3 is 5404319552844595 / 2^54. -/
theorem C22_alerts_card (c0 c1 c2 c3 : String) (rest : List String) (o : Oracle) (n : Nat) :
    (∀ k : Int, jsParseInt c1 = some k → k ≠ 0 → |k| < 2 ^ 53 →
        (AnalyticsSystem.updateSummaryStats (c0 :: c1 :: c2 :: c3 :: rest) o n).1.get? 1
          = some (if o.random (n + 1) < roundDouble (3 / 10) then toString (k + 1) else c1))
      ∧ (jsParseInt c1 = none →
        (AnalyticsSystem.updateSummaryStats (c0 :: c1 :: c2 :: c3 :: rest) o n).1.get? 1
          = some (if o.random (n + 1) < roundDouble (3 / 10) then "19" else c1))
      ∧ roundDouble (3 / 10) = 5404319552844595 / 18014398509481984 := by
  refine ⟨?_, ?_, by decide!⟩
  · intro k hk hne hlt
    exact alerts_card_of_count c0 c1 c2 c3 rest o n k (by simp [parseIntOr, hk, hne]) hlt
  · intro hk
    exact alerts_card_of_count c0 c1 c2 c3 rest o n 18 (by simp [parseIntOr, hk]) (by norm_num)

/-- C22 at concrete inputs, with the draw 0: a card that shows an em space
followed by `12` then shows `13`, and a card without a number then shows
`19`. -/
theorem C22_alerts_card_witness :
    (AnalyticsSystem.updateSummaryStats ["247", "\u200312", "92%", "5.0h"] (constOracle 0)
        0).1.get? 1 = some "13"
      ∧ (AnalyticsSystem.updateSummaryStats ["247", "n/a", "92%", "5.0h"] (constOracle 0)
        0).1.get? 1 = some "19" := by
  have hd : (constOracle 0).random (0 + 1) < roundDouble (3 / 10) := by decide!
  have h1 := (C22_alerts_card "247" "\u200312" "92%" "5.0h" [] (constOracle 0) 0).1 12
    (by decide) (by decide) (by norm_num)
  have h2 := (C22_alerts_card "247" "n/a" "92%" "5.0h" [] (constOracle 0) 0).2.1 (by decide)
  rw [if_pos hd] at h1 h2
  exact ⟨h1.trans (by decide), h2⟩

/-! ### The detection flag over a whole call -/

theorem runDetectionComplete_flag (s : ObjectDetectionSystem) (dom : DetectionDom)
    (out : FetchOutcome DetectionResponse) :
    (ObjectDetectionSystem.runDetectionComplete s dom out).1.isDetectionActive = false := by
  unfold ObjectDetectionSystem.runDetectionComplete
  rcases ObjectDetectionSystem.runDetectionHandle s dom out with ⟨s1, dom1, eff⟩
  rfl

/-- C24: when a `runDetection` call passes the guard, the flag is true once
the request is sent, the completion of the call lowers it whatever arrives (a
success envelope, with or without its analysis or detections, an envelope
with `success: false`, or a throwing fetch) and whatever the controller and
page have become meanwhile, and a call made after the completion passes the
guard again. -/
theorem C24_flag_raised_in_flight_lowered_after (s : ObjectDetectionSystem)
    (dom dom2 : DetectionDom) (out : FetchOutcome DetectionResponse)
    (h : s.isDetectionActive = false) :
    (s.runDetectionBegin dom).inFlight = true
      ∧ (s.runDetectionBegin dom).ctrl.isDetectionActive = true
      ∧ (∀ (s1 : ObjectDetectionSystem) (dom1 : DetectionDom)
            (out1 : FetchOutcome DetectionResponse),
          (ObjectDetectionSystem.runDetectionComplete s1 dom1 out1).1.isDetectionActive = false)
      ∧ (s.runDetection dom out).1.isDetectionActive = false
      ∧ ((s.runDetection dom out).1.runDetectionBegin dom2).inFlight = true := by
  have hrun : (s.runDetection dom out).1.isDetectionActive = false := by
    have hc := runDetectionComplete_flag { s with isDetectionActive := true }
      (ObjectDetectionSystem.showDetectionProgress dom) out
    simp only [ObjectDetectionSystem.runDetection, ObjectDetectionSystem.runDetectionBegin, h]
    exact hc
  refine ⟨?_, ?_, runDetectionComplete_flag, hrun, ?_⟩
  · simp [ObjectDetectionSystem.runDetectionBegin, h]
  · simp [ObjectDetectionSystem.runDetectionBegin, h]
  · simp [ObjectDetectionSystem.runDetectionBegin, hrun]

/-- C24 at a concrete input: the constructed controller against a success
envelope without an analysis field, whose processing throws. -/
theorem C24_flag_raised_in_flight_lowered_after_witness :
    (ObjectDetectionSystem.new.runDetection emptyDetectionDom
        (.resolved { success := true, detections := some [sampleDetection], analysis := none,
                     error := none })).1.isDetectionActive = false :=
  (C24_flag_raised_in_flight_lowered_after ObjectDetectionSystem.new emptyDetectionDom
    emptyDetectionDom _ rfl).2.2.2.1

/-! ### The trend of the detection series -/

theorem reduceFrom_append (f : ℚ → ℚ → Nat → ℚ) (i : Nat) (acc : ℚ) (l : List ℚ) (v : ℚ) :
    reduceFrom f i acc (l ++ [v]) = f (reduceFrom f i acc l) v (i + l.length) := by
  induction l generalizing i acc with
  | nil => simp [reduceFrom]
  | cons x rest ih =>
    show reduceFrom f (i + 1) (f acc x i) (rest ++ [v])
      = f (reduceFrom f (i + 1) (f acc x i) rest) v (i + (rest.length + 1))
    rw [ih, Nat.add_assoc, Nat.add_comm 1]

theorem reduce_sum (g : ℚ → ℚ) (l : List ℚ) :
    reduce (fun sum val _ => sum + g val) 0 l = (l.map g).sum := by
  induction l using List.reverseRecOn with
  | nil => simp [reduce, reduceFrom]
  | append_singleton init v ih =>
    simp only [reduce] at ih ⊢
    rw [reduceFrom_append, ih]
    simp

theorem trendSumX2_eq (data : List ℚ) :
    AnalyticsSystem.trendSumX2 data
      = ((data.length : ℚ) - 1) * (data.length : ℚ) * (2 * (data.length : ℚ) - 1) / 6 := by
  induction data using List.reverseRecOn with
  | nil => simp [AnalyticsSystem.trendSumX2, reduce, reduceFrom]
  | append_singleton init v ih =>
    simp only [AnalyticsSystem.trendSumX2, reduce] at ih ⊢
    rw [reduceFrom_append, ih]
    simp only [zero_add, List.length_append, List.length_singleton]
    push_cast
    ring

theorem sum_range_id (n : Nat) :
    (Finset.range n).sum (fun i => (i : ℚ)) = (n : ℚ) * ((n : ℚ) - 1) / 2 := by
  induction n with
  | zero => simp
  | succ k ih =>
    rw [Finset.sum_range_succ, ih]
    push_cast
    ring

theorem sum_range_sq (n : Nat) :
    (Finset.range n).sum (fun i => (i : ℚ) ^ 2)
      = ((n : ℚ) - 1) * (n : ℚ) * (2 * (n : ℚ) - 1) / 6 := by
  induction n with
  | zero => simp
  | succ k ih =>
    rw [Finset.sum_range_succ, ih]
    push_cast
    ring

theorem trendDenominator_eq (data : List ℚ) :
    AnalyticsSystem.trendDenominator data
      = (data.length : ℚ) ^ 2 * ((data.length : ℚ) ^ 2 - 1) / 12 := by
  simp only [AnalyticsSystem.trendDenominator, trendSumX2_eq, AnalyticsSystem.trendSumX]
  ring

theorem trendDenominator_pos (data : List ℚ) (h : 2 ≤ data.length) :
    0 < AnalyticsSystem.trendDenominator data := by
  rw [trendDenominator_eq]
  have h2 : (2 : ℚ) ≤ (data.length : ℚ) := by exact_mod_cast h
  have h3 : (0 : ℚ) < (data.length : ℚ) ^ 2 := by positivity
  have h4 : (0 : ℚ) < (data.length : ℚ) ^ 2 - 1 := by nlinarith
  positivity

/-- C25: for every data list of length `n` at least 2, the divisor of
`calculateTrend` is `n` times the sum of the squares of the indices minus the
square of the sum of the indices, it equals `n²(n² − 1)/12`, and it is
strictly positive, so the division is never by zero. For every list of length
0 or 1 the function returns 0 by its first statement. -/
theorem C25_calculateTrend_divisor_positive (data : List ℚ) :
    (2 ≤ data.length →
        AnalyticsSystem.trendDenominator data
            = (data.length : ℚ) * (Finset.range data.length).sum (fun i => (i : ℚ) ^ 2)
              - ((Finset.range data.length).sum (fun i => (i : ℚ))) ^ 2
          ∧ AnalyticsSystem.trendDenominator data
            = (data.length : ℚ) ^ 2 * ((data.length : ℚ) ^ 2 - 1) / 12
          ∧ 0 < AnalyticsSystem.trendDenominator data)
      ∧ (data.length < 2 → AnalyticsSystem.calculateTrend data = 0) := by
  constructor
  · intro h
    refine ⟨?_, trendDenominator_eq data, trendDenominator_pos data h⟩
    rw [trendDenominator_eq, sum_range_id, sum_range_sq]
    ring
  · intro h
    simp [AnalyticsSystem.calculateTrend, h]

/-- C25 at concrete inputs: a list of three counts and a list of one. -/
theorem C25_calculateTrend_divisor_positive_witness :
    0 < AnalyticsSystem.trendDenominator [5, 9, 7]
      ∧ AnalyticsSystem.calculateTrend [5] = 0 :=
  ⟨((C25_calculateTrend_divisor_positive [5, 9, 7]).1 (by decide)).2.2,
   (C25_calculateTrend_divisor_positive [5]).2 (by decide)⟩

theorem affineData_length (a b : ℚ) (n : Nat) : (affineData a b n).length = n := by
  simp only [affineData, List.length_map, List.length_range]

theorem abs_sum_range_le (T : ℕ → ℤ) (M : ℤ) (m : ℕ) (hT : ∀ i < m, |T i| ≤ M) :
    |(Finset.range m).sum T| ≤ (m : ℤ) * M := by
  calc |(Finset.range m).sum T| ≤ (Finset.range m).sum (fun i => |T i|) :=
        Finset.abs_sum_le_sum_abs _ _
    _ ≤ (Finset.range m).card • M :=
        Finset.sum_le_card_nsmul _ _ _ (fun i hi => hT i (Finset.mem_range.1 hi))
    _ = (m : ℤ) * M := by simp

theorem reduce_rounded_sum (t : ℕ → ℚ → ℚ) (d : ℕ → ℚ) (T : ℕ → ℤ) (M : ℤ) (n : ℕ)
    (ht : ∀ i < n, t i (d i) = (T i : ℚ)) (hT : ∀ i < n, |T i| ≤ M)
    (hM : (n : ℤ) * M ≤ 2 ^ 53) (m : ℕ) (hm : m ≤ n) :
    reduce (fun sum val index => roundDouble (sum + t index val)) 0 ((List.range m).map d)
      = (((Finset.range m).sum T : ℤ) : ℚ) := by
  induction m with
  | zero => simp [reduce, reduceFrom]
  | succ k ih =>
    have ih := ih (by omega)
    simp only [reduce] at ih ⊢
    rw [List.range_succ, List.map_append, List.map_singleton, reduceFrom_append, ih,
      List.length_map, List.length_range, zero_add, ht k (by omega), Finset.sum_range_succ,
      ← Int.cast_add]
    apply roundDouble_intCast
    rw [← Finset.sum_range_succ]
    have hM0 : 0 ≤ M := le_trans (abs_nonneg _) (hT k (by omega))
    calc |(Finset.range (k + 1)).sum T| ≤ ((k + 1 : ℕ) : ℤ) * M :=
          abs_sum_range_le T M (k + 1) (fun i hi => hT i (by omega))
      _ ≤ (n : ℤ) * M := by
          apply mul_le_mul_of_nonneg_right _ hM0
          exact_mod_cast hm
      _ ≤ 2 ^ 53 := hM

theorem sum_affine (a b : ℤ) (m : ℕ) :
    (Finset.range m).sum (fun i => a * (i : ℤ) + b)
      = a * (Finset.range m).sum (fun i => (i : ℤ)) + (m : ℤ) * b := by
  induction m with
  | zero => simp
  | succ k ih =>
    rw [Finset.sum_range_succ, Finset.sum_range_succ, ih]
    push_cast
    ring

theorem sum_index_affine (a b : ℤ) (m : ℕ) :
    (Finset.range m).sum (fun i => (i : ℤ) * (a * (i : ℤ) + b))
      = a * (Finset.range m).sum (fun i => (i : ℤ) * (i : ℤ))
        + b * (Finset.range m).sum (fun i => (i : ℤ)) := by
  induction m with
  | zero => simp
  | succ k ih =>
    rw [Finset.sum_range_succ, Finset.sum_range_succ, Finset.sum_range_succ, ih]
    ring

theorem affine_term_bounds (a b : ℤ) (n : ℕ) :
    (∀ i < n, |a * (i : ℤ) + b| ≤ |a| * (n : ℤ) + |b|)
      ∧ (∀ i < n, |(i : ℤ) * (a * (i : ℤ) + b)| ≤ (n : ℤ) * (|a| * (n : ℤ) + |b|))
      ∧ (∀ i < n, |(i : ℤ) * (i : ℤ)| ≤ (n : ℤ) * (n : ℤ))
      ∧ (∀ i < n, |(i : ℤ)| ≤ (n : ℤ)) := by
  have hN0 : (0 : ℤ) ≤ (n : ℤ) := by omega
  have hi : ∀ i : ℕ, i < n → (0 : ℤ) ≤ (i : ℤ) ∧ (i : ℤ) ≤ (n : ℤ) := by
    intro i h
    constructor <;> omega
  have hTY : ∀ i < n, |a * (i : ℤ) + b| ≤ |a| * (n : ℤ) + |b| := by
    intro i h
    obtain ⟨h0, h1⟩ := hi i h
    calc |a * (i : ℤ) + b| ≤ |a * (i : ℤ)| + |b| := abs_add _ _
      _ = |a| * (i : ℤ) + |b| := by rw [abs_mul, abs_of_nonneg h0]
      _ ≤ |a| * (n : ℤ) + |b| := by
          have := mul_le_mul_of_nonneg_left h1 (abs_nonneg a)
          linarith
  refine ⟨hTY, ?_, ?_, ?_⟩
  · intro i h
    obtain ⟨h0, h1⟩ := hi i h
    rw [abs_mul, abs_of_nonneg h0]
    exact mul_le_mul h1 (hTY i h) (abs_nonneg _) hN0
  · intro i h
    obtain ⟨h0, h1⟩ := hi i h
    rw [abs_of_nonneg (mul_nonneg h0 h0)]
    exact mul_le_mul h1 h1 h0 hN0
  · intro i h
    obtain ⟨h0, h1⟩ := hi i h
    rw [abs_of_nonneg h0]
    exact h1

theorem safe_range_bounds (N W : ℤ) (hN : 2 ≤ N) (hW : 0 ≤ W)
    (hB : N ^ 3 * W + N ^ 4 ≤ 2 ^ 53) :
    N ^ 3 * W ≤ 2 ^ 53 ∧ N ^ 4 ≤ 2 ^ 53 ∧ N * W ≤ N ^ 3 * W ∧ N * (N * W) ≤ N ^ 3 * W
      ∧ N * (N * N) ≤ N ^ 4 ∧ N * N ≤ N ^ 4 ∧ W ≤ N ^ 3 * W := by
  have hN0 : (0 : ℤ) ≤ N := by omega
  have hN1 : (0 : ℤ) ≤ N - 1 := by omega
  have hsq : (0 : ℤ) ≤ N ^ 2 - 1 := by nlinarith
  have hcu : (0 : ℤ) ≤ N ^ 3 - 1 := by nlinarith [pow_le_pow_left₀ (by norm_num : (0 : ℤ) ≤ 2) hN 3]
  have hN3W0 : 0 ≤ N ^ 3 * W := by positivity
  have hN40 : 0 ≤ N ^ 4 := by positivity
  refine ⟨by linarith, by linarith, ?_, ?_, ?_, ?_, ?_⟩
  · have : 0 ≤ N * W * (N ^ 2 - 1) := mul_nonneg (mul_nonneg hN0 hW) hsq
    linarith
  · have : 0 ≤ N ^ 2 * W * (N - 1) := mul_nonneg (mul_nonneg (by positivity) hW) hN1
    linarith
  · have : 0 ≤ N ^ 3 * (N - 1) := mul_nonneg (by positivity) hN1
    linarith
  · have : 0 ≤ N ^ 2 * (N ^ 2 - 1) := mul_nonneg (by positivity) hsq
    linarith
  · have : 0 ≤ W * (N ^ 3 - 1) := mul_nonneg hW hcu
    linarith

theorem trend_reductions_affine (a b : ℤ) (n : ℕ) (hn : 2 ≤ n)
    (hB : (n : ℤ) ^ 3 * (|a| * (n : ℤ) + |b|) + (n : ℤ) ^ 4 ≤ 2 ^ 53) :
    reduce (fun sum val _ => roundDouble (sum + val)) 0 (affineData (a : ℚ) (b : ℚ) n)
        = (((Finset.range n).sum (fun i => a * (i : ℤ) + b) : ℤ) : ℚ)
      ∧ reduce (fun sum val index => roundDouble (sum + roundDouble ((index : ℚ) * val))) 0
          (affineData (a : ℚ) (b : ℚ) n)
        = (((Finset.range n).sum (fun i => (i : ℤ) * (a * (i : ℤ) + b)) : ℤ) : ℚ)
      ∧ reduce (fun sum _ index => roundDouble (sum + roundDouble ((index : ℚ) * (index : ℚ))))
          0 (affineData (a : ℚ) (b : ℚ) n)
        = (((Finset.range n).sum (fun i => (i : ℤ) * (i : ℤ)) : ℤ) : ℚ) := by
  have hN2 : (2 : ℤ) ≤ (n : ℤ) := by exact_mod_cast hn
  have hW0 : 0 ≤ |a| * (n : ℤ) + |b| := by positivity
  obtain ⟨h3W, h4, hNW, hNNW, hN3, hN2le, -⟩ := safe_range_bounds _ _ hN2 hW0 hB
  obtain ⟨hTY, hTXY, hT2, -⟩ := affine_term_bounds a b n
  refine ⟨?_, ?_, ?_⟩
  · have h := reduce_rounded_sum (fun _ v => v) (fun i => (a : ℚ) * (i : ℚ) + (b : ℚ))
      (fun i => a * (i : ℤ) + b) _ n (fun i _ => by push_cast; ring) hTY (le_trans hNW h3W) n le_rfl
    exact h
  · have h := reduce_rounded_sum (fun index v => roundDouble ((index : ℚ) * v))
      (fun i => (a : ℚ) * (i : ℚ) + (b : ℚ)) (fun i => (i : ℤ) * (a * (i : ℤ) + b)) _ n
      (fun i h => by
        have := roundDouble_intCast ((i : ℤ) * (a * (i : ℤ) + b))
          (le_trans (hTXY i h) (le_trans hNW h3W))
        push_cast at this ⊢
        exact this)
      hTXY (le_trans hNNW h3W) n le_rfl
    exact h
  · have h := reduce_rounded_sum (fun index _ => roundDouble ((index : ℚ) * (index : ℚ)))
      (fun i => (a : ℚ) * (i : ℚ) + (b : ℚ)) (fun i => (i : ℤ) * (i : ℤ)) _ n
      (fun i h => by
        have := roundDouble_intCast ((i : ℤ) * (i : ℤ)) (le_trans (hT2 i h) (le_trans hN2le h4))
        push_cast at this ⊢
        exact this)
      hT2 (le_trans hN3 h4) n le_rfl
    exact h

theorem sum_index_cast (n : ℕ) :
    (((Finset.range n).sum (fun i => (i : ℤ)) : ℤ) : ℚ) = (n : ℚ) * ((n : ℚ) - 1) / 2 := by
  rw [← sum_range_id]
  push_cast
  rfl

theorem sum_index_sq_cast (n : ℕ) :
    (((Finset.range n).sum (fun i => (i : ℤ) * (i : ℤ)) : ℤ) : ℚ)
      = ((n : ℚ) - 1) * (n : ℚ) * (2 * (n : ℚ) - 1) / 6 := by
  rw [← sum_range_sq]
  push_cast
  apply Finset.sum_congr rfl
  intro i _
  ring

theorem trend_sumX_rounded (n : ℕ) (hn : 2 ≤ n) (h4 : (n : ℤ) ^ 4 ≤ 2 ^ 53) :
    roundDouble (roundDouble ((n : ℚ) * roundDouble ((n : ℚ) - 1)) / 2)
      = (((Finset.range n).sum (fun i => (i : ℤ)) : ℤ) : ℚ) := by
  have hN2 : (2 : ℤ) ≤ (n : ℤ) := by exact_mod_cast hn
  have hN0 : (0 : ℤ) ≤ (n : ℤ) := by omega
  have hsq : (n : ℤ) * (n : ℤ) ≤ (n : ℤ) ^ 4 := by
    have : 0 ≤ (n : ℤ) ^ 2 * ((n : ℤ) ^ 2 - 1) := mul_nonneg (by positivity) (by nlinarith)
    linarith
  have hlin : (n : ℤ) ≤ (n : ℤ) * (n : ℤ) := by nlinarith
  have e1 : roundDouble ((n : ℚ) - 1) = (n : ℚ) - 1 := by
    have := roundDouble_intCast ((n : ℤ) - 1) (by
      rw [abs_of_nonneg (by omega)]
      linarith)
    push_cast at this
    exact this
  have e2 : roundDouble ((n : ℚ) * ((n : ℚ) - 1)) = (n : ℚ) * ((n : ℚ) - 1) := by
    have := roundDouble_intCast ((n : ℤ) * ((n : ℤ) - 1)) (by
      rw [abs_of_nonneg (mul_nonneg hN0 (by omega))]
      have : (n : ℤ) * ((n : ℤ) - 1) ≤ (n : ℤ) * (n : ℤ) :=
        mul_le_mul_of_nonneg_left (by omega) hN0
      linarith)
    push_cast at this
    exact this
  rw [e1, e2, ← sum_index_cast]
  apply roundDouble_intCast
  have hT1 := (affine_term_bounds 0 0 n).2.2.2
  exact le_trans (abs_sum_range_le _ _ n hT1) (le_trans hsq h4)

theorem trend_slope_rounded (a b : ℤ) (n : ℕ) (S1 S2 SY SXY : ℤ) (hn : 2 ≤ n)
    (hB : (n : ℤ) ^ 3 * (|a| * (n : ℤ) + |b|) + (n : ℤ) ^ 4 ≤ 2 ^ 53)
    (hS1n : 0 ≤ S1) (hS2n : 0 ≤ S2)
    (hS1 : |S1| ≤ (n : ℤ) * (n : ℤ)) (hS2 : |S2| ≤ (n : ℤ) * ((n : ℤ) * (n : ℤ)))
    (hSY : |SY| ≤ (n : ℤ) * (|a| * (n : ℤ) + |b|))
    (hSXY : |SXY| ≤ (n : ℤ) * ((n : ℤ) * (|a| * (n : ℤ) + |b|)))
    (hD : 0 < (n : ℤ) * S2 - S1 * S1)
    (eNum : (n : ℤ) * SXY - S1 * SY = a * ((n : ℤ) * S2 - S1 * S1)) :
    roundDouble (roundDouble (roundDouble ((n : ℚ) * (SXY : ℚ)) - roundDouble ((S1 : ℚ) * (SY : ℚ)))
        / roundDouble (roundDouble ((n : ℚ) * (S2 : ℚ)) - roundDouble ((S1 : ℚ) * (S1 : ℚ))))
      = (a : ℚ) := by
  have hN2 : (2 : ℤ) ≤ (n : ℤ) := by exact_mod_cast hn
  have hN0 : (0 : ℤ) ≤ (n : ℤ) := by omega
  have hA : 0 ≤ |a| := abs_nonneg a
  have hW0 : 0 ≤ |a| * (n : ℤ) + |b| := by positivity
  obtain ⟨h3W, h4, hNW, hNNW, hN3, hN2le, hWle⟩ := safe_range_bounds _ _ hN2 hW0 hB
  have hNS2 : (n : ℤ) * S2 ≤ (n : ℤ) ^ 4 := by
    have := mul_le_mul_of_nonneg_left (le_of_abs_le hS2) hN0
    calc (n : ℤ) * S2 ≤ (n : ℤ) * ((n : ℤ) * ((n : ℤ) * (n : ℤ))) := this
      _ = (n : ℤ) ^ 4 := by ring
  have hS1S1 : S1 * S1 ≤ (n : ℤ) ^ 4 := by
    have := mul_le_mul (le_of_abs_le hS1) (le_of_abs_le hS1) hS1n (mul_nonneg hN0 hN0)
    calc S1 * S1 ≤ (n : ℤ) * (n : ℤ) * ((n : ℤ) * (n : ℤ)) := this
      _ = (n : ℤ) ^ 4 := by ring
  have hDle : (n : ℤ) * S2 - S1 * S1 ≤ (n : ℤ) ^ 4 := by
    have : 0 ≤ S1 * S1 := mul_nonneg hS1n hS1n
    linarith
  have ha53 : |a| ≤ 2 ^ 53 := by
    have h1 : |a| ≤ |a| * (n : ℤ) + |b| := by
      have := mul_le_mul_of_nonneg_left (show (1 : ℤ) ≤ (n : ℤ) by omega) hA
      have := abs_nonneg b
      linarith
    linarith
  have q1 : roundDouble ((n : ℚ) * (SXY : ℚ)) = (n : ℚ) * (SXY : ℚ) := by
    have := roundDouble_intCast ((n : ℤ) * SXY) (by
      rw [abs_mul, abs_of_nonneg hN0]
      calc (n : ℤ) * |SXY| ≤ (n : ℤ) * ((n : ℤ) * ((n : ℤ) * (|a| * (n : ℤ) + |b|))) :=
            mul_le_mul_of_nonneg_left hSXY hN0
        _ = (n : ℤ) ^ 3 * (|a| * (n : ℤ) + |b|) := by ring
        _ ≤ 2 ^ 53 := h3W)
    push_cast at this
    exact this
  have q2 : roundDouble ((S1 : ℚ) * (SY : ℚ)) = (S1 : ℚ) * (SY : ℚ) := by
    have := roundDouble_intCast (S1 * SY) (by
      rw [abs_mul]
      calc |S1| * |SY| ≤ (n : ℤ) * (n : ℤ) * ((n : ℤ) * (|a| * (n : ℤ) + |b|)) :=
            mul_le_mul hS1 hSY (abs_nonneg _) (mul_nonneg hN0 hN0)
        _ = (n : ℤ) ^ 3 * (|a| * (n : ℤ) + |b|) := by ring
        _ ≤ 2 ^ 53 := h3W)
    push_cast at this
    exact this
  have q3 : roundDouble ((n : ℚ) * (SXY : ℚ) - (S1 : ℚ) * (SY : ℚ))
      = (n : ℚ) * (SXY : ℚ) - (S1 : ℚ) * (SY : ℚ) := by
    have := roundDouble_intCast ((n : ℤ) * SXY - S1 * SY) (by
      rw [eNum, abs_mul, abs_of_pos hD]
      calc |a| * ((n : ℤ) * S2 - S1 * S1) ≤ |a| * (n : ℤ) ^ 4 :=
            mul_le_mul_of_nonneg_left hDle hA
        _ ≤ (n : ℤ) ^ 3 * (|a| * (n : ℤ) + |b|) := by
            have : 0 ≤ (n : ℤ) ^ 3 * |b| := by positivity
            linarith
        _ ≤ 2 ^ 53 := h3W)
    push_cast at this
    exact this
  have q4 : roundDouble ((n : ℚ) * (S2 : ℚ)) = (n : ℚ) * (S2 : ℚ) := by
    have := roundDouble_intCast ((n : ℤ) * S2) (by
      rw [abs_of_nonneg (mul_nonneg hN0 hS2n)]
      exact le_trans hNS2 h4)
    push_cast at this
    exact this
  have q5 : roundDouble ((S1 : ℚ) * (S1 : ℚ)) = (S1 : ℚ) * (S1 : ℚ) := by
    have := roundDouble_intCast (S1 * S1) (by
      rw [abs_of_nonneg (mul_nonneg hS1n hS1n)]
      exact le_trans hS1S1 h4)
    push_cast at this
    exact this
  have q6 : roundDouble ((n : ℚ) * (S2 : ℚ) - (S1 : ℚ) * (S1 : ℚ))
      = (n : ℚ) * (S2 : ℚ) - (S1 : ℚ) * (S1 : ℚ) := by
    have := roundDouble_intCast ((n : ℤ) * S2 - S1 * S1) (by
      rw [abs_of_pos hD]
      exact le_trans hDle h4)
    push_cast at this
    exact this
  have hDq : (n : ℚ) * (S2 : ℚ) - (S1 : ℚ) * (S1 : ℚ) ≠ 0 := by
    have : (((n : ℤ) * S2 - S1 * S1 : ℤ) : ℚ) ≠ 0 := by exact_mod_cast (ne_of_gt hD)
    push_cast at this
    exact this
  have eq : ((n : ℚ) * (SXY : ℚ) - (S1 : ℚ) * (SY : ℚ))
      / ((n : ℚ) * (S2 : ℚ) - (S1 : ℚ) * (S1 : ℚ)) = (a : ℚ) := by
    rw [div_eq_iff hDq]
    have : (((n : ℤ) * SXY - S1 * SY : ℤ) : ℚ) = ((a * ((n : ℤ) * S2 - S1 * S1) : ℤ) : ℚ) := by
      rw [eNum]
    push_cast at this
    exact this
  rw [q1, q2, q3, q4, q5, q6, eq]
  exact roundDouble_intCast a ha53

theorem trend_divisor_pos (n : ℕ) (hn : 2 ≤ n) :
    0 < (n : ℤ) * (Finset.range n).sum (fun i => (i : ℤ) * (i : ℤ))
      - (Finset.range n).sum (fun i => (i : ℤ)) * (Finset.range n).sum (fun i => (i : ℤ)) := by
  have hq : (0 : ℚ) < (((n : ℤ) * (Finset.range n).sum (fun i => (i : ℤ) * (i : ℤ))
      - (Finset.range n).sum (fun i => (i : ℤ)) * (Finset.range n).sum (fun i => (i : ℤ)) : ℤ)
        : ℚ) := by
    rw [Int.cast_sub, Int.cast_mul, Int.cast_mul, sum_index_cast, sum_index_sq_cast]
    have h2 : (2 : ℚ) ≤ (n : ℚ) := by exact_mod_cast hn
    have e : ((n : ℤ) : ℚ) * (((n : ℚ) - 1) * (n : ℚ) * (2 * (n : ℚ) - 1) / 6)
        - (n : ℚ) * ((n : ℚ) - 1) / 2 * ((n : ℚ) * ((n : ℚ) - 1) / 2)
        = (n : ℚ) ^ 2 * ((n : ℚ) ^ 2 - 1) / 12 := by
      push_cast
      ring
    rw [e]
    have h3 : (0 : ℚ) < (n : ℚ) ^ 2 := by positivity
    have h5 : (0 : ℚ) < (n : ℚ) ^ 2 - 1 := by nlinarith
    positivity
  exact_mod_cast hq

theorem calculateTrend_affine (a b : ℤ) (n : ℕ) (hn : 2 ≤ n)
    (hB : (n : ℤ) ^ 3 * ((|a| + 1) * (n : ℤ) + |b|) ≤ 2 ^ 53) :
    AnalyticsSystem.calculateTrend (affineData (a : ℚ) (b : ℚ) n) = (a : ℚ) := by
  have hB2 : (n : ℤ) ^ 3 * (|a| * (n : ℤ) + |b|) + (n : ℤ) ^ 4 ≤ 2 ^ 53 := by linarith [hB]
  have hN2 : (2 : ℤ) ≤ (n : ℤ) := by exact_mod_cast hn
  have hW0 : 0 ≤ |a| * (n : ℤ) + |b| := by positivity
  obtain ⟨h3W, h4, -⟩ := safe_range_bounds _ _ hN2 hW0 hB2
  obtain ⟨rY, rXY, rX2⟩ := trend_reductions_affine a b n hn hB2
  obtain ⟨hTY, hTXY, hT2, hT1⟩ := affine_term_bounds a b n
  have hnot : ¬ (affineData (a : ℚ) (b : ℚ) n).length < 2 := by
    rw [affineData_length]
    omega
  rw [AnalyticsSystem.calculateTrend, if_neg hnot]
  simp only [affineData_length]
  rw [rY, rXY, rX2, trend_sumX_rounded n hn h4]
  exact trend_slope_rounded a b n _ _ _ _ hn hB2
    (Finset.sum_nonneg (fun i _ => by positivity)) (Finset.sum_nonneg (fun i _ => by positivity))
    (abs_sum_range_le _ _ n hT1) (abs_sum_range_le _ _ n hT2) (abs_sum_range_le _ _ n hTY)
    (abs_sum_range_le _ _ n hTXY) (trend_divisor_pos n hn)
    (by rw [sum_affine, sum_index_affine]; ring)

/-- C26, as the claim states it, fails. On the data `10^15 + 7·i` for six
indices `calculateTrend` returns 1973005551038503 / 2^48, which is
7.0095238095238095 and not 7. On seven values all equal to the double nearest
to 1/10, that is with `a` zero, it returns a positive number, and
`generateTrendAnalysis` reports the direction increasing, not stable. -/
theorem C26_counterexample :
    AnalyticsSystem.calculateTrend (affineData 7 1000000000000000 6)
        = 1973005551038503 / 281474976710656
      ∧ AnalyticsSystem.calculateTrend (affineData 7 1000000000000000 6) ≠ 7
      ∧ (AnalyticsSystem.generateTrendAnalysis
            (analyticsWith [] (affineData 0 (3602879701896397 / 36028797018963968) 7))
            id).map TrendAnalysis.direction
          = some "increasing" := by
  decide!

/-- C26, amended: on the data `a·i + b`, `i` from 0 to `n − 1`, with `n` at
least 2 and `a`, `b` integers such that `n³·((|a| + 1)·n + |b|)` is at most
`2^53`, every intermediate result of `calculateTrend` is an integer that a
double holds exactly, and `calculateTrend` returns `a`. When that list is the
detection series, `generateTrendAnalysis` returns an analysis whose magnitude
is the absolute value of `a` and whose direction is increasing for positive
`a`, decreasing for negative `a` and stable for `a` zero. -/
theorem C26_calculateTrend_exact_on_safe_integers (a b : ℤ) (n : Nat) (hn : 2 ≤ n)
    (hB : (n : ℤ) ^ 3 * ((|a| + 1) * (n : ℤ) + |b|) ≤ 2 ^ 53)
    (s : AnalyticsSystem) (sqrt : ℚ → ℚ) (labels : List String)
    (hs : s.analyticsData.detection_frequency
      = some { labels := labels, data := affineData (a : ℚ) (b : ℚ) n }) :
    AnalyticsSystem.calculateTrend (affineData (a : ℚ) (b : ℚ) n) = (a : ℚ)
      ∧ ∃ t, AnalyticsSystem.generateTrendAnalysis s sqrt = some t
        ∧ t.magnitude = |(a : ℚ)|
        ∧ (0 < a → t.direction = "increasing")
        ∧ (a < 0 → t.direction = "decreasing")
        ∧ (a = 0 → t.direction = "stable") := by
  have ht := calculateTrend_affine a b n hn hB
  refine ⟨ht, _, by simp only [AnalyticsSystem.generateTrendAnalysis, hs, ht]; rfl, rfl,
    ?_, ?_, ?_⟩
  · intro h
    have hq : (0 : ℚ) < (a : ℚ) := by exact_mod_cast h
    simp [hq]
  · intro h
    have hq : (a : ℚ) < 0 := by exact_mod_cast h
    simp [hq, not_lt.2 (le_of_lt hq)]
  · intro h
    simp [h]

/-- C26 at a concrete input: the data 1, 3, 5, that is `2·i + 1` for three
indices. -/
theorem C26_calculateTrend_exact_on_safe_integers_witness :
    AnalyticsSystem.calculateTrend (affineData ((2 : ℤ) : ℚ) ((1 : ℤ) : ℚ) 3) = ((2 : ℤ) : ℚ) :=
  (C26_calculateTrend_exact_on_safe_integers 2 1 3 (by decide) (by norm_num)
    (analyticsWith ["00:00", "01:00", "02:00"] (affineData ((2 : ℤ) : ℚ) ((1 : ℤ) : ℚ) 3)) id
    ["00:00", "01:00", "02:00"] rfl).1

/-! ### Confidence of the trend -/

theorem mean_eq (l : List ℚ) : AnalyticsSystem.mean l = l.sum / (l.length : ℚ) := by
  have h := reduce_sum (fun v => v) l
  simp only [List.map_id'] at h
  rw [AnalyticsSystem.mean, h]

theorem variance_eq (l : List ℚ) :
    AnalyticsSystem.variance l
      = (l.map (fun v => (v - AnalyticsSystem.mean l) ^ 2)).sum / (l.length : ℚ) := by
  rw [AnalyticsSystem.variance, reduce_sum (fun v => (v - AnalyticsSystem.mean l) ^ 2) l]

theorem sum_sq_nonneg (m : ℚ) (l : List ℚ) : 0 ≤ (l.map (fun v => (v - m) ^ 2)).sum := by
  induction l with
  | nil => simp
  | cons x rest ih =>
    simp only [List.map_cons, List.sum_cons]
    have := sq_nonneg (x - m)
    linarith

theorem sum_sq_eq_zero_iff (m : ℚ) (l : List ℚ) :
    (l.map (fun v => (v - m) ^ 2)).sum = 0 ↔ ∀ v ∈ l, v = m := by
  induction l with
  | nil => simp
  | cons x rest ih =>
    simp only [List.map_cons, List.sum_cons, List.mem_cons, forall_eq_or_imp]
    have h1 := sq_nonneg (x - m)
    have h2 := sum_sq_nonneg m rest
    constructor
    · intro h
      have hx : (x - m) ^ 2 = 0 := by linarith
      have hr : (rest.map (fun v => (v - m) ^ 2)).sum = 0 := by linarith
      exact ⟨by nlinarith [pow_eq_zero_iff (two_ne_zero) |>.1 hx], ih.1 hr⟩
    · rintro ⟨hx, hr⟩
      rw [hx, ih.2 hr]
      simp

theorem sum_of_all_eq (c : ℚ) (l : List ℚ) (h : ∀ v ∈ l, v = c) :
    l.sum = (l.length : ℚ) * c := by
  induction l with
  | nil => simp
  | cons x rest ih =>
    simp only [List.mem_cons, forall_eq_or_imp] at h
    rw [List.sum_cons, ih h.2, List.length_cons, h.1]
    push_cast
    ring

theorem all_eq_mean_iff (l : List ℚ) (hne : l ≠ []) :
    (∀ v ∈ l, v = AnalyticsSystem.mean l) ↔ ∀ x ∈ l, ∀ y ∈ l, x = y := by
  constructor
  · intro h x hx y hy
    rw [h x hx, h y hy]
  · intro h
    obtain ⟨x0, rest, rfl⟩ := List.exists_cons_of_ne_nil hne
    have hall : ∀ v ∈ x0 :: rest, v = x0 := fun v hv => h v hv x0 (List.mem_cons_self _ _)
    have hlen : ((x0 :: rest).length : ℚ) ≠ 0 := by
      simp only [List.length_cons]
      push_cast
      positivity
    have hm : AnalyticsSystem.mean (x0 :: rest) = x0 := by
      rw [mean_eq, sum_of_all_eq x0 _ hall]
      field_simp
    intro v hv
    rw [hm]
    exact hall v hv

theorem confidence_eq_hundred_iff (sqrt : ℚ → ℚ)
    (hsqrt : ∀ x, 0 ≤ x → 0 ≤ sqrt x ∧ (sqrt x = 0 ↔ x = 0)) (l : List ℚ) (hne : l ≠ [])
    (hpos : 0 < AnalyticsSystem.mean l) :
    AnalyticsSystem.calculateTrendConfidence sqrt l = 100 ↔ ∀ x ∈ l, ∀ y ∈ l, x = y := by
  have hlen : (0 : ℚ) < (l.length : ℚ) := by
    have : 0 < l.length := List.length_pos.2 hne
    exact_mod_cast this
  have hvar : 0 ≤ AnalyticsSystem.variance l := by
    rw [variance_eq]
    exact div_nonneg (sum_sq_nonneg _ l) (le_of_lt hlen)
  obtain ⟨hsd, hsd0⟩ := hsqrt _ hvar
  have hvar0 : AnalyticsSystem.variance l = 0 ↔ ∀ v ∈ l, v = AnalyticsSystem.mean l := by
    rw [variance_eq, div_eq_zero_iff, sum_sq_eq_zero_iff]
    constructor
    · rintro (h | h)
      · exact h
      · exact absurd h (ne_of_gt hlen)
    · exact fun h => Or.inl h
  rw [← all_eq_mean_iff l hne, ← hvar0, ← hsd0]
  have hq : 0 ≤ AnalyticsSystem.stdDev sqrt l / AnalyticsSystem.mean l * 100 :=
    mul_nonneg (div_nonneg hsd (le_of_lt hpos)) (by norm_num)
  unfold AnalyticsSystem.calculateTrendConfidence
  constructor
  · intro h
    by_contra hne0
    have hsdpos : 0 < AnalyticsSystem.stdDev sqrt l := lt_of_le_of_ne hsd (Ne.symm hne0)
    have hq2 : 0 < AnalyticsSystem.stdDev sqrt l / AnalyticsSystem.mean l * 100 :=
      mul_pos (div_pos hsdpos hpos) (by norm_num)
    have h1 : min 100 (100 - AnalyticsSystem.stdDev sqrt l / AnalyticsSystem.mean l * 100)
        < 100 := lt_of_le_of_lt (min_le_right _ _) (by linarith)
    have h2 : max 0 (min 100 (100 - AnalyticsSystem.stdDev sqrt l / AnalyticsSystem.mean l * 100))
        < 100 := max_lt (by norm_num) h1
    linarith
  · intro h
    have h0 : AnalyticsSystem.stdDev sqrt l = 0 := h
    rw [h0]
    norm_num

/-- C23: with a square root function that is non-negative and vanishes only
at zero, take two non-empty data lists with the same positive mean. If the
standard deviation of the first is at most that of the second, the
confidence of the first is at least that of the second; the confidence lies
between 0 and 100; and it is 100 exactly when all values of the list are
equal. -/
theorem C23_confidence_antitone_in_deviation (sqrt : ℚ → ℚ)
    (hsqrt : ∀ x, 0 ≤ x → 0 ≤ sqrt x ∧ (sqrt x = 0 ↔ x = 0)) (d1 d2 : List ℚ)
    (hne1 : d1 ≠ []) (hne2 : d2 ≠ [])
    (hmean : AnalyticsSystem.mean d1 = AnalyticsSystem.mean d2)
    (hpos : 0 < AnalyticsSystem.mean d1) :
    (AnalyticsSystem.stdDev sqrt d1 ≤ AnalyticsSystem.stdDev sqrt d2 →
        AnalyticsSystem.calculateTrendConfidence sqrt d2
          ≤ AnalyticsSystem.calculateTrendConfidence sqrt d1)
      ∧ 0 ≤ AnalyticsSystem.calculateTrendConfidence sqrt d1
      ∧ AnalyticsSystem.calculateTrendConfidence sqrt d1 ≤ 100
      ∧ (AnalyticsSystem.calculateTrendConfidence sqrt d1 = 100 ↔ ∀ x ∈ d1, ∀ y ∈ d1, x = y)
      ∧ (AnalyticsSystem.calculateTrendConfidence sqrt d2 = 100
          ↔ ∀ x ∈ d2, ∀ y ∈ d2, x = y) := by
  refine ⟨?_, le_max_left _ _, max_le (by norm_num) (min_le_left _ _),
    confidence_eq_hundred_iff sqrt hsqrt d1 hne1 hpos,
    confidence_eq_hundred_iff sqrt hsqrt d2 hne2 (hmean ▸ hpos)⟩
  intro hsd
  unfold AnalyticsSystem.calculateTrendConfidence
  rw [← hmean]
  have hdiv : AnalyticsSystem.stdDev sqrt d1 / AnalyticsSystem.mean d1
      ≤ AnalyticsSystem.stdDev sqrt d2 / AnalyticsSystem.mean d1 :=
    div_le_div_of_nonneg_right hsd (le_of_lt hpos)
  exact max_le_max (le_refl _) (min_le_min (le_refl _) (by linarith))

/-- C23 at a concrete input: the lists 2, 2, 2 and 1, 2, 3, both of mean 2,
with the identity in the place of the square root. -/
theorem C23_confidence_antitone_in_deviation_witness :
    AnalyticsSystem.calculateTrendConfidence id [2, 2, 2] = 100
      ↔ ∀ x ∈ [(2 : ℚ), 2, 2], ∀ y ∈ [(2 : ℚ), 2, 2], x = y :=
  (C23_confidence_antitone_in_deviation id
    (fun x hx => ⟨hx, Iff.rfl⟩) [2, 2, 2] [1, 2, 3] (by simp) (by simp)
    (by norm_num [AnalyticsSystem.mean, reduce, reduceFrom])
    (by norm_num [AnalyticsSystem.mean, reduce, reduceFrom])).2.2.2.1

/-! ### Anomaly report -/

theorem anomaliesFrom_eq (labels : List String) (th : ℚ) (i : Nat) (l : List ℚ) :
    AnalyticsSystem.anomaliesFrom labels th i l
      = ((l.enumFrom i).filter (fun p => decide (p.2 > th))).map
          (fun p => { type := "detection_spike"
                      time := labels.get? p.1
                      value := p.2
                      severity := if p.2 > th * (3 / 2) then "high" else "medium" }) := by
  induction l generalizing i with
  | nil => rfl
  | cons v rest ih =>
    by_cases h : v > th
    · simp [AnalyticsSystem.anomaliesFrom, List.enumFrom, h, ih]
    · simp [AnalyticsSystem.anomaliesFrom, List.enumFrom, h, ih]

theorem anomaliesFrom_length (labels : List String) (th : ℚ) (i : Nat) (l : List ℚ) :
    (AnalyticsSystem.anomaliesFrom labels th i l).length
      = (l.filter (fun v => decide (v > th))).length := by
  induction l generalizing i with
  | nil => rfl
  | cons v rest ih =>
    by_cases h : v > th
    · simp [AnalyticsSystem.anomaliesFrom, h, ih]
    · simp [AnalyticsSystem.anomaliesFrom, h, ih]

theorem spikes_below_sum (th : ℚ) (l : List ℚ) (hnn : ∀ v ∈ l, 0 ≤ v) :
    ((l.filter (fun v => decide (v > th))).length : ℚ) * th ≤ l.sum
      ∧ (0 < (l.filter (fun v => decide (v > th))).length →
          ((l.filter (fun v => decide (v > th))).length : ℚ) * th < l.sum) := by
  induction l with
  | nil => simp
  | cons x rest ih =>
    simp only [List.mem_cons, forall_eq_or_imp] at hnn
    obtain ⟨h1, h2⟩ := ih hnn.2
    by_cases hx : x > th
    · have hf : (x :: rest).filter (fun v => decide (v > th))
          = x :: rest.filter (fun v => decide (v > th)) := by simp [hx]
      rw [hf, List.length_cons, List.sum_cons]
      push_cast
      constructor
      · linarith
      · intro _
        linarith
    · have hf : (x :: rest).filter (fun v => decide (v > th))
          = rest.filter (fun v => decide (v > th)) := by simp [hx]
      rw [hf, List.sum_cons]
      constructor
      · linarith [hnn.1]
      · intro hk
        linarith [hnn.1, h2 hk]

theorem spikes_fewer_than_half (l : List ℚ) (hne : l ≠ []) (hnn : ∀ v ∈ l, 0 ≤ v) :
    2 * (l.filter (fun v => decide (v > AnalyticsSystem.mean l * 2))).length < l.length := by
  have hlenN : 0 < l.length := List.length_pos.2 hne
  have hlen : (0 : ℚ) < (l.length : ℚ) := by exact_mod_cast hlenN
  have hsum : 0 ≤ l.sum := List.sum_nonneg hnn
  obtain ⟨_, hstrict⟩ := spikes_below_sum (AnalyticsSystem.mean l * 2) l hnn
  by_contra hcon
  have hk : l.length ≤ 2 * (l.filter (fun v => decide (v > AnalyticsSystem.mean l * 2))).length :=
    Nat.le_of_not_lt hcon
  have hkpos : 0 < (l.filter (fun v => decide (v > AnalyticsSystem.mean l * 2))).length := by
    omega
  have hlt := hstrict hkpos
  have hkq : (l.length : ℚ)
      ≤ 2 * ((l.filter (fun v => decide (v > AnalyticsSystem.mean l * 2))).length : ℚ) := by
    exact_mod_cast hk
  rw [mean_eq] at hlt
  have hge : l.sum
      ≤ ((l.filter (fun v => decide (v > l.sum / (l.length : ℚ) * 2))).length : ℚ)
          * (l.sum / (l.length : ℚ) * 2) := by
    rw [mean_eq] at hkq
    have hq : 0 ≤ l.sum / (l.length : ℚ) := div_nonneg hsum (le_of_lt hlen)
    have h1 : l.sum = (l.length : ℚ) * (l.sum / (l.length : ℚ)) := by
      field_simp
    nlinarith
  linarith

/-- C27: for every non-empty detection series of non-negative counts,
`generateAnomalyReport` returns one anomaly for each entry whose value is
strictly greater than twice the mean, in data order, carrying that value and
the label at the index of the entry; and twice the number of anomalies is
strictly less than the number of entries. -/
theorem C27_anomalies_are_spikes_below_half (s : AnalyticsSystem) (f : Series)
    (hs : s.analyticsData.detection_frequency = some f) (hne : f.data ≠ [])
    (hnn : ∀ v ∈ f.data, 0 ≤ v) :
    AnalyticsSystem.generateAnomalyReport s
        = (f.data.enum.filter (fun p => decide (p.2 > AnalyticsSystem.mean f.data * 2))).map
            (fun p => { type := "detection_spike"
                        time := f.labels.get? p.1
                        value := p.2
                        severity :=
                          if p.2 > AnalyticsSystem.mean f.data * 2 * (3 / 2) then "high"
                          else "medium" })
      ∧ (AnalyticsSystem.generateAnomalyReport s).map Anomaly.value
        = f.data.filter (fun v => decide (v > AnalyticsSystem.mean f.data * 2))
      ∧ 2 * (AnalyticsSystem.generateAnomalyReport s).length < f.data.length := by
  have hrep : AnalyticsSystem.generateAnomalyReport s
      = AnalyticsSystem.anomaliesFrom f.labels (AnalyticsSystem.mean f.data * 2) 0 f.data := by
    simp [AnalyticsSystem.generateAnomalyReport, hs]
  refine ⟨?_, ?_, ?_⟩
  · rw [hrep, anomaliesFrom_eq]
    rfl
  · rw [hrep]
    generalize AnalyticsSystem.mean f.data * 2 = th
    generalize (0 : Nat) = i
    induction f.data generalizing i with
    | nil => rfl
    | cons v rest ih =>
      by_cases h : v > th
      · simp [AnalyticsSystem.anomaliesFrom, h, ih]
      · simp [AnalyticsSystem.anomaliesFrom, h, ih]
  · rw [hrep, anomaliesFrom_length]
    exact spikes_fewer_than_half f.data hne hnn

/-- C27 at a concrete input: five counts with one spike. -/
theorem C27_anomalies_are_spikes_below_half_witness :
    2 * (AnalyticsSystem.generateAnomalyReport
          (analyticsWith ["00:00", "01:00", "02:00", "03:00", "04:00"] [1, 1, 100, 1, 1])).length
      < ([1, 1, 100, 1, 1] : List ℚ).length :=
  (C27_anomalies_are_spikes_below_half
    (analyticsWith ["00:00", "01:00", "02:00", "03:00", "04:00"] [1, 1, 100, 1, 1])
    { labels := ["00:00", "01:00", "02:00", "03:00", "04:00"], data := [1, 1, 100, 1, 1] }
    rfl (by simp) (by intro v hv; simp at hv; rcases hv with rfl | rfl | rfl <;> norm_num)).2.2

/-! ### Drone statistics -/

theorem countDrone_fields (st : DroneStatistics) (d : Drone) :
    (DroneController.countDrone st d).total = st.total
      ∧ (DroneController.countDrone st d).active
        = st.active + (if DroneController.isActive d then 1 else 0)
      ∧ (DroneController.countDrone st d).standby
        = st.standby + (if d.status = "standby" then 1 else 0)
      ∧ (DroneController.countDrone st d).maintenance
        = st.maintenance + (if d.status = "maintenance" then 1 else 0)
      ∧ (DroneController.countDrone st d).offline
        = st.offline + (if d.status = "offline" then 1 else 0) := by
  unfold DroneController.countDrone DroneController.isActive
  by_cases h1 : d.status = "deployed"
  · simp [h1]
  by_cases h2 : d.status = "patrolling"
  · simp [h2]
  by_cases h3 : d.status = "scanning"
  · simp [h3]
  by_cases h4 : d.status = "standby"
  · simp [h4]
  by_cases h5 : d.status = "maintenance"
  · simp [h5]
  by_cases h6 : d.status = "offline"
  · simp [h6]
  simp [h1, h2, h3, h4, h5, h6]

theorem foldl_countDrone (l : List Drone) (st : DroneStatistics) :
    (l.foldl DroneController.countDrone st).total = st.total
      ∧ (l.foldl DroneController.countDrone st).active
        = st.active + (l.filter DroneController.isActive).length
      ∧ (l.foldl DroneController.countDrone st).standby
        = st.standby + (l.filter (fun d => decide (d.status = "standby"))).length
      ∧ (l.foldl DroneController.countDrone st).maintenance
        = st.maintenance + (l.filter (fun d => decide (d.status = "maintenance"))).length
      ∧ (l.foldl DroneController.countDrone st).offline
        = st.offline + (l.filter (fun d => decide (d.status = "offline"))).length := by
  induction l generalizing st with
  | nil => simp
  | cons d rest ih =>
    obtain ⟨h0, h1, h2, h3, h4⟩ := countDrone_fields st d
    obtain ⟨i0, i1, i2, i3, i4⟩ := ih (DroneController.countDrone st d)
    simp only [List.foldl_cons, List.filter_cons]
    refine ⟨by rw [i0, h0], ?_, ?_, ?_, ?_⟩
    · rw [i1, h1]
      by_cases h : DroneController.isActive d = true
      · simp [h]
        omega
      · simp [h]
    · rw [i2, h2]
      by_cases h : d.status = "standby"
      · simp [h]
        omega
      · simp [h]
    · rw [i3, h3]
      by_cases h : d.status = "maintenance"
      · simp [h]
        omega
      · simp [h]
    · rw [i4, h4]
      by_cases h : d.status = "offline"
      · simp [h]
        omega
      · simp [h]

theorem status_partition (l : List Drone) :
    (l.filter DroneController.isActive).length
        + (l.filter (fun d => decide (d.status = "standby"))).length
        + (l.filter (fun d => decide (d.status = "maintenance"))).length
        + (l.filter (fun d => decide (d.status = "offline"))).length
        + (l.filter (fun d =>
            !(["deployed", "patrolling", "scanning", "standby", "maintenance",
               "offline"].contains d.status))).length
      = l.length := by
  induction l with
  | nil => rfl
  | cons d rest ih =>
    simp only [List.filter_cons, List.length_cons]
    generalize rest.filter DroneController.isActive = la at ih ⊢
    generalize rest.filter (fun d => decide (d.status = "standby")) = lb at ih ⊢
    generalize rest.filter (fun d => decide (d.status = "maintenance")) = lc at ih ⊢
    generalize rest.filter (fun d => decide (d.status = "offline")) = ld at ih ⊢
    generalize rest.filter (fun d =>
      !(["deployed", "patrolling", "scanning", "standby", "maintenance",
         "offline"].contains d.status)) = le at ih ⊢
    unfold DroneController.isActive
    by_cases h1 : d.status = "deployed"
    · simp [h1]
      omega
    by_cases h2 : d.status = "patrolling"
    · simp [h2]
      omega
    by_cases h3 : d.status = "scanning"
    · simp [h3]
      omega
    by_cases h4 : d.status = "standby"
    · simp [h4]
      omega
    by_cases h5 : d.status = "maintenance"
    · simp [h5]
      omega
    by_cases h6 : d.status = "offline"
    · simp [h6]
      omega
    simp [h1, h2, h3, h4, h5, h6]
    omega

theorem foldl_battery (l : List Drone) (a : ℚ) :
    l.foldl (fun total d => total + (d.battery_level : ℚ)) a
      = a + (l.map (fun d => (d.battery_level : ℚ))).sum := by
  induction l generalizing a with
  | nil => simp
  | cons d rest ih =>
    simp only [List.foldl_cons, ih, List.map_cons, List.sum_cons]
    ring

/-- C28: for every cache, the `total` of `getDroneStatistics` is the number
of cached drones; `active`, `standby`, `maintenance` and `offline` are the
numbers of cached drones of those statuses, and together with the number of
cached drones of any other status (such as returning) they add up to `total`;
`active` is the number of drones `emergencyRecallAll` would recall from the
same cache; and `averageBattery` is the sum of the battery levels divided by
`total`, and 0 for an empty cache. -/
theorem C28_statistics_partition_cache (c : DroneController) :
    (DroneController.getDroneStatistics c).total = (mapValues c.drones).length
      ∧ (DroneController.getDroneStatistics c).standby
        = ((mapValues c.drones).filter (fun d => decide (d.status = "standby"))).length
      ∧ (DroneController.getDroneStatistics c).maintenance
        = ((mapValues c.drones).filter (fun d => decide (d.status = "maintenance"))).length
      ∧ (DroneController.getDroneStatistics c).offline
        = ((mapValues c.drones).filter (fun d => decide (d.status = "offline"))).length
      ∧ (DroneController.getDroneStatistics c).active
          + (DroneController.getDroneStatistics c).standby
          + (DroneController.getDroneStatistics c).maintenance
          + (DroneController.getDroneStatistics c).offline
          + ((mapValues c.drones).filter (fun d =>
              !(["deployed", "patrolling", "scanning", "standby", "maintenance",
                 "offline"].contains d.status))).length
        = (DroneController.getDroneStatistics c).total
      ∧ (DroneController.getDroneStatistics c).active
        = (DroneController.activeDrones c).length
      ∧ (DroneController.getDroneStatistics c).averageBattery
        = if c.drones = [] then 0
          else ((mapValues c.drones).map (fun d => (d.battery_level : ℚ))).sum
            / ((DroneController.getDroneStatistics c).total : ℚ) := by
  obtain ⟨f0, f1, f2, f3, f4⟩ := foldl_countDrone (mapValues c.drones)
    { total := c.drones.length, active := 0, standby := 0, maintenance := 0, offline := 0,
      averageBattery := 0 }
  have hlen : (mapValues c.drones).length = c.drones.length := by simp [mapValues]
  have hpart := status_partition (mapValues c.drones)
  simp only [DroneController.getDroneStatistics, DroneController.activeDrones]
  simp only [Nat.zero_add] at f1 f2 f3 f4
  refine ⟨by rw [f0, hlen], f2, f3, f4, ?_, f1, ?_⟩
  · rw [f0, f1, f2, f3, f4, ← hlen]
    exact hpart
  · by_cases he : c.drones = []
    · simp [he]
    · have hpos : c.drones.length > 0 := List.length_pos.2 he
      rw [if_pos hpos, if_neg he, f0, DroneController.totalBattery, foldl_battery, zero_add]

/-! ### The two low-battery indicators -/

theorem classListAdd_ok (cls : List String) (token : String)
    (hws : token.toList.any DroneController.isAsciiWhitespace = false) :
    DroneController.classListAdd cls token
      = .ok (if cls.contains token then cls else cls ++ [token]) := by
  unfold DroneController.classListAdd
  rw [hws]
  cases cls.contains token <;> rfl

theorem not_mem_classListRemove (cls tokens : List String) (token : String)
    (h : token ∈ tokens) : token ∉ DroneController.classListRemove cls tokens := by
  simp [DroneController.classListRemove, List.mem_filter, h]

theorem droneStatuses_tokens :
    ∀ status ∈ droneStatuses,
      ("status-" ++ status).toList.any DroneController.isAsciiWhitespace = false
        ∧ "status-" ++ status ≠ "status-low-battery" := by
  decide

theorem lowBattery_class_iff (icon : List String) (status : String) (b : Int)
    (hws : ("status-" ++ status).toList.any DroneController.isAsciiWhitespace = false)
    (hne : "status-" ++ status ≠ "status-low-battery") :
    "status-low-battery" ∈ (DroneController.updateDroneIconStatus icon status b).1 ↔ b < 20 := by
  have hrem : "status-low-battery" ∉ DroneController.classListRemove icon
      ["status-deployed", "status-patrolling", "status-scanning", "status-standby",
       "status-low-battery"] :=
    not_mem_classListRemove _ _ _ (by simp)
  have hlow : ("status-low-battery" : String).toList.any DroneController.isAsciiWhitespace
      = false := by decide
  simp only [DroneController.updateDroneIconStatus, classListAdd_ok _ _ hws,
    classListAdd_ok _ _ hlow]
  generalize DroneController.classListRemove icon
    ["status-deployed", "status-patrolling", "status-scanning", "status-standby",
     "status-low-battery"] = removed at hrem ⊢
  have hadded : "status-low-battery"
      ∉ (if removed.contains ("status-" ++ status) then removed
         else removed ++ ["status-" ++ status]) := by
    split_ifs
    · exact hrem
    · simp [hrem, hne.symm]
  generalize (if removed.contains ("status-" ++ status) then removed
    else removed ++ ["status-" ++ status]) = added at hadded ⊢
  by_cases hb : b < 20
  · simp [hb, hadded]
  · simp [hb, hadded]

theorem batteryBar_classList (bar : ProgressBar) (b : Int) :
    (DroneController.updateBatteryBar bar b).classList
      = DroneController.classListRemove bar.classList ["bg-success", "bg-warning", "bg-danger"]
        ++ [DroneController.batteryClass b] := by
  have h1 : ("bg-success" : String).toList.any DroneController.isAsciiWhitespace = false := by
    decide
  have h2 : ("bg-warning" : String).toList.any DroneController.isAsciiWhitespace = false := by
    decide
  have h3 : ("bg-danger" : String).toList.any DroneController.isAsciiWhitespace = false := by
    decide
  have hws : (DroneController.batteryClass b).toList.any DroneController.isAsciiWhitespace
      = false := by
    unfold DroneController.batteryClass
    split_ifs
    · exact h1
    · exact h2
    · exact h3
  have hmem : DroneController.batteryClass b ∈ ["bg-success", "bg-warning", "bg-danger"] := by
    unfold DroneController.batteryClass
    split_ifs <;> simp
  have hnot := not_mem_classListRemove bar.classList _ _ hmem
  simp [DroneController.updateBatteryBar, classListAdd_ok _ _ hws, hnot]

/-- C29, as the claim states it, fails: at battery level 20 the battery bar
is coloured `bg-danger` while the map icon gets no `status-low-battery`
class. -/
theorem C29_counterexample :
    "bg-danger" ∈ (DroneController.updateBatteryBar
        { width := "80%", textContent := "80%", classList := ["progress-bar", "bg-success"] }
        20).classList
      ∧ "status-low-battery"
        ∉ (DroneController.updateDroneIconStatus ["drone-icon"] "standby" 20).1 := by
  decide

/-- C29, amended: for every drone status and every battery level other than
20, `updateDroneIconStatus` leaves the class `status-low-battery` on the map
icon exactly when `updateSelectedDroneInfo` colours the battery bar
`bg-danger`; the icon has the class exactly below 20 and the bar is
`bg-danger` exactly up to 20. For every battery level the bar ends with
exactly one of the classes `bg-success`, `bg-warning` and `bg-danger`. -/
theorem C29_indicators_agree_except_at_twenty (icon : List String) (bar : ProgressBar)
    (status : String) (b : Int) (hst : status ∈ droneStatuses) :
    ("status-low-battery" ∈ (DroneController.updateDroneIconStatus icon status b).1 ↔ b < 20)
      ∧ ("bg-danger" ∈ (DroneController.updateBatteryBar bar b).classList ↔ b ≤ 20)
      ∧ (b ≠ 20 →
          ("status-low-battery" ∈ (DroneController.updateDroneIconStatus icon status b).1
            ↔ "bg-danger" ∈ (DroneController.updateBatteryBar bar b).classList))
      ∧ ((DroneController.updateBatteryBar bar b).classList.filter
            (fun cl => ["bg-success", "bg-warning", "bg-danger"].contains cl)).length = 1 := by
  obtain ⟨hws, hne⟩ := droneStatuses_tokens status hst
  have hicon := lowBattery_class_iff icon status b hws hne
  have hnot : "bg-danger" ∉ DroneController.classListRemove bar.classList
      ["bg-success", "bg-warning", "bg-danger"] :=
    not_mem_classListRemove _ _ _ (by simp)
  have hbar : "bg-danger" ∈ (DroneController.updateBatteryBar bar b).classList ↔ b ≤ 20 := by
    rw [batteryBar_classList]
    simp only [List.mem_append, hnot, false_or, List.mem_singleton]
    unfold DroneController.batteryClass
    by_cases h50 : b > 50
    · simp [h50]
      omega
    · by_cases h20 : b > 20
      · simp [h50, h20]
      · simp [h50, h20]
        omega
  refine ⟨hicon, hbar, ?_, ?_⟩
  · intro hb
    rw [hicon, hbar]
    omega
  · rw [batteryBar_classList, List.filter_append]
    have hnone : (DroneController.classListRemove bar.classList
        ["bg-success", "bg-warning", "bg-danger"]).filter
          (fun cl => ["bg-success", "bg-warning", "bg-danger"].contains cl) = [] := by
      rw [List.filter_eq_nil_iff]
      intro cl hcl
      simp only [DroneController.classListRemove, List.mem_filter] at hcl
      simpa using hcl.2
    rw [hnone]
    unfold DroneController.batteryClass
    split_ifs <;> simp

/-- C29 at a concrete input: a standby drone at battery level 15. -/
theorem C29_indicators_agree_except_at_twenty_witness :
    "status-low-battery" ∈ (DroneController.updateDroneIconStatus ["drone-icon"] "standby" 15).1
      ↔ "bg-danger" ∈ (DroneController.updateBatteryBar
          { width := "80%", textContent := "80%", classList := ["progress-bar", "bg-success"] }
          15).classList :=
  (C29_indicators_agree_except_at_twenty ["drone-icon"]
    { width := "80%", textContent := "80%", classList := ["progress-bar", "bg-success"] }
    "standby" 15 (by decide)).2.2.1 (by decide)

end SmartGuard
